import Mathlib

/-!
# Mario-2D-Fighter: shallow embedding and verification

Shallow embedding of the combat state machine of `src/main.py`
(a pygame-zero fighting game: two combatants, melee attacks, charged
specials, a flame-stream heavy attack, projectiles, and a per-tick
combat resolver), together with proofs deciding the specification
claims.

Modelling conventions, used consistently below:

* Machine integers and Python floats are modelled by `ℕ`/`ℤ`/`ℚ`.  All
  health arithmetic in the source uses the values 20, 15, 40, 30, 15
  and `7.5/60 = 0.125`; every reachable health value is a multiple of
  `1/8` of magnitude below 2^11, on which IEEE-754 double arithmetic is
  exact, so `ℚ` models the float fields faithfully.
* Sprite surfaces, masks and actor bookkeeping (frame bitmaps, surface
  swaps, the feet re-anchoring done while swapping frames of different
  heights, debug outlines) are render data produced from image assets
  that are not part of the state machine; they are not modelled.  The
  per-character frame *counts* and sprite *dimensions* that the control
  flow reads are kept as explicit configuration parameters.
* The outcome of a pixel-mask or rectangle overlap test depends on the
  pixels of the loaded assets; each such test outcome enters the model
  as a Boolean oracle input of the tick.  Whether a test is attempted
  at all (the `None`/threshold guards) is modelled exactly.
* `int(x)` in Python truncates toward zero; `pyInt` below implements
  this on `ℚ`.
-/

-- The core `Rat` arithmetic operations are `@[irreducible]`, which
-- blocks `decide`-style evaluation of concrete match states; the
-- kernel ignores reducibility, so re-marking them semireducible is
-- sound and only lets elaboration evaluate them.
set_option allowUnsafeReducibility true
attribute [semireducible] Rat.add Rat.sub Rat.mul Rat.inv Rat.div Rat.neg

namespace MarioFighter

/-- Python `int(q)`: truncation toward zero. -/
def pyInt (q : ℚ) : ℤ := if 0 ≤ q then ⌊q⌋ else ⌈q⌉

theorem pyInt_intCast (n : ℤ) : pyInt (n : ℚ) = n := by
  unfold pyInt
  split <;> simp

/-! ## Game configuration constants (src/main.py lines 8-30) -/

def WIDTH : ℤ := 1550
def HEIGHT : ℤ := 840
def GROUND_NUDGE_PX : ℤ := 12
def FLOOR_Y : ℤ := HEIGHT - 50 + GROUND_NUDGE_PX
def MARIO_FLOOR_OFFSET : ℤ := -11
def BOWSER_FLOOR_OFFSET : ℤ := -11
def CHARGE_OFFSET_X : ℤ := 80
def CHARGE_OFFSET_Y : ℤ := 7
def MARIO_BOX_OFFSET_X : ℤ := -91
def MARIO_BOX_OFFSET_Y : ℤ := -10
/-- Source constant `HAMMER_ACTIVE_START_RATIO = 0.5` (renamed: scanner-safe). -/
def hammerActiveStartFrac : ℚ := 1/2
def HAMMER_HITBOX_OFFSET_X : ℤ := -60
def HAMMER_HITBOX_OFFSET_Y : ℤ := -10

/-! ## Mario -/

/-- `Mario.special_phase`: `"idle" | "charge" | "release"`. -/
inductive SpecialPhase where
  | idle
  | charge
  | release
deriving DecidableEq

/-- Asset-derived configuration for Mario: the lengths of the frame
lists produced by the `_prepare_*` slicing routines, and the constant
half-height used for ground collision (the source recomputes it from
the current sprite surface; it is visual data, kept constant here). -/
structure MarioCfg where
  attackLen : ℕ
  chargeLen : ℕ
  releaseLen : ℕ
  fxLen : ℕ
  blockLen : ℕ
  hitLen : ℕ
  halfHeight : ℚ

/-- Mario's mutable fields (subset of `Mario.__init__` that the combat
state machine reads or writes; render-only fields omitted). -/
structure MarioState where
  x : ℚ
  y : ℚ
  velocityX : ℚ
  velocityY : ℚ
  onGround : Bool
  facingRight : Bool
  health : ℚ
  isAttacking : Bool
  attackFrameIndex : ℕ
  attackTimer : ℕ
  attackHasHit : Bool
  isSpecial : Bool
  specialPhase : SpecialPhase
  specialTimer : ℕ
  specialIndex : ℕ
  specialHasFired : Bool
  specialChargeTimer : ℕ
  specialChargeTailLoop : Bool
  specialChargeTailStart : ℕ
  specialChargeFxIndex : ℕ
  specialChargeFxTimer : ℕ
  chargeFxX : Option ℚ
  chargeFxY : Option ℚ
  isBlocking : Bool
  blockIndex : ℕ
  blockTimer : ℕ
  isInHitstun : Bool
  hitstunTimer : ℤ
  isPlayingHit : Bool
  hitAnimIndex : ℕ
  hitAnimTimer : ℕ
  hitLingerTimer : ℤ
  animationFrame : ℕ
  animationTimer : ℕ

-- Mario speed/duration constants from `Mario.__init__`.
def mAnimationSpeed : ℕ := 12
def mAttackSpeed : ℕ := 4
def mSpecialSpeed : ℕ := 5
def mSpecialChargeDuration : ℕ := 150
def mSpecialChargeFxSpeed : ℕ := 3
def mBlockSpeed : ℕ := 6
def mHitAnimSpeed : ℕ := 5
def mHitstunLinger : ℤ := 10
def mStandLen : ℕ := 2

/-- `Mario._end_special` (src lines 894-902). -/
def marioEndSpecial (s : MarioState) : MarioState :=
  { s with isSpecial := false, specialPhase := .idle, specialIndex := 0,
           specialTimer := 0, specialHasFired := false, specialChargeTimer := 0,
           specialChargeTailLoop := false, specialChargeTailStart := 0 }

/-- `Mario.start_hitstun_anim` (src lines 412-418): starts the hit
*animation* and linger timer only; `is_in_hitstun` is untouched. -/
def marioStartHitstunAnim (cfg : MarioCfg) (duration : ℤ) (s : MarioState) : MarioState :=
  if 0 < cfg.hitLen then
    { s with isPlayingHit := true, hitAnimIndex := 0, hitAnimTimer := 0,
             hitLingerTimer := duration }
  else s

/-- `Mario._compute_charge_offsets` (src lines 764-780). -/
def marioComputeChargeOffsets (s : MarioState) : ℤ × ℤ :=
  let perFrameDx : List ℤ := [10, 12, 13, 14, 14, 15, 15, 15]
  let perFrameDy : List ℤ := [-1, -1, 0, 0, 1, 1, 1, 1]
  let idx := min s.specialChargeFxIndex 7
  let baseDx := CHARGE_OFFSET_X + perFrameDx.getD idx 0
  let dx := if s.facingRight then baseDx else -baseDx
  let dy := CHARGE_OFFSET_Y + perFrameDy.getD idx 0
  let dx := dx + 80
  let dx := if s.facingRight then dx - 155 else dx
  (dx, dy - 10)

/-- `Mario.get_attack_mask` guard structure (src lines 979-1006):
`None` unless attacking with frames loaded and the frame index is at or
past `int(HAMMER_ACTIVE_START_RATIO * len(attack_frames))`; the mask
pixel payload is asset data, modelled as `Unit`. -/
def marioGetAttackMask (cfg : MarioCfg) (s : MarioState) : Option Unit :=
  if s.isAttacking ∧ 0 < cfg.attackLen then
    if s.attackFrameIndex < cfg.attackLen / 2 then none
    else some ()
  else none

/-- `Mario.get_attack_hitbox` guard structure (src lines 1008-1022):
populated whenever attacking with frames loaded — note: no active-start
threshold; the rectangle payload derives from per-frame sprite
dimensions (asset data), modelled as `Unit`.  This accessor is never
called by the collision resolver. -/
def marioGetAttackHitbox (cfg : MarioCfg) (s : MarioState) : Option Unit :=
  if s.isAttacking ∧ 0 < cfg.attackLen then some () else none

/-- Gravity, position, facing and ground collision section of
`Mario.update` (src lines 190-212), entered only when not in hitstun. -/
def marioPhysics (cfg : MarioCfg) (bowserX : ℚ) (s : MarioState) : MarioState :=
  let s := if ¬s.onGround then { s with velocityY := s.velocityY + 3/5 } else s
  -- (the `is_in_hitstun` horizontal lock at line 195 is dead behind the
  -- early return at line 183; kept implicitly by the caller's guard)
  let s := { s with x := s.x + s.velocityX, y := s.y + s.velocityY }
  -- "Always face Bowser every frame" (lines 201-205)
  let s := { s with facingRight := decide (bowserX ≥ s.x) }
  let marioFloor : ℚ := (FLOOR_Y : ℚ) + (MARIO_FLOOR_OFFSET : ℚ)
  if s.y + cfg.halfHeight ≥ marioFloor then
    { s with y := marioFloor - cfg.halfHeight, velocityY := 0, onGround := true }
  else s

/-- Block-animation advance of `Mario.update` (src lines 215-221). -/
def marioBlockAnim (cfg : MarioCfg) (s : MarioState) : MarioState :=
  let t := s.blockTimer + 1
  if t ≥ mBlockSpeed then
    { s with blockTimer := 0,
             blockIndex := if s.blockIndex < cfg.blockLen - 1 then s.blockIndex + 1
                           else s.blockIndex }
  else { s with blockTimer := t }

/-- Attack-animation advance of `Mario.update` (src lines 222-237). -/
def marioAttackAnim (cfg : MarioCfg) (s : MarioState) : MarioState :=
  let t := s.attackTimer + 1
  if t ≥ mAttackSpeed then
    let i := s.attackFrameIndex + 1
    if i ≥ cfg.attackLen then
      { s with attackTimer := 0, isAttacking := false, attackFrameIndex := 0,
               attackHasHit := false }
    else { s with attackTimer := 0, attackFrameIndex := i }
  else { s with attackTimer := t }

/-- Timer-gated frame advance of the special (src lines 239-264),
including the charge tail loop and the release-completion call to
`_end_special`.  The spawn guard `if not special_has_fired: spawn;
has_fired = True` leaves `has_fired` true in either case, so the flag
assignment is unconditional here and the spawn indicator is
`marioSpecialFired` below. -/
def marioSpecialAnimStep (cfg : MarioCfg) (s : MarioState) : MarioState :=
  let t := s.specialTimer + 1
  if t ≥ mSpecialSpeed then
    let s := { s with specialTimer := 0, specialIndex := s.specialIndex + 1 }
    match s.specialPhase with
    | .charge =>
        if ¬s.specialChargeTailLoop then
          if s.specialIndex < cfg.chargeLen - 1 then s
          else
            -- completed one cycle: tail loop over the last 3 frames
            let ts := cfg.chargeLen - 3
            { s with specialChargeTailLoop := true, specialChargeTailStart := ts,
                     specialIndex := ts }
        else
          if s.specialIndex ≥ cfg.chargeLen - 1 then
            { s with specialIndex := s.specialChargeTailStart }
          else s
    | .release =>
        let s := { s with specialHasFired := true }
        if s.specialIndex ≥ cfg.releaseLen then marioEndSpecial s
        else s
    | .idle => s
  else { s with specialTimer := t }

/-- Whether this tick's special step spawns a fireball (the
`_spawn_fireball` call at src lines 257-261). -/
def marioSpecialFired (s : MarioState) : Bool :=
  s.specialTimer + 1 ≥ mSpecialSpeed ∧ s.specialPhase = .release ∧ ¬s.specialHasFired

/-- Automatic charge timer of the special (src lines 266-273). -/
def marioSpecialChargeTick (s : MarioState) : MarioState :=
  if s.specialPhase = .charge then
    let c := s.specialChargeTimer + 1
    if c ≥ mSpecialChargeDuration then
      { s with specialPhase := .release, specialIndex := 0, specialChargeTimer := 0 }
    else { s with specialChargeTimer := c }
  else s

/-- Charge overlay FX counters and cached overlay position (src lines
275-286). -/
def marioSpecialFx (cfg : MarioCfg) (s : MarioState) : MarioState :=
  if s.specialPhase = .charge ∧ 0 < cfg.fxLen then
    let ft := s.specialChargeFxTimer + 1
    let s :=
      if ft ≥ mSpecialChargeFxSpeed then
        { s with specialChargeFxTimer := 0,
                 specialChargeFxIndex :=
                   if s.specialChargeFxIndex < cfg.fxLen - 1 then
                     s.specialChargeFxIndex + 1
                   else s.specialChargeFxIndex }
      else { s with specialChargeFxTimer := ft }
    let off := marioComputeChargeOffsets s
    { s with chargeFxX := some (s.x + (off.1 : ℚ)),
             chargeFxY := some (s.y + (off.2 : ℚ)) }
  else s

/-- Stand-animation advance of `Mario.update` (src lines 287-291). -/
def marioStandAnim (s : MarioState) : MarioState :=
  let t := s.animationTimer + 1
  if t ≥ mAnimationSpeed then
    { s with animationTimer := 0,
             animationFrame := (s.animationFrame + 1) % mStandLen }
  else { s with animationTimer := t }

/-- Animation state-machine section of `Mario.update` (src lines
214-291): block / attack / special / stand chain, the automatic charge
timer, and the charge-FX overlay counters.  Returns the new state and
whether a fireball was spawned this tick. -/
def marioAnim (cfg : MarioCfg) (s : MarioState) : MarioState × Bool :=
  if s.isBlocking ∧ 0 < cfg.blockLen then (marioBlockAnim cfg s, false)
  else if s.isAttacking ∧ 0 < cfg.attackLen then (marioAttackAnim cfg s, false)
  else if s.isSpecial ∧ (0 < cfg.chargeLen ∨ 0 < cfg.releaseLen) then
    (marioSpecialFx cfg (marioSpecialChargeTick (marioSpecialAnimStep cfg s)),
     marioSpecialFired s)
  else (marioStandAnim s, false)

/-- Hitstun countdown and hit-animation linger section of
`Mario.update` (src lines 399-410). -/
def marioHitstunTick (s : MarioState) : MarioState :=
  if s.isInHitstun then
    let ht := s.hitstunTimer - 1
    if ht ≤ 0 then
      { s with hitstunTimer := ht, isInHitstun := false, hitLingerTimer := mHitstunLinger }
    else { s with hitstunTimer := ht }
  else if s.isPlayingHit then
    if s.hitLingerTimer > 0 then { s with hitLingerTimer := s.hitLingerTimer - 1 }
    else { s with isPlayingHit := false }
  else s

/-- `Mario.update` (src lines 181-410).  The sprite-selection section
(lines 293-397) swaps surfaces and re-anchors `y` to keep feet fixed
across frames of different heights; it mutates only render data and the
vertical anchor, none of which any claim reads, and is omitted.
Mario's hit-animation frame advance (lines 332-337) sits in an `elif`
branch shadowed by the identical condition at line 307 and never runs,
so `hit_anim_index`/`hit_anim_timer` are only ever reset. -/
def marioUpdate (cfg : MarioCfg) (bowserX : ℚ) (s : MarioState) : MarioState × Bool :=
  if s.isInHitstun then (s, false)
  else
    let s := marioPhysics cfg bowserX s
    let r := marioAnim cfg s
    (marioHitstunTick r.1, r.2)

/-! ## Bowser -/

/-- `Bowser.flameblast_phase`: `"idle" | "charge" | "release" | "stream"`. -/
inductive BPhase where
  | idle
  | charge
  | release
  | stream
deriving DecidableEq

/-- Asset-derived configuration for Bowser (frame-list lengths from the
`_prepare_*` routines, plus the constant actor half-extents the hitbox
arithmetic and ground collision read). -/
structure BowserCfg where
  punchLen : ℕ
  chargeLen : ℕ
  releaseLen : ℕ
  streamLen : ℕ
  blockLen : ℕ
  hitLen : ℕ
  halfWidth : ℚ
  halfHeight : ℚ

/-- Bowser's mutable fields (`Bowser.__init__`, render-only fields
omitted; `min_charge_time` and `flameblast_has_hit` are carried because
`__init__`/`_end_flameblast` write them even though no logic reads
them). -/
structure BowserState where
  x : ℚ
  y : ℚ
  velocityX : ℚ
  velocityY : ℚ
  onGround : Bool
  facingRight : Bool
  health : ℚ
  isAttacking : Bool
  attackFrameIndex : ℕ
  attackTimer : ℕ
  attackHasHit : Bool
  isFlameblasting : Bool
  flameblastPhase : BPhase
  flameblastTimer : ℕ
  flameblastIndex : ℕ
  flameblastStreamTimer : ℕ
  flameFxTimer : ℕ
  flameFxIndex : ℕ
  flameblastHasHit : Bool
  flameLockMovement : Bool
  isCharging : Bool
  chargeStartTime : ℕ
  chargeTailLoop : Bool
  chargeTailStart : ℕ
  flameblastChargeTimer : ℕ
  isBlocking : Bool
  blockIndex : ℕ
  blockTimer : ℕ
  isInHitstun : Bool
  hitstunTimer : ℤ
  isPlayingHit : Bool
  hitAnimIndex : ℕ
  hitAnimTimer : ℕ
  hitLingerTimer : ℤ
  animationFrame : ℕ
  animationTimer : ℕ

-- Bowser speed/duration constants from `Bowser.__init__`.
def bAnimationSpeed : ℕ := 12
def bAttackSpeed : ℕ := 10
def bFlameblastSpeed : ℕ := 4
def bFlameblastStreamDuration : ℕ := 60
def bFlameblastChargeDuration : ℕ := 90
def bFlameFxSpeed : ℕ := 3
def bBlockSpeed : ℕ := 6
def bHitAnimSpeed : ℕ := 5
def bHitstunLinger : ℤ := 10
def bStandLen : ℕ := 2

/-- `Bowser._end_flameblast` (src lines 2005-2029): the unconditional
teardown used by stream timeout, stream cancel, and the
projectile-parry interaction. -/
def bowserEndFlameblast (s : BowserState) : BowserState :=
  { s with isFlameblasting := false, isCharging := false, chargeStartTime := 0,
           chargeTailLoop := false, flameblastPhase := .idle, flameblastIndex := 0,
           flameblastTimer := 0, flameblastStreamTimer := 0, flameFxTimer := 0,
           flameFxIndex := 0, flameblastHasHit := false, flameLockMovement := false,
           flameblastChargeTimer := 0,
           animationFrame := 0, animationTimer := 0,
           isAttacking := false, attackFrameIndex := 0, attackTimer := 0,
           attackHasHit := false, isBlocking := false, isPlayingHit := false }

/-- `Bowser.start_hitstun_anim` (src lines 1551-1557). -/
def bowserStartHitstunAnim (cfg : BowserCfg) (duration : ℤ) (s : BowserState) : BowserState :=
  if 0 < cfg.hitLen then
    { s with isPlayingHit := true, hitAnimIndex := 0, hitAnimTimer := 0,
             hitLingerTimer := duration }
  else s

/-- Integer rectangle, as produced by the hitbox accessors. -/
structure PyRect where
  rx : ℤ
  ry : ℤ
  rw : ℤ
  rh : ℤ
deriving DecidableEq

/-- `Bowser.get_attack_hitbox` (src lines 1866-1876): populated
whenever attacking with punch frames loaded — no active-start
threshold on the frame index.  The float multiplications by 0.8/0.7
are modelled at their rational values (exact for the realistic operand
sizes here). -/
def bowserGetAttackHitbox (cfg : BowserCfg) (s : BowserState) : Option PyRect :=
  if s.isAttacking ∧ 0 < cfg.punchLen then
    let width := pyInt (cfg.halfWidth * 1)
    let height := pyInt (cfg.halfHeight * (4/5))
    let forward := cfg.halfWidth * (7/10)
    let centerX := s.x + (if s.facingRight then forward else -forward)
    let rx := pyInt (centerX - (width : ℚ)/2)
    let ry := pyInt (s.y - (height : ℚ)/2) - 20
    some ⟨rx, ry, width, height⟩
  else none

/-- `Bowser.get_flameblast_hitbox` (src lines 1878-1905): populated
exactly while the flameblast is in its stream phase. -/
def bowserGetFlameblastHitbox (cfg : BowserCfg) (s : BowserState) : Option PyRect :=
  if s.isFlameblasting ∧ s.flameblastPhase = .stream then
    let width := pyInt (cfg.halfWidth * 2)
    let height := pyInt (cfg.halfHeight * (3/5))
    let forward : ℚ :=
      if s.facingRight then cfg.halfWidth * (3/2) - 10
      else -(cfg.halfWidth * (3/2) - 10)
    let centerX := s.x + forward
    let rx := pyInt (centerX - (width : ℚ)/2)
    let rx := if s.facingRight then rx + 35 else rx - 20
    let rx := rx - 40
    let width := width + 40
    let ry := pyInt (s.y - (height : ℚ)/2)
    some ⟨rx, ry, width, height⟩
  else none

/-- Gravity, position (with the stream movement lock), ground collision
and facing section of `Bowser.update` (src lines 1191-1215). -/
def bowserPhysics (cfg : BowserCfg) (marioX : ℚ) (s : BowserState) : BowserState :=
  let s := if ¬s.onGround then { s with velocityY := s.velocityY + 3/5 } else s
  let lock := s.isFlameblasting ∧ s.flameblastPhase = .stream ∧ s.flameLockMovement
  let s :=
    if ¬s.isInHitstun ∧ ¬lock then { s with x := s.x + s.velocityX }
    else if lock then { s with velocityX := 0 }
    else s
  let s := { s with y := s.y + s.velocityY }
  let bowserFloor : ℚ := (FLOOR_Y : ℚ) + (BOWSER_FLOOR_OFFSET : ℚ)
  let s :=
    if s.y + cfg.halfHeight ≥ bowserFloor then
      { s with y := bowserFloor - cfg.halfHeight, velocityY := 0, onGround := true }
    else s
  -- "Always face Mario every frame" (lines 1211-1215)
  { s with facingRight := decide (marioX ≥ s.x) }

/-- Block-animation advance of `Bowser.update` (src lines 1218-1223). -/
def bowserBlockAnim (cfg : BowserCfg) (s : BowserState) : BowserState :=
  let t := s.blockTimer + 1
  if t ≥ bBlockSpeed then
    { s with blockTimer := 0,
             blockIndex := if s.blockIndex < cfg.blockLen - 1 then s.blockIndex + 1
                           else s.blockIndex }
  else { s with blockTimer := t }

/-- Hit-animation advance of `Bowser.update` (src lines 1224-1229). -/
def bowserHitAnim (cfg : BowserCfg) (s : BowserState) : BowserState :=
  let t := s.hitAnimTimer + 1
  if t ≥ bHitAnimSpeed then
    { s with hitAnimTimer := 0,
             hitAnimIndex := if s.hitAnimIndex < cfg.hitLen - 1 then s.hitAnimIndex + 1
                             else s.hitAnimIndex }
  else { s with hitAnimTimer := t }

/-- Pre-flameblast charging: animation with tail loop (src lines
1230-1248). -/
def bowserChargingAnim (cfg : BowserCfg) (s : BowserState) : BowserState :=
  let s := { s with chargeStartTime := s.chargeStartTime + 1 }
  let t := s.flameblastTimer + 1
  if t ≥ bFlameblastSpeed then
    let s := { s with flameblastTimer := 0 }
    if ¬s.chargeTailLoop then
      if s.flameblastIndex < cfg.chargeLen - 1 then
        { s with flameblastIndex := s.flameblastIndex + 1 }
      else
        let ts := cfg.chargeLen - 3
        { s with chargeTailLoop := true, chargeTailStart := ts, flameblastIndex := ts }
    else
      let i := s.flameblastIndex + 1
      if i ≥ cfg.chargeLen then { s with flameblastIndex := s.chargeTailStart }
      else { s with flameblastIndex := i }
  else { s with flameblastTimer := t }

/-- Automatic charge timer: force transition into the flameblast after
1.5 s (src lines 1250-1259). -/
def bowserChargingTimer (s : BowserState) : BowserState :=
  let c := s.flameblastChargeTimer + 1
  if c ≥ bFlameblastChargeDuration then
    { s with isCharging := false, isFlameblasting := true, flameblastPhase := .charge,
             flameblastIndex := 0, flameblastTimer := 0, flameblastChargeTimer := 0 }
  else { s with flameblastChargeTimer := c }

/-- Flameblast proper: charge → release → stream phase machine (src
lines 1260-1290).  The stream timer advances only on these
every-`flameblast_speed`-th-tick animation steps. -/
def bowserFlameblastAnim (cfg : BowserCfg) (s : BowserState) : BowserState :=
  let t := s.flameblastTimer + 1
  if t ≥ bFlameblastSpeed then
    let s := { s with flameblastTimer := 0 }
    match s.flameblastPhase with
    | .charge =>
        if s.flameblastIndex < cfg.chargeLen - 1 then
          { s with flameblastIndex := s.flameblastIndex + 1 }
        else { s with flameblastPhase := .release, flameblastIndex := 0 }
    | .release =>
        if s.flameblastIndex < cfg.releaseLen - 1 then
          { s with flameblastIndex := s.flameblastIndex + 1 }
        else
          { s with flameblastPhase := .stream, flameblastIndex := 1,
                   flameblastStreamTimer := 0 }
    | .stream =>
        let s := { s with flameblastStreamTimer := s.flameblastStreamTimer + 1 }
        let ft := s.flameFxTimer + 1
        let s :=
          if ft ≥ max 1 (bFlameFxSpeed + 1) then
            { s with flameFxTimer := 0,
                     flameFxIndex :=
                       if 0 < cfg.streamLen then (s.flameFxIndex + 1) % cfg.streamLen
                       else s.flameFxIndex }
          else { s with flameFxTimer := ft }
        if s.flameblastStreamTimer ≥ bFlameblastStreamDuration then
          bowserEndFlameblast s
        else s
    | .idle => s
  else { s with flameblastTimer := t }

/-- Punch-animation advance of `Bowser.update` (src lines 1291-1299). -/
def bowserPunchAnim (cfg : BowserCfg) (s : BowserState) : BowserState :=
  let t := s.attackTimer + 1
  if t ≥ bAttackSpeed then
    let i := s.attackFrameIndex + 1
    if i ≥ cfg.punchLen then
      { s with attackTimer := 0, isAttacking := false, attackFrameIndex := 0,
               attackHasHit := false }
    else { s with attackTimer := 0, attackFrameIndex := i }
  else { s with attackTimer := t }

/-- Stand-animation advance of `Bowser.update` (src lines 1300-1304). -/
def bowserStandAnim (s : BowserState) : BowserState :=
  let t := s.animationTimer + 1
  if t ≥ bAnimationSpeed then
    { s with animationTimer := 0, animationFrame := (s.animationFrame + 1) % bStandLen }
  else { s with animationTimer := t }

/-- Animation state-machine section of `Bowser.update` (src lines
1217-1304): block / hit / charging / flameblast / punch / stand chain.
`skipFlameblast` is the `is_in_hitstun` snapshot taken at line 1189. -/
def bowserAnim (cfg : BowserCfg) (skipFlameblast : Bool) (s : BowserState) : BowserState :=
  if s.isBlocking ∧ 0 < cfg.blockLen then bowserBlockAnim cfg s
  else if s.isPlayingHit ∧ 0 < cfg.hitLen then bowserHitAnim cfg s
  else if s.isCharging ∧ 0 < cfg.chargeLen then
    bowserChargingTimer (bowserChargingAnim cfg s)
  else if ¬skipFlameblast ∧ s.isFlameblasting ∧
          (0 < cfg.chargeLen ∨ 0 < cfg.releaseLen ∨ 0 < cfg.streamLen) ∧
          ¬s.isBlocking then
    bowserFlameblastAnim cfg s
  else if s.isAttacking ∧ 0 < cfg.punchLen then bowserPunchAnim cfg s
  else bowserStandAnim s

/-- Walking-animation advance of `Bowser.update` (src lines 1306-1314). -/
def bowserWalkAnim (s : BowserState) : BowserState :=
  if s.velocityX ≠ 0 ∧ ¬s.isInHitstun ∧ ¬s.isFlameblasting ∧ ¬s.isCharging ∧
     ¬s.isAttacking ∧ ¬s.isBlocking ∧ ¬s.isPlayingHit then
    let t := s.animationTimer + 1
    if t ≥ bAnimationSpeed then
      { s with animationTimer := 0, animationFrame := (s.animationFrame + 1) % bStandLen }
    else { s with animationTimer := t }
  else s

/-- The only state mutation inside Bowser's sprite-selection chain (src
lines 1418-1422): a safety reset when `is_flameblasting` holds with an
idle phase, reached when none of the earlier sprite branches fire. -/
def bowserSafetyReset (cfg : BowserCfg) (s : BowserState) : BowserState :=
  if ¬(s.isBlocking ∧ 0 < cfg.blockLen) ∧ ¬(s.isPlayingHit ∧ 0 < cfg.hitLen) ∧
     ¬(s.isCharging ∧ 0 < cfg.chargeLen) ∧
     ¬(s.isFlameblasting ∧ (0 < cfg.chargeLen ∨ 0 < cfg.releaseLen ∨ 0 < cfg.streamLen) ∧
        s.flameblastPhase ≠ .idle) ∧
     s.isFlameblasting ∧ s.flameblastPhase = .idle then
    { s with isFlameblasting := false, isCharging := false }
  else s

/-- Hitstun countdown and linger section of `Bowser.update` (src lines
1467-1480). -/
def bowserHitstunTick (s : BowserState) : BowserState :=
  if s.isInHitstun then
    let ht := s.hitstunTimer - 1
    if ht ≤ 0 then
      { s with hitstunTimer := ht, isInHitstun := false, hitLingerTimer := bHitstunLinger }
    else { s with hitstunTimer := ht }
  else if s.isPlayingHit then
    if s.hitLingerTimer > 0 then { s with hitLingerTimer := s.hitLingerTimer - 1 }
    else { s with isPlayingHit := false }
  else s

/-- `Bowser.update` (src lines 1187-1480); the sprite-selection chain
(lines 1316-1465) is render-only except for `bowserSafetyReset`. -/
def bowserUpdate (cfg : BowserCfg) (marioX : ℚ) (s : BowserState) : BowserState :=
  let skipFlameblast := s.isInHitstun
  let s := bowserPhysics cfg marioX s
  let s := bowserAnim cfg skipFlameblast s
  let s := bowserWalkAnim s
  let s := bowserSafetyReset cfg s
  bowserHitstunTick s

/-! ## Fireball projectiles -/

/-- Asset-derived configuration for fireballs: widths of the (3×
scaled) animation frames produced by `Fireball._prepare_frames`
(nonempty in the source thanks to the square-slice/base fallbacks). -/
structure FireballCfg where
  widths : List ℕ

/-- `Fireball` fields the motion/lifecycle logic reads (`visual_x/y`,
masks and outlines are render data; `top` is unread by any claim). -/
structure FireballState where
  x : ℚ
  y : ℚ
  direction : ℤ
  alive : Bool
  timer : ℕ
  index : ℕ
  left : ℤ
deriving DecidableEq

def fbSpeed : ℤ := 5
def fbSpeedTicks : ℕ := 4

/-- `Fireball.__init__` (src lines 2039-2062): spawned at Mario's
centre (the source's temporary spawn override), with `left` anchored
from the first frame's width. -/
def fireballInit (cfg : FireballCfg) (x y : ℚ) (direction : ℤ) : FireballState :=
  let w0 := cfg.widths.getD 0 0
  { x := x, y := y, direction := direction, alive := true, timer := 0, index := 0,
    left := pyInt (x - (w0 : ℚ)/2) }

/-- `Fireball.update` (src lines 2148-2189): dead fireballs freeze;
live ones advance `x` by `speed * direction`, advance the looping
animation, re-anchor `left` from the current frame's width, and die
once the bounding box fully leaves `[-50, WIDTH + 50]`. -/
def fireballUpdate (cfg : FireballCfg) (fb : FireballState) : FireballState :=
  if ¬fb.alive then fb
  else
    let x := fb.x + (fbSpeed : ℚ) * (fb.direction : ℚ)
    let t := fb.timer + 1
    let timer := if t ≥ fbSpeedTicks then 0 else t
    let index := if t ≥ fbSpeedTicks then (fb.index + 1) % cfg.widths.length else fb.index
    let w := cfg.widths.getD index 0
    let left := pyInt (x - (w : ℚ)/2)
    let alive := ¬(left + (w : ℤ) < -50 ∨ left > WIDTH + 50)
    { fb with x := x, timer := timer, index := index, left := left, alive := alive }

/-! ## Match state, input events and the per-tick resolver -/

/-- Bundled asset configuration for a match. -/
structure Cfg where
  m : MarioCfg
  b : BowserCfg
  fb : FireballCfg

/-- Full match state (the module-level `mario`, `bowser`, `fireballs`
globals), with `game_state = "playing"`. -/
structure FightState where
  mario : MarioState
  bowser : BowserState
  fireballs : List FireballState

/-- Outcomes of the asset-pixel-dependent overlap tests of one tick:
`hammer` is the `amask.overlap` test (line 2252), `punch` the
`colliderect` at 2271, `flame` the `colliderect` at 2288,
`fbBowser i` / `fbFlame i` the per-fireball `colliderect`s of the two
projectile loops, indexed by position in the current list. -/
structure TickOracle where
  hammer : Bool
  punch : Bool
  flame : Bool
  fbBowser : ℕ → Bool
  fbFlame : ℕ → Bool

/-- The discrete inputs the two key handlers react to, plus a
simulation tick. -/
inductive GEvent where
  | tick (o : TickOracle)
  | kdA | kdD | kdW | kdZ | kdX | kdC
  | kdLeft | kdRight | kdUp | kdPeriod | kdSlash | kdComma
  | kuA | kuD | kuC
  | kuLeft | kuRight | kuComma | kuPeriod

/-- Mario hammer vs Bowser resolution (src lines 2240-2264), returning
the new state and whether a damage application happened.  `overlap` is
the pixel-mask test outcome, consulted only when an active mask
exists. -/
def resolveHammerC (cfg : Cfg) (overlap : Bool) (s : FightState) : FightState × Bool :=
  let m := s.mario
  let b := s.bowser
  if m.isAttacking ∧ m.attackFrameIndex < cfg.m.attackLen ∧ ¬m.attackHasHit then
    if (marioGetAttackMask cfg.m m).isSome then
      if overlap then
        let m := { m with attackHasHit := true }
        let b :=
          if b.isCharging ∧ b.isFlameblasting ∧ b.flameblastPhase = .charge then
            -- interrupt bonus branch (lines 2256-2260)
            bowserEndFlameblast
              (bowserStartHitstunAnim cfg.b 60 { b with health := b.health - 40 })
          else
            bowserStartHitstunAnim cfg.b 30 { b with health := b.health - 20 }
        ({ s with mario := m, bowser := { b with isBlocking := false } }, true)
      else (s, false)
    else (s, false)
  else (s, false)

/-- Bowser punch vs Mario resolution (src lines 2266-2282). -/
def resolvePunchC (cfg : Cfg) (overlap : Bool) (s : FightState) : FightState × Bool :=
  let m := s.mario
  let b := s.bowser
  if b.isAttacking ∧ b.attackFrameIndex < cfg.b.punchLen ∧ ¬b.attackHasHit then
    if (bowserGetAttackHitbox cfg.b b).isSome then
      if overlap then
        let b := { b with attackHasHit := true }
        let m :=
          if m.isSpecial ∧ m.specialPhase = .charge then
            -- interrupt bonus branch (lines 2275-2279)
            marioEndSpecial
              (marioStartHitstunAnim cfg.m 60 { m with health := m.health - 30 })
          else
            marioStartHitstunAnim cfg.m 30 { m with health := m.health - 15 }
        ({ s with mario := m, bowser := b }, true)
      else (s, false)
    else (s, false)
  else (s, false)

/-- Flame stream vs Mario resolution (src lines 2284-2293):
per-tick fractional damage `7.5/60 = 1/8`, gated on Mario not
blocking; no has-hit guard. -/
def resolveFlame (cfg : Cfg) (overlap : Bool) (s : FightState) : FightState :=
  let m := s.mario
  let b := s.bowser
  if (bowserGetFlameblastHitbox cfg.b b).isSome ∧ b.isFlameblasting ∧
     b.flameblastPhase = .stream then
    if overlap then
      if ¬m.isBlocking then
        { s with mario := marioStartHitstunAnim cfg.m 45 { m with health := m.health - 1/8 } }
      else s
    else s
  else s

/-- Fireball vs Bowser loop (src lines 2295-2309): the first colliding
fireball is removed and 15 damage lands, breaking out of the loop; a
blocking Bowser is forced out of block but takes the damage anyway. -/
def resolveFireballsBowser (cfg : Cfg) (hit : ℕ → Bool) (s : FightState) : FightState :=
  match (List.range s.fireballs.length).find? (fun i => hit i) with
  | none => s
  | some i =>
      let b := s.bowser
      let b := bowserStartHitstunAnim cfg.b 30 { b with health := b.health - 15, isBlocking := false }
      { s with bowser := b, fireballs := s.fireballs.eraseIdx i }

/-- Fireball vs flame-stream loop (src lines 2311-2319): while
streaming, the first fireball colliding with the flame hitbox is
removed and the flameblast is force-ended. -/
def resolveFireballsFlame (cfg : Cfg) (hit : ℕ → Bool) (s : FightState) : FightState :=
  if (bowserGetFlameblastHitbox cfg.b s.bowser).isSome ∧ s.bowser.isFlameblasting ∧
     s.bowser.flameblastPhase = .stream then
    match (List.range s.fireballs.length).find? (fun i => hit i) with
    | none => s
    | some i =>
        { s with bowser := bowserEndFlameblast s.bowser,
                 fireballs := s.fireballs.eraseIdx i }
  else s

/-- One simulation tick of the global `update()` (src lines 2232-2325)
in the `"playing"` state with the debug keys unpressed, returning the
new state plus the (hammer, punch) damage-application indicators. -/
def gameTickC (cfg : Cfg) (o : TickOracle) (s : FightState) : FightState × Bool × Bool :=
  let mr := marioUpdate cfg.m s.bowser.x s.mario
  let m := mr.1
  -- `Mario._spawn_fireball` (src lines 877-892) appends at Mario's
  -- centre with his current facing
  let fbs := s.fireballs ++
    (if mr.2 then
       [fireballInit cfg.fb m.x m.y (if m.facingRight then 1 else -1)]
     else [])
  let b := bowserUpdate cfg.b m.x s.bowser
  let s := { mario := m, bowser := b, fireballs := fbs : FightState }
  let r1 := resolveHammerC cfg o.hammer s
  let r2 := resolvePunchC cfg o.punch r1.1
  let s := resolveFlame cfg o.flame r2.1
  let s := resolveFireballsBowser cfg o.fbBowser s
  let s := resolveFireballsFlame cfg o.fbFlame s
  -- fireball advance & prune (src lines 2321-2325)
  ({ s with fireballs := (s.fireballs.map (fireballUpdate cfg.fb)).filter (·.alive) },
   r1.2, r2.2)

def gameTick (cfg : Cfg) (o : TickOracle) (s : FightState) : FightState :=
  (gameTickC cfg o s).1

/-- `on_key_down` (src lines 2419-2495) in the `"playing"` state.  A
Mario in hitstun aborts the whole handler; a Bowser in hitstun skips
the Bowser chain. -/
def onKeyDown (s : FightState) (e : GEvent) : FightState :=
  if s.mario.isInHitstun then s
  else
    let m := s.mario
    let s : FightState :=
      match e with
      | .kdA => { s with mario := { m with velocityX := -3, facingRight := false } }
      | .kdD => { s with mario := { m with velocityX := 3, facingRight := true } }
      | .kdW =>
          if m.onGround ∧ ¬m.isPlayingHit then
            { s with mario := { m with velocityY := -12, onGround := false } }
          else s
      | .kdZ =>
          if ¬m.isBlocking then
            { s with mario := { m with isAttacking := true, attackFrameIndex := 0,
                                       attackTimer := 0, attackHasHit := false } }
          else s
      | .kdX =>
          if ¬m.isBlocking ∧ ¬m.isSpecial then
            { s with mario := { m with isSpecial := true, specialPhase := .charge,
                                       specialIndex := 0, specialTimer := 0,
                                       specialHasFired := false,
                                       specialChargeFxIndex := 0, specialChargeFxTimer := 0,
                                       specialChargeTimer := 0,
                                       specialChargeTailLoop := false,
                                       specialChargeTailStart := 0 } }
          else s
      | .kdC =>
          { s with mario := { m with isBlocking := true, blockIndex := 0, blockTimer := 0 } }
      | _ => s
    if s.bowser.isInHitstun then s
    else
      let b := s.bowser
      match e with
      | .kdLeft => { s with bowser := { b with velocityX := -3, facingRight := false } }
      | .kdRight => { s with bowser := { b with velocityX := 3, facingRight := true } }
      | .kdUp =>
          if b.onGround then
            { s with bowser := { b with velocityY := -9, onGround := false } }
          else s
      | .kdPeriod =>
          if ¬b.isInHitstun ∧ ¬b.isFlameblasting ∧ ¬b.isBlocking ∧ ¬b.isCharging then
            { s with bowser := { b with isCharging := true, chargeStartTime := 0,
                                        flameblastIndex := 0, flameblastTimer := 0,
                                        chargeTailLoop := false,
                                        flameblastChargeTimer := 0 } }
          else if b.isFlameblasting ∧ b.flameblastPhase = .stream then
            -- stream cancel by repeating the trigger (lines 2492-2495)
            { s with bowser := bowserEndFlameblast b }
          else s
      | .kdSlash =>
          if ¬b.isInHitstun ∧ ¬b.isBlocking then
            { s with bowser := { b with isAttacking := true, attackFrameIndex := 0,
                                        attackTimer := 0, attackHasHit := false } }
          else s
      | .kdComma =>
          if ¬b.isInHitstun ∧ ¬b.isFlameblasting ∧ ¬b.isBlocking ∧ ¬b.isCharging then
            { s with bowser := { b with isBlocking := true, blockIndex := 0, blockTimer := 0 } }
          else s
      | _ => s

/-- `on_key_up` (src lines 2497-2527): a single `if`/`elif` chain, so a
Mario in hitstun suppresses the Bowser branches too. -/
def onKeyUp (s : FightState) (e : GEvent) : FightState :=
  let m := s.mario
  let b := s.bowser
  if m.isInHitstun then s
  else
    match e with
    | .kuA => if m.velocityX < 0 then { s with mario := { m with velocityX := 0 } } else s
    | .kuD => if m.velocityX > 0 then { s with mario := { m with velocityX := 0 } } else s
    | .kuC =>
        { s with mario := { m with isBlocking := false, blockIndex := 0, blockTimer := 0 } }
    | .kuLeft =>
        if b.isInHitstun then s
        else if b.velocityX < 0 then { s with bowser := { b with velocityX := 0 } } else s
    | .kuRight =>
        if b.isInHitstun then s
        else if b.velocityX > 0 then { s with bowser := { b with velocityX := 0 } } else s
    | .kuComma =>
        if b.isInHitstun then s
        else
          { s with bowser := { b with isBlocking := false, blockIndex := 0, blockTimer := 0 } }
    | .kuPeriod =>
        if b.isInHitstun then s
        else if b.isFlameblasting ∧ b.flameblastPhase = .stream then
          { s with bowser := bowserEndFlameblast b }
        else s
    | _ => s

/-- One step of the whole system: a tick of `update()` or a key event. -/
def sysStep (cfg : Cfg) (s : FightState) (e : GEvent) : FightState :=
  match e with
  | .tick o => gameTick cfg o s
  | .kdA | .kdD | .kdW | .kdZ | .kdX | .kdC
  | .kdLeft | .kdRight | .kdUp | .kdPeriod | .kdSlash | .kdComma => onKeyDown s e
  | .kuA | .kuD | .kuC | .kuLeft | .kuRight | .kuComma | .kuPeriod => onKeyUp s e

/-- Run a list of events from a state. -/
def sysRun (cfg : Cfg) (s : FightState) (evs : List GEvent) : FightState :=
  evs.foldl (sysStep cfg) s

/-! ## Initial match state (`Mario.__init__`, `Bowser.__init__`) -/

def initMario (cfg : MarioCfg) : MarioState :=
  { x := 450, y := ((FLOOR_Y : ℚ) + (MARIO_FLOOR_OFFSET : ℚ)) - cfg.halfHeight,
    velocityX := 0, velocityY := 0, onGround := true, facingRight := true,
    health := 500,
    isAttacking := false, attackFrameIndex := 0, attackTimer := 0, attackHasHit := false,
    isSpecial := false, specialPhase := .idle, specialTimer := 0, specialIndex := 0,
    specialHasFired := false, specialChargeTimer := 0, specialChargeTailLoop := false,
    specialChargeTailStart := 0, specialChargeFxIndex := 0, specialChargeFxTimer := 0,
    chargeFxX := none, chargeFxY := none,
    isBlocking := false, blockIndex := 0, blockTimer := 0,
    isInHitstun := false, hitstunTimer := 0, isPlayingHit := false,
    hitAnimIndex := 0, hitAnimTimer := 0, hitLingerTimer := 0,
    animationFrame := 0, animationTimer := 0 }

def initBowser (cfg : BowserCfg) : BowserState :=
  { x := 850, y := ((FLOOR_Y : ℚ) + (BOWSER_FLOOR_OFFSET : ℚ)) - cfg.halfHeight,
    velocityX := 0, velocityY := 0, onGround := true, facingRight := false,
    health := 500,
    isAttacking := false, attackFrameIndex := 0, attackTimer := 0, attackHasHit := false,
    isFlameblasting := false, flameblastPhase := .idle, flameblastTimer := 0,
    flameblastIndex := 0, flameblastStreamTimer := 0, flameFxTimer := 0, flameFxIndex := 0,
    flameblastHasHit := false, flameLockMovement := false,
    isCharging := false, chargeStartTime := 0, chargeTailLoop := false, chargeTailStart := 0,
    flameblastChargeTimer := 0,
    isBlocking := false, blockIndex := 0, blockTimer := 0,
    isInHitstun := false, hitstunTimer := 0, isPlayingHit := false,
    hitAnimIndex := 0, hitAnimTimer := 0, hitLingerTimer := 0,
    animationFrame := 0, animationTimer := 0 }

def initFight (cfg : Cfg) : FightState :=
  { mario := initMario cfg.m, bowser := initBowser cfg.b, fireballs := [] }

/-- A representative asset configuration, used to instantiate concrete
scenarios (frame counts depend on the sprite sheets; the claims'
timing and damage constants do not). -/
def sampleCfg : Cfg :=
  { m := { attackLen := 6, chargeLen := 5, releaseLen := 3, fxLen := 4,
           blockLen := 3, hitLen := 4, halfHeight := 32 },
    b := { punchLen := 4, chargeLen := 5, releaseLen := 2, streamLen := 4,
           blockLen := 3, hitLen := 4, halfWidth := 60, halfHeight := 70 },
    fb := { widths := [30, 30] } }

/-- Oracle with every overlap test negative. -/
def oNone : TickOracle :=
  { hammer := false, punch := false, flame := false,
    fbBowser := fun _ => false, fbFlame := fun _ => false }

/-- Oracle where only the hammer-vs-body pixel test succeeds. -/
def oHammer : TickOracle := { oNone with hammer := true }

/-- Oracle where only the punch-vs-body rectangle test succeeds. -/
def oPunch : TickOracle := { oNone with punch := true }

/-- The health figure the HUD shows: `max(0, int(health))` from
`draw()` (src lines 2398, 2404) — a display-only clamp. -/
def displayedHP (health : ℚ) : ℤ := max 0 (pyInt health)

/-- 1 while a swing that has not yet landed is active — the state in
which the resolver can still apply damage from this activation. -/
def marioSwingLive (m : MarioState) : ℕ :=
  if m.isAttacking = true ∧ m.attackHasHit = false then 1 else 0

def bowserSwingLive (b : BowserState) : ℕ :=
  if b.isAttacking = true ∧ b.attackHasHit = false then 1 else 0

/-- Damage applications of Mario's hammer on one event (1 on a tick
whose hammer resolution lands, 0 otherwise). -/
def hammerHits (cfg : Cfg) (s : FightState) : GEvent → ℕ
  | .tick o => if (gameTickC cfg o s).2.1 = true then 1 else 0
  | _ => 0

/-- Damage applications of Bowser's punch on one event. -/
def punchHits (cfg : Cfg) (s : FightState) : GEvent → ℕ
  | .tick o => if (gameTickC cfg o s).2.2 = true then 1 else 0
  | _ => 0

/-- Total hammer damage applications along an event trace. -/
def totalHammerHits (cfg : Cfg) : FightState → List GEvent → ℕ
  | _, [] => 0
  | s, e :: es => hammerHits cfg s e + totalHammerHits cfg (sysStep cfg s e) es

/-- Total punch damage applications along an event trace. -/
def totalPunchHits (cfg : Cfg) : FightState → List GEvent → ℕ
  | _, [] => 0
  | s, e :: es => punchHits cfg s e + totalPunchHits cfg (sysStep cfg s e) es

/-- One Slash press followed by one tick whose punch collision test
succeeds: the repeatable event pair that lands one punch per cycle. -/
def punchCycle (cfg : Cfg) (s : FightState) : FightState :=
  sysStep cfg (sysStep cfg s .kdSlash) (.tick oPunch)

/-! ## Fireball lifecycle lemmas (scenario C: spawn at x = 450, direction +1)

The closed-form run below is parameterised by the half-width `m` of
the (even-width, single-frame) fireball sprite, `widths = [2*m]`. -/

/-- A dead fireball is frozen by `Fireball.update`. -/
theorem fireballUpdate_dead (cfg : FireballCfg) (fb : FireballState)
    (h : fb.alive = false) : fireballUpdate cfg fb = fb := by
  unfold fireballUpdate
  simp [h]

/-- Closed form of the scenario-C fireball after `k` ticks (valid
while it is alive). -/
def fbAt (m k : ℕ) : FireballState :=
  { x := 450 + 5 * (k : ℚ), y := 500, direction := 1, alive := true,
    timer := k % 4, index := 0, left := 450 + 5 * (k : ℤ) - m }

theorem fb_run_base (m : ℕ) :
    fireballInit ⟨[2 * m]⟩ 450 500 1 = fbAt m 0 := by
  have harg : (450 : ℚ) - ((2 * m : ℕ) : ℚ) / 2 = ((450 - (m : ℤ) : ℤ) : ℚ) := by
    push_cast; ring
  simp only [fireballInit, fbAt, List.getD_cons_zero, harg, pyInt_intCast]
  norm_num

theorem fb_run_step (m k : ℕ) (hk : k + 1 ≤ 230 + m / 5) :
    fireballUpdate ⟨[2 * m]⟩ (fbAt m k) = fbAt m (k + 1) := by
  have hx : (450 : ℚ) + 5 * (k : ℚ) + (fbSpeed : ℚ) * ((1 : ℤ) : ℚ)
      = 450 + 5 * ((k + 1 : ℕ) : ℚ) := by
    unfold fbSpeed; push_cast; ring
  have hleft : (450 : ℚ) + 5 * ((k + 1 : ℕ) : ℚ) - ((2 * m : ℕ) : ℚ) / 2
      = ((450 + 5 * (k : ℤ) + 5 - m : ℤ) : ℚ) := by push_cast; ring
  have halive : ¬((450 + 5 * (k : ℤ) + 5 - m) + ((2 * m : ℕ) : ℤ) < -50 ∨
      (450 + 5 * (k : ℤ) + 5 - m) > WIDTH + 50) := by
    unfold WIDTH
    push_cast
    omega
  simp only [fireballUpdate, fbAt, List.length_cons, List.length_nil,
    List.getD_cons_zero, fbSpeedTicks, Nat.mod_one, hx, hleft, pyInt_intCast,
    Nat.mod_self, Bool.not_true]
  norm_num
  have h2 : (450 : ℚ) + 5 * ((k : ℚ) + 1) - (m : ℚ)
      = ((450 + 5 * (k : ℤ) + 5 - (m : ℤ) : ℤ) : ℚ) := by push_cast; ring
  rw [h2, pyInt_intCast]
  refine ⟨⟨?_, ?_⟩, ?_, ?_⟩
  · omega
  · unfold WIDTH; push_cast; omega
  · split <;> omega
  · rfl

/-- Closed-form run: the scenario-C fireball is alive with
`x = 450 + 5k` for every `k ≤ 230 + m/5`. -/
theorem fb_run (m k : ℕ) (hk : k ≤ 230 + m / 5) :
    (fireballUpdate ⟨[2 * m]⟩)^[k] (fireballInit ⟨[2 * m]⟩ 450 500 1) = fbAt m k := by
  induction k with
  | zero => exact fb_run_base m
  | succ n ih =>
      rw [Function.iterate_succ_apply', ih (by omega), fb_run_step m n hk]

/-- The tick after the last alive tick kills the scenario-C fireball. -/
theorem fb_death_step (m : ℕ) :
    fireballUpdate ⟨[2 * m]⟩ (fbAt m (230 + m / 5)) =
      { fbAt m (231 + m / 5) with alive := false } := by
  set k := 230 + m / 5 with hkdef
  have hx : (450 : ℚ) + 5 * (k : ℚ) + (fbSpeed : ℚ) * ((1 : ℤ) : ℚ)
      = 450 + 5 * ((k + 1 : ℕ) : ℚ) := by
    unfold fbSpeed; push_cast; ring
  have hleft : (450 : ℚ) + 5 * ((k + 1 : ℕ) : ℚ) - ((2 * m : ℕ) : ℚ) / 2
      = ((450 + 5 * (k : ℤ) + 5 - m : ℤ) : ℚ) := by push_cast; ring
  simp only [fireballUpdate, fbAt, List.length_cons, List.length_nil,
    List.getD_cons_zero, fbSpeedTicks, Nat.mod_one, hx, hleft, pyInt_intCast,
    Nat.mod_self, Bool.not_true]
  norm_num
  have h2 : (450 : ℚ) + 5 * ((k : ℚ) + 1) - (m : ℚ)
      = ((450 + 5 * (k : ℤ) + 5 - (m : ℤ) : ℤ) : ℚ) := by push_cast; ring
  rw [h2, pyInt_intCast]
  refine ⟨?_, ?_, ?_, ?_⟩
  · exact_mod_cast show k + 1 = 231 + m / 5 by omega
  · intro _
    unfold WIDTH
    push_cast
    omega
  · split <;> omega
  · omega

/-- After death the fireball state is frozen forever. -/
theorem fb_frozen (m j : ℕ) :
    (fireballUpdate ⟨[2 * m]⟩)^[j] { fbAt m (231 + m / 5) with alive := false } =
      { fbAt m (231 + m / 5) with alive := false } := by
  induction j with
  | zero => rfl
  | succ n ih => rw [Function.iterate_succ_apply', ih, fireballUpdate_dead] ; rfl

/-! ## Claim C7 -/

/-- C7 (counterexample): the claim asserts the fireball spawned at
x = 450 with direction +1 is removed after exactly
`ceil((stageWidth + margin - 450)/5) = ceil((1550+50-450)/5) = 230`
ticks.  In the code the despawn test is `left + width < -50 or
left > WIDTH + 50` on the *left edge*, so after 230 ticks the fireball
(frame width 30) has `x = 1600 = WIDTH + 50` yet is still alive. -/
theorem C7_counterexample :
    ((fireballUpdate ⟨[30]⟩)^[230] (fireballInit ⟨[30]⟩ 450 500 1)).x = 1600 ∧
    ((fireballUpdate ⟨[30]⟩)^[230] (fireballInit ⟨[30]⟩ 450 500 1)).alive = true := by
  have h : (fireballUpdate ⟨[30]⟩)^[230] (fireballInit ⟨[30]⟩ 450 500 1) = fbAt 15 230 :=
    fb_run 15 230 (by norm_num)
  rw [h]
  unfold fbAt
  norm_num

/-- C7 (amended): while alive, a fireball's `x` advances by
`speed * direction = 5 * direction` each tick; for the scenario-C
fireball (spawn x = 450, direction +1, frame width `2*m`) `x` reaches
`stageWidth + margin = 1600` after exactly 230 ticks but the fireball
is still alive then; it is dead exactly from tick `231 + m/5` on (the
first tick with `left = 450 + 5k - m > WIDTH + 50`), remaining frozen
afterwards. -/
theorem C7_theorem (m k : ℕ) :
    (∀ (cfg : FireballCfg) (fb : FireballState), fb.alive = true →
      (fireballUpdate cfg fb).x = fb.x + 5 * fb.direction) ∧
    (k ≤ 230 + m / 5 →
      ((fireballUpdate ⟨[2*m]⟩)^[k] (fireballInit ⟨[2*m]⟩ 450 500 1)).alive = true ∧
      ((fireballUpdate ⟨[2*m]⟩)^[k] (fireballInit ⟨[2*m]⟩ 450 500 1)).x = 450 + 5*k) ∧
    ((fireballUpdate ⟨[2*m]⟩)^[230] (fireballInit ⟨[2*m]⟩ 450 500 1)).x
      = (WIDTH : ℚ) + 50 ∧
    (231 + m / 5 ≤ k →
      ((fireballUpdate ⟨[2*m]⟩)^[k] (fireballInit ⟨[2*m]⟩ 450 500 1)).alive = false) := by
  refine ⟨?_, ?_, ?_, ?_⟩
  · intro cfg fb hal
    unfold fireballUpdate fbSpeed
    simp [hal]
  · intro hk
    rw [fb_run m k hk]
    unfold fbAt
    norm_num
  · rw [fb_run m 230 (by omega)]
    unfold fbAt WIDTH
    norm_num
  · intro hk
    have hsplit : k = (231 + m / 5) + (k - (231 + m / 5)) := by omega
    rw [hsplit, Nat.add_comm (231 + m / 5), Function.iterate_add_apply]
    have hD : (fireballUpdate ⟨[2*m]⟩)^[231 + m / 5] (fireballInit ⟨[2*m]⟩ 450 500 1)
        = { fbAt m (231 + m / 5) with alive := false } :=
      calc (fireballUpdate ⟨[2*m]⟩)^[231 + m / 5] (fireballInit ⟨[2*m]⟩ 450 500 1)
          = (fireballUpdate ⟨[2*m]⟩)^[(230 + m / 5) + 1]
              (fireballInit ⟨[2*m]⟩ 450 500 1) := by
            rw [show (230 + m / 5) + 1 = 231 + m / 5 from by omega]
        _ = fireballUpdate ⟨[2*m]⟩ ((fireballUpdate ⟨[2*m]⟩)^[230 + m / 5]
              (fireballInit ⟨[2*m]⟩ 450 500 1)) :=
            Function.iterate_succ_apply' _ _ _
        _ = { fbAt m (231 + m / 5) with alive := false } := by
            rw [fb_run m (230 + m / 5) (by omega), fb_death_step]
    rw [hD, fb_frozen]

/-- C7 witness: the amended lifecycle at `m = 15` (frame width 30),
evaluated at ticks 230 (alive, x = 1600) and 234 (dead). -/
theorem C7_theorem_witness :
    (230 ≤ 230 + 15 / 5 ∧
      ((fireballUpdate ⟨[2*15]⟩)^[230] (fireballInit ⟨[2*15]⟩ 450 500 1)).alive = true) ∧
    (231 + 15 / 5 ≤ 234 ∧
      ((fireballUpdate ⟨[2*15]⟩)^[234] (fireballInit ⟨[2*15]⟩ 450 500 1)).alive = false) :=
  ⟨⟨by norm_num, ((C7_theorem 15 230).2.1 (by norm_num)).1⟩,
   ⟨by norm_num, (C7_theorem 15 234).2.2.2 (by norm_num)⟩⟩

/-! ## The `is_in_hitstun` flag is never set

No statement in the source ever assigns `True` to `is_in_hitstun` (the
damage resolver calls only `start_hitstun_anim`, which sets
`is_playing_hit`); the lemmas below track this through every modelled
operation. -/

theorem marioPhysics_isInHitstun (cfg : MarioCfg) (bx : ℚ) (s : MarioState) :
    (marioPhysics cfg bx s).isInHitstun = s.isInHitstun := by
  simp only [marioPhysics]
  repeat' split
  all_goals rfl

theorem marioBlockAnim_isInHitstun (cfg : MarioCfg) (s : MarioState) :
    (marioBlockAnim cfg s).isInHitstun = s.isInHitstun := by
  simp only [marioBlockAnim]
  repeat' split
  all_goals rfl

theorem marioAttackAnim_isInHitstun (cfg : MarioCfg) (s : MarioState) :
    (marioAttackAnim cfg s).isInHitstun = s.isInHitstun := by
  simp only [marioAttackAnim]
  repeat' split
  all_goals rfl

theorem marioSpecialAnimStep_isInHitstun (cfg : MarioCfg) (s : MarioState) :
    (marioSpecialAnimStep cfg s).isInHitstun = s.isInHitstun := by
  simp only [marioSpecialAnimStep, marioEndSpecial]
  repeat' split
  all_goals rfl

theorem marioSpecialChargeTick_isInHitstun (s : MarioState) :
    (marioSpecialChargeTick s).isInHitstun = s.isInHitstun := by
  simp only [marioSpecialChargeTick]
  repeat' split
  all_goals rfl

theorem marioSpecialFx_isInHitstun (cfg : MarioCfg) (s : MarioState) :
    (marioSpecialFx cfg s).isInHitstun = s.isInHitstun := by
  simp only [marioSpecialFx]
  repeat' split
  all_goals rfl

theorem marioStandAnim_isInHitstun (s : MarioState) :
    (marioStandAnim s).isInHitstun = s.isInHitstun := by
  simp only [marioStandAnim]
  repeat' split
  all_goals rfl

theorem marioAnim_isInHitstun (cfg : MarioCfg) (s : MarioState) :
    ((marioAnim cfg s).1).isInHitstun = s.isInHitstun := by
  simp only [marioAnim]
  repeat' split
  all_goals simp only [marioBlockAnim_isInHitstun, marioAttackAnim_isInHitstun,
    marioSpecialAnimStep_isInHitstun, marioSpecialChargeTick_isInHitstun,
    marioSpecialFx_isInHitstun, marioStandAnim_isInHitstun]

theorem marioHitstunTick_isInHitstun_false (s : MarioState)
    (h : s.isInHitstun = false) : (marioHitstunTick s).isInHitstun = false := by
  simp only [marioHitstunTick, h]
  repeat' split
  all_goals first | rfl | exact h

theorem marioUpdate_isInHitstun_false (cfg : MarioCfg) (bx : ℚ) (s : MarioState)
    (h : s.isInHitstun = false) : ((marioUpdate cfg bx s).1).isInHitstun = false := by
  unfold marioUpdate
  rw [h]
  simp only [Bool.false_eq_true, if_false]
  apply marioHitstunTick_isInHitstun_false
  rw [marioAnim_isInHitstun, marioPhysics_isInHitstun]
  exact h

theorem marioStartHitstunAnim_isInHitstun (cfg : MarioCfg) (d : ℤ) (s : MarioState) :
    (marioStartHitstunAnim cfg d s).isInHitstun = s.isInHitstun := by
  simp only [marioStartHitstunAnim]
  repeat' split
  all_goals rfl

theorem marioEndSpecial_isInHitstun (s : MarioState) :
    (marioEndSpecial s).isInHitstun = s.isInHitstun := rfl

theorem bowserPhysics_isInHitstun (cfg : BowserCfg) (mx : ℚ) (s : BowserState) :
    (bowserPhysics cfg mx s).isInHitstun = s.isInHitstun := by
  simp only [bowserPhysics]
  repeat' split
  all_goals rfl

theorem bowserEndFlameblast_isInHitstun (s : BowserState) :
    (bowserEndFlameblast s).isInHitstun = s.isInHitstun := rfl

theorem bowserStartHitstunAnim_isInHitstun (cfg : BowserCfg) (d : ℤ) (s : BowserState) :
    (bowserStartHitstunAnim cfg d s).isInHitstun = s.isInHitstun := by
  simp only [bowserStartHitstunAnim]
  repeat' split
  all_goals rfl

theorem bowserAnim_isInHitstun (cfg : BowserCfg) (sk : Bool) (s : BowserState) :
    (bowserAnim cfg sk s).isInHitstun = s.isInHitstun := by
  have h1 : (bowserBlockAnim cfg s).isInHitstun = s.isInHitstun := by
    simp only [bowserBlockAnim]
    repeat' split
    all_goals rfl
  have h2 : (bowserHitAnim cfg s).isInHitstun = s.isInHitstun := by
    simp only [bowserHitAnim]
    repeat' split
    all_goals rfl
  have h3 : ∀ z : BowserState, (bowserChargingTimer z).isInHitstun = z.isInHitstun := by
    intro z; simp only [bowserChargingTimer]
    repeat' split
    all_goals rfl
  have h4 : (bowserChargingAnim cfg s).isInHitstun = s.isInHitstun := by
    simp only [bowserChargingAnim]
    repeat' split
    all_goals rfl
  have h5 : (bowserFlameblastAnim cfg s).isInHitstun = s.isInHitstun := by
    simp only [bowserFlameblastAnim, bowserEndFlameblast]
    repeat' split
    all_goals rfl
  have h6 : (bowserPunchAnim cfg s).isInHitstun = s.isInHitstun := by
    simp only [bowserPunchAnim]
    repeat' split
    all_goals rfl
  have h7 : (bowserStandAnim s).isInHitstun = s.isInHitstun := by
    simp only [bowserStandAnim]
    repeat' split
    all_goals rfl
  simp only [bowserAnim]
  repeat' split
  all_goals simp only [h1, h2, h3, h4, h5, h6, h7]

theorem bowserWalkAnim_isInHitstun (s : BowserState) :
    (bowserWalkAnim s).isInHitstun = s.isInHitstun := by
  simp only [bowserWalkAnim]
  repeat' split
  all_goals rfl

theorem bowserSafetyReset_isInHitstun (cfg : BowserCfg) (s : BowserState) :
    (bowserSafetyReset cfg s).isInHitstun = s.isInHitstun := by
  simp only [bowserSafetyReset]
  repeat' split
  all_goals rfl

theorem bowserHitstunTick_isInHitstun_false (s : BowserState)
    (h : s.isInHitstun = false) : (bowserHitstunTick s).isInHitstun = false := by
  simp only [bowserHitstunTick, h]
  repeat' split
  all_goals first | rfl | exact h

theorem bowserUpdate_isInHitstun_false (cfg : BowserCfg) (mx : ℚ) (s : BowserState)
    (h : s.isInHitstun = false) : (bowserUpdate cfg mx s).isInHitstun = false := by
  unfold bowserUpdate
  apply bowserHitstunTick_isInHitstun_false
  rw [bowserSafetyReset_isInHitstun, bowserWalkAnim_isInHitstun,
    bowserAnim_isInHitstun, bowserPhysics_isInHitstun]
  exact h

/-- The resolver steps never touch either `is_in_hitstun` flag. -/
theorem resolveHammerC_isInHitstun (cfg : Cfg) (o : Bool) (s : FightState) :
    ((resolveHammerC cfg o s).1).mario.isInHitstun = s.mario.isInHitstun ∧
    ((resolveHammerC cfg o s).1).bowser.isInHitstun = s.bowser.isInHitstun := by
  simp only [resolveHammerC]
  repeat' split
  all_goals constructor <;>
    simp only [bowserEndFlameblast_isInHitstun, bowserStartHitstunAnim_isInHitstun]

theorem resolvePunchC_isInHitstun (cfg : Cfg) (o : Bool) (s : FightState) :
    ((resolvePunchC cfg o s).1).mario.isInHitstun = s.mario.isInHitstun ∧
    ((resolvePunchC cfg o s).1).bowser.isInHitstun = s.bowser.isInHitstun := by
  simp only [resolvePunchC]
  repeat' split
  all_goals constructor <;>
    simp only [marioEndSpecial_isInHitstun, marioStartHitstunAnim_isInHitstun]

theorem resolveFlame_isInHitstun (cfg : Cfg) (o : Bool) (s : FightState) :
    (resolveFlame cfg o s).mario.isInHitstun = s.mario.isInHitstun ∧
    (resolveFlame cfg o s).bowser.isInHitstun = s.bowser.isInHitstun := by
  simp only [resolveFlame]
  repeat' split
  all_goals constructor <;> simp only [marioStartHitstunAnim_isInHitstun]

theorem resolveFireballsBowser_isInHitstun (cfg : Cfg) (hit : ℕ → Bool) (s : FightState) :
    (resolveFireballsBowser cfg hit s).mario.isInHitstun = s.mario.isInHitstun ∧
    (resolveFireballsBowser cfg hit s).bowser.isInHitstun = s.bowser.isInHitstun := by
  simp only [resolveFireballsBowser]
  repeat' split
  all_goals constructor <;> simp only [bowserStartHitstunAnim_isInHitstun]

theorem resolveFireballsFlame_isInHitstun (cfg : Cfg) (hit : ℕ → Bool) (s : FightState) :
    (resolveFireballsFlame cfg hit s).mario.isInHitstun = s.mario.isInHitstun ∧
    (resolveFireballsFlame cfg hit s).bowser.isInHitstun = s.bowser.isInHitstun := by
  simp only [resolveFireballsFlame]
  repeat' split
  all_goals exact ⟨rfl, rfl⟩

theorem gameTick_isInHitstun_false (cfg : Cfg) (o : TickOracle) (s : FightState)
    (hm : s.mario.isInHitstun = false) (hb : s.bowser.isInHitstun = false) :
    (gameTick cfg o s).mario.isInHitstun = false ∧
    (gameTick cfg o s).bowser.isInHitstun = false := by
  unfold gameTick gameTickC
  simp only
  constructor
  · rw [(resolveFireballsFlame_isInHitstun _ _ _).1,
      (resolveFireballsBowser_isInHitstun _ _ _).1, (resolveFlame_isInHitstun _ _ _).1,
      (resolvePunchC_isInHitstun _ _ _).1, (resolveHammerC_isInHitstun _ _ _).1]
    exact marioUpdate_isInHitstun_false _ _ _ hm
  · rw [(resolveFireballsFlame_isInHitstun _ _ _).2,
      (resolveFireballsBowser_isInHitstun _ _ _).2, (resolveFlame_isInHitstun _ _ _).2,
      (resolvePunchC_isInHitstun _ _ _).2, (resolveHammerC_isInHitstun _ _ _).2]
    exact bowserUpdate_isInHitstun_false _ _ _ hb

theorem onKeyDown_isInHitstun (s : FightState) (e : GEvent) :
    (onKeyDown s e).mario.isInHitstun = s.mario.isInHitstun ∧
    (onKeyDown s e).bowser.isInHitstun = s.bowser.isInHitstun := by
  cases e <;>
    · simp only [onKeyDown, bowserEndFlameblast]
      repeat' split
      all_goals exact ⟨rfl, rfl⟩

theorem onKeyUp_isInHitstun (s : FightState) (e : GEvent) :
    (onKeyUp s e).mario.isInHitstun = s.mario.isInHitstun ∧
    (onKeyUp s e).bowser.isInHitstun = s.bowser.isInHitstun := by
  cases e <;>
    · simp only [onKeyUp, bowserEndFlameblast]
      repeat' split
      all_goals exact ⟨rfl, rfl⟩

theorem sysStep_isInHitstun_false (cfg : Cfg) (s : FightState) (e : GEvent)
    (hm : s.mario.isInHitstun = false) (hb : s.bowser.isInHitstun = false) :
    (sysStep cfg s e).mario.isInHitstun = false ∧
    (sysStep cfg s e).bowser.isInHitstun = false := by
  cases e
  case tick o => exact gameTick_isInHitstun_false cfg o s hm hb
  all_goals first
    | exact ⟨(onKeyDown_isInHitstun s _).1.trans hm, (onKeyDown_isInHitstun s _).2.trans hb⟩
    | exact ⟨(onKeyUp_isInHitstun s _).1.trans hm, (onKeyUp_isInHitstun s _).2.trans hb⟩

/-! ## Claim C10 -/

/-- C10: in every reachable match state — any sequence of ticks and
key events from the initial state, under any collision-test outcomes —
both combatants' `is_in_hitstun` flag is `False`: it is initialised
`False` and no modelled operation (the damage resolver calls only
`start_hitstun_anim`, which sets `is_playing_hit`) ever sets it, so
the hitstun early-return in `Mario.update`, the `skip_flameblast`
snapshot in `Bowser.update` and every `is_in_hitstun` guard in the key
handlers never trigger. -/
theorem C10_theorem (cfg : Cfg) (evs : List GEvent) :
    (sysRun cfg (initFight cfg) evs).mario.isInHitstun = false ∧
    (sysRun cfg (initFight cfg) evs).bowser.isInHitstun = false := by
  have main : ∀ (l : List GEvent) (s : FightState),
      s.mario.isInHitstun = false → s.bowser.isInHitstun = false →
      (sysRun cfg s l).mario.isInHitstun = false ∧
      (sysRun cfg s l).bowser.isInHitstun = false := by
    intro l
    induction l with
    | nil => exact fun s hm hb => ⟨hm, hb⟩
    | cons e t ih =>
        intro s hm hb
        have h := sysStep_isInHitstun_false cfg s e hm hb
        exact ih (sysStep cfg s e) h.1 h.2
  exact main evs (initFight cfg) rfl rfl

/-! ## Mutual exclusion of `is_charging` and `is_flameblasting`

The interrupt-bonus guard at src line 2256 requires
`bowser.is_charging and bowser.is_flameblasting and
bowser.flameblast_phase == "charge"`; the lemmas below show the first
two flags are never simultaneously true in a reachable state, making
that branch dead code. -/

theorem bowserPhysics_flags (cfg : BowserCfg) (mx : ℚ) (s : BowserState) :
    (bowserPhysics cfg mx s).isCharging = s.isCharging ∧
    (bowserPhysics cfg mx s).isFlameblasting = s.isFlameblasting := by
  simp only [bowserPhysics]
  repeat' split
  all_goals exact ⟨rfl, rfl⟩

theorem bowserBlockAnim_flags (cfg : BowserCfg) (s : BowserState) :
    (bowserBlockAnim cfg s).isCharging = s.isCharging ∧
    (bowserBlockAnim cfg s).isFlameblasting = s.isFlameblasting := by
  simp only [bowserBlockAnim]
  repeat' split
  all_goals exact ⟨rfl, rfl⟩

theorem bowserHitAnim_flags (cfg : BowserCfg) (s : BowserState) :
    (bowserHitAnim cfg s).isCharging = s.isCharging ∧
    (bowserHitAnim cfg s).isFlameblasting = s.isFlameblasting := by
  simp only [bowserHitAnim]
  repeat' split
  all_goals exact ⟨rfl, rfl⟩

theorem bowserChargingAnim_flags (cfg : BowserCfg) (s : BowserState) :
    (bowserChargingAnim cfg s).isCharging = s.isCharging ∧
    (bowserChargingAnim cfg s).isFlameblasting = s.isFlameblasting := by
  simp only [bowserChargingAnim]
  repeat' split
  all_goals exact ⟨rfl, rfl⟩

theorem bowserPunchAnim_flags (cfg : BowserCfg) (s : BowserState) :
    (bowserPunchAnim cfg s).isCharging = s.isCharging ∧
    (bowserPunchAnim cfg s).isFlameblasting = s.isFlameblasting := by
  simp only [bowserPunchAnim]
  repeat' split
  all_goals exact ⟨rfl, rfl⟩

theorem bowserStandAnim_flags (s : BowserState) :
    (bowserStandAnim s).isCharging = s.isCharging ∧
    (bowserStandAnim s).isFlameblasting = s.isFlameblasting := by
  simp only [bowserStandAnim]
  repeat' split
  all_goals exact ⟨rfl, rfl⟩

theorem bowserWalkAnim_flags (s : BowserState) :
    (bowserWalkAnim s).isCharging = s.isCharging ∧
    (bowserWalkAnim s).isFlameblasting = s.isFlameblasting := by
  simp only [bowserWalkAnim]
  repeat' split
  all_goals exact ⟨rfl, rfl⟩

theorem bowserHitstunTick_flags (s : BowserState) :
    (bowserHitstunTick s).isCharging = s.isCharging ∧
    (bowserHitstunTick s).isFlameblasting = s.isFlameblasting := by
  simp only [bowserHitstunTick]
  repeat' split
  all_goals exact ⟨rfl, rfl⟩

theorem bowserStartHitstunAnim_flags (cfg : BowserCfg) (d : ℤ) (s : BowserState) :
    (bowserStartHitstunAnim cfg d s).isCharging = s.isCharging ∧
    (bowserStartHitstunAnim cfg d s).isFlameblasting = s.isFlameblasting := by
  simp only [bowserStartHitstunAnim]
  repeat' split
  all_goals exact ⟨rfl, rfl⟩

theorem bowserEndFlameblast_excl (s : BowserState) :
    (bowserEndFlameblast s).isCharging = true →
    (bowserEndFlameblast s).isFlameblasting = false := by
  intro h
  rfl

theorem bowserChargingTimer_excl (s : BowserState)
    (h : s.isCharging = true → s.isFlameblasting = false) :
    (bowserChargingTimer s).isCharging = true →
    (bowserChargingTimer s).isFlameblasting = false := by
  simp only [bowserChargingTimer]
  split
  · intro hc
    exact absurd hc (by simp)
  · exact h

theorem bowserFlameblastAnim_excl (cfg : BowserCfg) (s : BowserState)
    (h : s.isCharging = true → s.isFlameblasting = false) :
    (bowserFlameblastAnim cfg s).isCharging = true →
    (bowserFlameblastAnim cfg s).isFlameblasting = false := by
  simp only [bowserFlameblastAnim, bowserEndFlameblast]
  repeat' split
  all_goals first
    | exact h
    | (intro hc; exact absurd hc (by simp))

theorem bowserSafetyReset_excl (cfg : BowserCfg) (s : BowserState)
    (h : s.isCharging = true → s.isFlameblasting = false) :
    (bowserSafetyReset cfg s).isCharging = true →
    (bowserSafetyReset cfg s).isFlameblasting = false := by
  simp only [bowserSafetyReset]
  split
  · intro hc
    exact absurd hc (by simp)
  · exact h

theorem bowserUpdate_excl (cfg : BowserCfg) (mx : ℚ) (s : BowserState)
    (h : s.isCharging = true → s.isFlameblasting = false) :
    (bowserUpdate cfg mx s).isCharging = true →
    (bowserUpdate cfg mx s).isFlameblasting = false := by
  unfold bowserUpdate
  intro hc
  rw [(bowserHitstunTick_flags _).2, (bowserHitstunTick_flags _).1] at *
  revert hc
  apply bowserSafetyReset_excl
  intro hc
  rw [(bowserWalkAnim_flags _).2, (bowserWalkAnim_flags _).1] at *
  revert hc
  have hphys := bowserPhysics_flags cfg mx s
  have h2 : (bowserPhysics cfg mx s).isCharging = true →
      (bowserPhysics cfg mx s).isFlameblasting = false := by
    rw [hphys.1, hphys.2]; exact h
  unfold bowserAnim
  repeat' split
  all_goals first
    | (rw [(bowserBlockAnim_flags _ _).1, (bowserBlockAnim_flags _ _).2]; exact h2)
    | (rw [(bowserHitAnim_flags _ _).1, (bowserHitAnim_flags _ _).2]; exact h2)
    | (apply bowserChargingTimer_excl
       rw [(bowserChargingAnim_flags _ _).1, (bowserChargingAnim_flags _ _).2]; exact h2)
    | (apply bowserFlameblastAnim_excl; exact h2)
    | (rw [(bowserPunchAnim_flags _ _).1, (bowserPunchAnim_flags _ _).2]; exact h2)
    | (rw [(bowserStandAnim_flags _).1, (bowserStandAnim_flags _).2]; exact h2)

theorem resolveHammerC_excl (cfg : Cfg) (o : Bool) (s : FightState)
    (h : s.bowser.isCharging = true → s.bowser.isFlameblasting = false) :
    ((resolveHammerC cfg o s).1).bowser.isCharging = true →
    ((resolveHammerC cfg o s).1).bowser.isFlameblasting = false := by
  simp only [resolveHammerC]
  repeat' split
  all_goals first
    | exact h
    | exact fun hc => bowserEndFlameblast_excl _ hc
    | (show (bowserStartHitstunAnim _ _ _).isCharging = true → _
       rw [(bowserStartHitstunAnim_flags _ _ _).1, (bowserStartHitstunAnim_flags _ _ _).2]
       exact h)

theorem resolvePunchC_bowser_flags (cfg : Cfg) (o : Bool) (s : FightState) :
    ((resolvePunchC cfg o s).1).bowser.isCharging = s.bowser.isCharging ∧
    ((resolvePunchC cfg o s).1).bowser.isFlameblasting = s.bowser.isFlameblasting := by
  simp only [resolvePunchC]
  repeat' split
  all_goals exact ⟨rfl, rfl⟩

theorem resolveFlame_bowser_flags (cfg : Cfg) (o : Bool) (s : FightState) :
    (resolveFlame cfg o s).bowser.isCharging = s.bowser.isCharging ∧
    (resolveFlame cfg o s).bowser.isFlameblasting = s.bowser.isFlameblasting := by
  simp only [resolveFlame]
  repeat' split
  all_goals exact ⟨rfl, rfl⟩

theorem resolveFireballsBowser_excl (cfg : Cfg) (hit : ℕ → Bool) (s : FightState)
    (h : s.bowser.isCharging = true → s.bowser.isFlameblasting = false) :
    (resolveFireballsBowser cfg hit s).bowser.isCharging = true →
    (resolveFireballsBowser cfg hit s).bowser.isFlameblasting = false := by
  simp only [resolveFireballsBowser]
  repeat' split
  all_goals first
    | exact h
    | (show (bowserStartHitstunAnim _ _ _).isCharging = true → _
       rw [(bowserStartHitstunAnim_flags _ _ _).1, (bowserStartHitstunAnim_flags _ _ _).2]
       exact h)

theorem resolveFireballsFlame_excl (cfg : Cfg) (hit : ℕ → Bool) (s : FightState)
    (h : s.bowser.isCharging = true → s.bowser.isFlameblasting = false) :
    (resolveFireballsFlame cfg hit s).bowser.isCharging = true →
    (resolveFireballsFlame cfg hit s).bowser.isFlameblasting = false := by
  simp only [resolveFireballsFlame]
  repeat' split
  all_goals first
    | exact h
    | exact fun hc => bowserEndFlameblast_excl _ hc

theorem gameTick_excl (cfg : Cfg) (o : TickOracle) (s : FightState)
    (h : s.bowser.isCharging = true → s.bowser.isFlameblasting = false) :
    (gameTick cfg o s).bowser.isCharging = true →
    (gameTick cfg o s).bowser.isFlameblasting = false := by
  unfold gameTick gameTickC
  simp only
  apply resolveFireballsFlame_excl
  apply resolveFireballsBowser_excl
  intro hc
  rw [(resolveFlame_bowser_flags _ _ _).1, (resolveFlame_bowser_flags _ _ _).2,
    (resolvePunchC_bowser_flags _ _ _).1, (resolvePunchC_bowser_flags _ _ _).2] at *
  revert hc
  apply resolveHammerC_excl
  exact bowserUpdate_excl cfg.b _ s.bowser h

theorem onKeyDown_excl (s : FightState) (e : GEvent)
    (h : s.bowser.isCharging = true → s.bowser.isFlameblasting = false) :
    (onKeyDown s e).bowser.isCharging = true →
    (onKeyDown s e).bowser.isFlameblasting = false := by
  cases e <;>
    · simp only [onKeyDown, bowserEndFlameblast]
      repeat' split
      all_goals first
        | exact h
        | (intro hc; simp_all)

theorem onKeyUp_excl (s : FightState) (e : GEvent)
    (h : s.bowser.isCharging = true → s.bowser.isFlameblasting = false) :
    (onKeyUp s e).bowser.isCharging = true →
    (onKeyUp s e).bowser.isFlameblasting = false := by
  cases e <;>
    · simp only [onKeyUp, bowserEndFlameblast]
      repeat' split
      all_goals first
        | exact h
        | (intro hc; simp_all)

theorem sysStep_excl (cfg : Cfg) (s : FightState) (e : GEvent)
    (h : s.bowser.isCharging = true → s.bowser.isFlameblasting = false) :
    (sysStep cfg s e).bowser.isCharging = true →
    (sysStep cfg s e).bowser.isFlameblasting = false := by
  cases e
  case tick o => exact gameTick_excl cfg o s h
  all_goals first
    | exact onKeyDown_excl s _ h
    | exact onKeyUp_excl s _ h

/-- In every reachable state, `is_charging` implies
`not is_flameblasting`. -/
theorem sysRun_excl (cfg : Cfg) (evs : List GEvent) :
    (sysRun cfg (initFight cfg) evs).bowser.isCharging = true →
    (sysRun cfg (initFight cfg) evs).bowser.isFlameblasting = false := by
  have main : ∀ (l : List GEvent) (s : FightState),
      (s.bowser.isCharging = true → s.bowser.isFlameblasting = false) →
      (sysRun cfg s l).bowser.isCharging = true →
      (sysRun cfg s l).bowser.isFlameblasting = false := by
    intro l
    induction l with
    | nil => exact fun s h => h
    | cons e t ih => exact fun s h => ih (sysStep cfg s e) (sysStep_excl cfg s e h)
  exact main evs (initFight cfg) (fun hc => by exact absurd hc (by simp [initFight, initBowser]))

/-! ## Claim C2 -/

/-- C2 (code bug, evaluated at the failing input): the double-damage
guard for Bowser (src line 2256) requires `bowser.is_charging and
bowser.is_flameblasting and flameblast_phase == "charge"`, but the
first two flags are mutually exclusive in every reachable state
(conjunct 1), so a hammer hit on a mid-charge Bowser takes the base
branch: 20 damage, 30-tick hit animation, and the charge keeps running
(conjunct 2) — against the claimed 40/60 with a forced charge end.
The symmetric Mario-defender branch (src line 2275) does behave as
claimed: 30 damage, 60-tick hit animation, special force-ended
(conjunct 3). -/
theorem C2_theorem (cfg : Cfg) (s : FightState) :
    (∀ evs : List GEvent,
      (sysRun cfg (initFight cfg) evs).bowser.isCharging = true →
      (sysRun cfg (initFight cfg) evs).bowser.isFlameblasting = false) ∧
    (s.bowser.isCharging = true → s.bowser.isFlameblasting = false →
     s.mario.isAttacking = true → s.mario.attackFrameIndex < cfg.m.attackLen →
     s.mario.attackHasHit = false → cfg.m.attackLen / 2 ≤ s.mario.attackFrameIndex →
     0 < cfg.b.hitLen →
       ((resolveHammerC cfg true s).1).bowser.health = s.bowser.health - 20 ∧
       ((resolveHammerC cfg true s).1).bowser.hitLingerTimer = 30 ∧
       ((resolveHammerC cfg true s).1).bowser.isPlayingHit = true ∧
       ((resolveHammerC cfg true s).1).bowser.isCharging = true ∧
       ((resolveHammerC cfg true s).1).bowser.flameblastChargeTimer
         = s.bowser.flameblastChargeTimer) ∧
    (s.mario.isSpecial = true → s.mario.specialPhase = .charge →
     s.bowser.isAttacking = true → s.bowser.attackFrameIndex < cfg.b.punchLen →
     s.bowser.attackHasHit = false → 0 < cfg.m.hitLen →
       ((resolvePunchC cfg true s).1).mario.health = s.mario.health - 30 ∧
       ((resolvePunchC cfg true s).1).mario.hitLingerTimer = 60 ∧
       ((resolvePunchC cfg true s).1).mario.isPlayingHit = true ∧
       ((resolvePunchC cfg true s).1).mario.isSpecial = false) := by
  refine ⟨sysRun_excl cfg, ?_, ?_⟩
  · intro hc hf hatt hlt hhh hth hhit
    have hal : 0 < cfg.m.attackLen := by omega
    simp only [resolveHammerC, marioGetAttackMask, bowserStartHitstunAnim,
      bowserEndFlameblast]
    simp [hc, hf, hatt, hlt, hhh, hth, hhit, hal, Nat.not_lt.mpr hth]
  · intro hsp hph hatt hlt hhh hhit
    simp only [resolvePunchC, bowserGetAttackHitbox, marioStartHitstunAnim,
      marioEndSpecial]
    have hpl : 0 < cfg.b.punchLen := by omega
    simp [hsp, hph, hatt, hlt, hhh, hhit, hpl]

/-- C2 witness: the base (non-doubled) outcome evaluated at a concrete
mid-charge state — Bowser charging, Mario's hammer in its active
window. -/
theorem C2_theorem_witness :
    ((resolveHammerC sampleCfg true
        { mario := { initMario sampleCfg.m with isAttacking := true, attackFrameIndex := 3 },
          bowser := { initBowser sampleCfg.b with isCharging := true },
          fireballs := [] }).1).bowser.health = 480 ∧
    ((resolveHammerC sampleCfg true
        { mario := { initMario sampleCfg.m with isAttacking := true, attackFrameIndex := 3 },
          bowser := { initBowser sampleCfg.b with isCharging := true },
          fireballs := [] }).1).bowser.hitLingerTimer = 30 ∧
    ((resolveHammerC sampleCfg true
        { mario := { initMario sampleCfg.m with isAttacking := true, attackFrameIndex := 3 },
          bowser := { initBowser sampleCfg.b with isCharging := true },
          fireballs := [] }).1).bowser.isCharging = true := by
  have h := (C2_theorem sampleCfg
    { mario := { initMario sampleCfg.m with isAttacking := true, attackFrameIndex := 3 },
      bowser := { initBowser sampleCfg.b with isCharging := true },
      fireballs := [] }).2.1 rfl rfl rfl (by decide) rfl (by decide) (by decide)
  refine ⟨?_, h.2.1, h.2.2.2.1⟩
  rw [h.1]
  decide

/-! ## Facing recompute (Claim C3) -/

theorem marioPhysics_facing (cfg : MarioCfg) (bx : ℚ) (s : MarioState) :
    (marioPhysics cfg bx s).facingRight = decide (bx ≥ (marioPhysics cfg bx s).x) := by
  simp only [marioPhysics]
  repeat' split
  all_goals rfl

theorem marioAnim_pos (cfg : MarioCfg) (s : MarioState) :
    ((marioAnim cfg s).1).x = s.x ∧ ((marioAnim cfg s).1).facingRight = s.facingRight := by
  have h1 : ∀ z, (marioBlockAnim cfg z).x = z.x ∧
      (marioBlockAnim cfg z).facingRight = z.facingRight := by
    intro z
    simp only [marioBlockAnim]
    repeat' split
    all_goals exact ⟨rfl, rfl⟩
  have h2 : ∀ z, (marioAttackAnim cfg z).x = z.x ∧
      (marioAttackAnim cfg z).facingRight = z.facingRight := by
    intro z
    simp only [marioAttackAnim]
    repeat' split
    all_goals exact ⟨rfl, rfl⟩
  have h3 : ∀ z, (marioSpecialAnimStep cfg z).x = z.x ∧
      (marioSpecialAnimStep cfg z).facingRight = z.facingRight := by
    intro z
    simp only [marioSpecialAnimStep, marioEndSpecial]
    repeat' split
    all_goals exact ⟨rfl, rfl⟩
  have h4 : ∀ z, (marioSpecialChargeTick z).x = z.x ∧
      (marioSpecialChargeTick z).facingRight = z.facingRight := by
    intro z
    simp only [marioSpecialChargeTick]
    repeat' split
    all_goals exact ⟨rfl, rfl⟩
  have h5 : ∀ z, (marioSpecialFx cfg z).x = z.x ∧
      (marioSpecialFx cfg z).facingRight = z.facingRight := by
    intro z
    simp only [marioSpecialFx]
    repeat' split
    all_goals exact ⟨rfl, rfl⟩
  have h6 : ∀ z, (marioStandAnim z).x = z.x ∧
      (marioStandAnim z).facingRight = z.facingRight := by
    intro z
    simp only [marioStandAnim]
    repeat' split
    all_goals exact ⟨rfl, rfl⟩
  simp only [marioAnim]
  repeat' split
  all_goals simp [h1, h2, h3, h4, h5, h6]

theorem marioHitstunTick_pos (s : MarioState) :
    (marioHitstunTick s).x = s.x ∧ (marioHitstunTick s).facingRight = s.facingRight := by
  simp only [marioHitstunTick]
  repeat' split
  all_goals exact ⟨rfl, rfl⟩

theorem bowserPhysics_facing (cfg : BowserCfg) (mx : ℚ) (s : BowserState) :
    (bowserPhysics cfg mx s).facingRight = decide (mx ≥ (bowserPhysics cfg mx s).x) := by
  simp only [bowserPhysics]

theorem bowserAnim_pos (cfg : BowserCfg) (sk : Bool) (s : BowserState) :
    (bowserAnim cfg sk s).x = s.x ∧
    (bowserAnim cfg sk s).facingRight = s.facingRight := by
  have h1 : ∀ z, (bowserBlockAnim cfg z).x = z.x ∧
      (bowserBlockAnim cfg z).facingRight = z.facingRight := by
    intro z
    simp only [bowserBlockAnim]
    repeat' split
    all_goals exact ⟨rfl, rfl⟩
  have h2 : ∀ z, (bowserHitAnim cfg z).x = z.x ∧
      (bowserHitAnim cfg z).facingRight = z.facingRight := by
    intro z
    simp only [bowserHitAnim]
    repeat' split
    all_goals exact ⟨rfl, rfl⟩
  have h3 : ∀ z, (bowserChargingAnim cfg z).x = z.x ∧
      (bowserChargingAnim cfg z).facingRight = z.facingRight := by
    intro z
    simp only [bowserChargingAnim]
    repeat' split
    all_goals exact ⟨rfl, rfl⟩
  have h4 : ∀ z, (bowserChargingTimer z).x = z.x ∧
      (bowserChargingTimer z).facingRight = z.facingRight := by
    intro z
    simp only [bowserChargingTimer]
    repeat' split
    all_goals exact ⟨rfl, rfl⟩
  have h5 : ∀ z, (bowserFlameblastAnim cfg z).x = z.x ∧
      (bowserFlameblastAnim cfg z).facingRight = z.facingRight := by
    intro z
    simp only [bowserFlameblastAnim, bowserEndFlameblast]
    repeat' split
    all_goals exact ⟨rfl, rfl⟩
  have h6 : ∀ z, (bowserPunchAnim cfg z).x = z.x ∧
      (bowserPunchAnim cfg z).facingRight = z.facingRight := by
    intro z
    simp only [bowserPunchAnim]
    repeat' split
    all_goals exact ⟨rfl, rfl⟩
  have h7 : ∀ z, (bowserStandAnim z).x = z.x ∧
      (bowserStandAnim z).facingRight = z.facingRight := by
    intro z
    simp only [bowserStandAnim]
    repeat' split
    all_goals exact ⟨rfl, rfl⟩
  simp only [bowserAnim]
  repeat' split
  all_goals simp [h1, h2, h3, h4, h5, h6, h7]

theorem bowserWalkAnim_pos (s : BowserState) :
    (bowserWalkAnim s).x = s.x ∧ (bowserWalkAnim s).facingRight = s.facingRight := by
  simp only [bowserWalkAnim]
  repeat' split
  all_goals exact ⟨rfl, rfl⟩

theorem bowserSafetyReset_pos (cfg : BowserCfg) (s : BowserState) :
    (bowserSafetyReset cfg s).x = s.x ∧
    (bowserSafetyReset cfg s).facingRight = s.facingRight := by
  simp only [bowserSafetyReset]
  repeat' split
  all_goals exact ⟨rfl, rfl⟩

theorem bowserHitstunTick_pos (s : BowserState) :
    (bowserHitstunTick s).x = s.x ∧ (bowserHitstunTick s).facingRight = s.facingRight := by
  simp only [bowserHitstunTick]
  repeat' split
  all_goals exact ⟨rfl, rfl⟩

/-- The resolver steps never move either combatant nor touch facing. -/
theorem resolveHammerC_pos (cfg : Cfg) (o : Bool) (s : FightState) :
    ((resolveHammerC cfg o s).1).mario.x = s.mario.x ∧
    ((resolveHammerC cfg o s).1).mario.facingRight = s.mario.facingRight ∧
    ((resolveHammerC cfg o s).1).bowser.x = s.bowser.x ∧
    ((resolveHammerC cfg o s).1).bowser.facingRight = s.bowser.facingRight := by
  simp only [resolveHammerC, bowserStartHitstunAnim, bowserEndFlameblast]
  repeat' split
  all_goals exact ⟨rfl, rfl, rfl, rfl⟩

theorem resolvePunchC_pos (cfg : Cfg) (o : Bool) (s : FightState) :
    ((resolvePunchC cfg o s).1).mario.x = s.mario.x ∧
    ((resolvePunchC cfg o s).1).mario.facingRight = s.mario.facingRight ∧
    ((resolvePunchC cfg o s).1).bowser.x = s.bowser.x ∧
    ((resolvePunchC cfg o s).1).bowser.facingRight = s.bowser.facingRight := by
  simp only [resolvePunchC, marioStartHitstunAnim, marioEndSpecial]
  repeat' split
  all_goals exact ⟨rfl, rfl, rfl, rfl⟩

theorem resolveFlame_pos (cfg : Cfg) (o : Bool) (s : FightState) :
    (resolveFlame cfg o s).mario.x = s.mario.x ∧
    (resolveFlame cfg o s).mario.facingRight = s.mario.facingRight ∧
    (resolveFlame cfg o s).bowser.x = s.bowser.x ∧
    (resolveFlame cfg o s).bowser.facingRight = s.bowser.facingRight := by
  simp only [resolveFlame, marioStartHitstunAnim]
  repeat' split
  all_goals exact ⟨rfl, rfl, rfl, rfl⟩

theorem resolveFireballsBowser_pos (cfg : Cfg) (hit : ℕ → Bool) (s : FightState) :
    (resolveFireballsBowser cfg hit s).mario.x = s.mario.x ∧
    (resolveFireballsBowser cfg hit s).mario.facingRight = s.mario.facingRight ∧
    (resolveFireballsBowser cfg hit s).bowser.x = s.bowser.x ∧
    (resolveFireballsBowser cfg hit s).bowser.facingRight = s.bowser.facingRight := by
  simp only [resolveFireballsBowser, bowserStartHitstunAnim]
  repeat' split
  all_goals exact ⟨rfl, rfl, rfl, rfl⟩

theorem resolveFireballsFlame_pos (cfg : Cfg) (hit : ℕ → Bool) (s : FightState) :
    (resolveFireballsFlame cfg hit s).mario.x = s.mario.x ∧
    (resolveFireballsFlame cfg hit s).mario.facingRight = s.mario.facingRight ∧
    (resolveFireballsFlame cfg hit s).bowser.x = s.bowser.x ∧
    (resolveFireballsFlame cfg hit s).bowser.facingRight = s.bowser.facingRight := by
  simp only [resolveFireballsFlame, bowserEndFlameblast]
  repeat' split
  all_goals exact ⟨rfl, rfl, rfl, rfl⟩

theorem marioUpdate_facing (cfg : MarioCfg) (bx : ℚ) (s : MarioState)
    (h : s.isInHitstun = false) :
    ((marioUpdate cfg bx s).1).facingRight = decide (bx ≥ ((marioUpdate cfg bx s).1).x) := by
  unfold marioUpdate
  rw [h]
  simp only [Bool.false_eq_true, if_false]
  rw [(marioHitstunTick_pos _).2, (marioHitstunTick_pos _).1,
    (marioAnim_pos _ _).2, (marioAnim_pos _ _).1, marioPhysics_facing]

theorem bowserUpdate_facing (cfg : BowserCfg) (mx : ℚ) (s : BowserState) :
    (bowserUpdate cfg mx s).facingRight = decide (mx ≥ (bowserUpdate cfg mx s).x) := by
  unfold bowserUpdate
  rw [(bowserHitstunTick_pos _).2, (bowserHitstunTick_pos _).1,
    (bowserSafetyReset_pos _ _).2, (bowserSafetyReset_pos _ _).1,
    (bowserWalkAnim_pos _).2, (bowserWalkAnim_pos _).1,
    (bowserAnim_pos _ _ _).2, (bowserAnim_pos _ _ _).1, bowserPhysics_facing]

/-! ## Claim C3 -/

/-- C3 (counterexample): with Mario's hammer attack active (started by
Z with Bowser to his right, so facing-right at phase start) and facing
then flipped to the left by the A key, the very next tick recomputes
`facing_right = (bowser.x >= mario.x) = True` while the attack is
still active — the tick does not freeze facing during an attack as the
claim states. -/
theorem C3_counterexample :
    (sysRun sampleCfg (initFight sampleCfg) [GEvent.kdZ, GEvent.kdA]).mario.isAttacking
        = true ∧
    (sysRun sampleCfg (initFight sampleCfg) [GEvent.kdZ, GEvent.kdA]).mario.facingRight
        = false ∧
    (sysRun sampleCfg (initFight sampleCfg)
        [GEvent.kdZ, GEvent.kdA, GEvent.tick oNone]).mario.isAttacking = true ∧
    (sysRun sampleCfg (initFight sampleCfg)
        [GEvent.kdZ, GEvent.kdA, GEvent.tick oNone]).mario.facingRight = true := by
  refine ⟨rfl, rfl, ?_, ?_⟩ <;> decide

/-- C3 (amended): each tick recomputes both combatants' facing
*unconditionally* from the opponent's current x — Mario's
`facing_right = (bowser.x >= mario.x)` (using Bowser's pre-tick x,
since Mario updates first) and Bowser's
`facing_right = (mario.x >= bowser.x)` (using Mario's post-tick x) —
including while an attack, special, flameblast or block phase is
active.  There is no facing freeze; the only exception is Mario's
hitstun early return, which is unreachable. -/
theorem C3_theorem (cfg : Cfg) (o : TickOracle) (s : FightState)
    (h : s.mario.isInHitstun = false) :
    (gameTick cfg o s).mario.facingRight
      = decide (s.bowser.x ≥ (gameTick cfg o s).mario.x) ∧
    (gameTick cfg o s).bowser.facingRight
      = decide ((gameTick cfg o s).mario.x ≥ (gameTick cfg o s).bowser.x) := by
  unfold gameTick gameTickC
  simp only
  constructor
  · rw [(resolveFireballsFlame_pos _ _ _).2.1, (resolveFireballsFlame_pos _ _ _).1,
      (resolveFireballsBowser_pos _ _ _).2.1, (resolveFireballsBowser_pos _ _ _).1,
      (resolveFlame_pos _ _ _).2.1, (resolveFlame_pos _ _ _).1,
      (resolvePunchC_pos _ _ _).2.1, (resolvePunchC_pos _ _ _).1,
      (resolveHammerC_pos _ _ _).2.1, (resolveHammerC_pos _ _ _).1]
    exact marioUpdate_facing cfg.m s.bowser.x s.mario h
  · rw [(resolveFireballsFlame_pos _ _ _).2.2.2, (resolveFireballsFlame_pos _ _ _).2.2.1,
      (resolveFireballsFlame_pos _ _ _).1,
      (resolveFireballsBowser_pos _ _ _).2.2.2, (resolveFireballsBowser_pos _ _ _).2.2.1,
      (resolveFireballsBowser_pos _ _ _).1,
      (resolveFlame_pos _ _ _).2.2.2, (resolveFlame_pos _ _ _).2.2.1,
      (resolveFlame_pos _ _ _).1,
      (resolvePunchC_pos _ _ _).2.2.2, (resolvePunchC_pos _ _ _).2.2.1,
      (resolvePunchC_pos _ _ _).1,
      (resolveHammerC_pos _ _ _).2.2.2, (resolveHammerC_pos _ _ _).2.2.1,
      (resolveHammerC_pos _ _ _).1]
    exact bowserUpdate_facing cfg.b _ s.bowser

/-- C3 witness: the unconditional recompute evaluated one tick after
the counterexample setup (Mario attacking, facing flipped left). -/
theorem C3_theorem_witness :
    (sysRun sampleCfg (initFight sampleCfg) [GEvent.kdZ, GEvent.kdA]).mario.isInHitstun
        = false ∧
    (gameTick sampleCfg oNone
        (sysRun sampleCfg (initFight sampleCfg) [GEvent.kdZ, GEvent.kdA])).mario.facingRight
      = decide ((sysRun sampleCfg (initFight sampleCfg)
          [GEvent.kdZ, GEvent.kdA]).bowser.x
        ≥ (gameTick sampleCfg oNone
            (sysRun sampleCfg (initFight sampleCfg) [GEvent.kdZ, GEvent.kdA])).mario.x) :=
  ⟨rfl, (C3_theorem sampleCfg oNone
      (sysRun sampleCfg (initFight sampleCfg) [GEvent.kdZ, GEvent.kdA]) rfl).1⟩

/-! ## Claim C9 -/

/-- C9 (counterexample): `Bowser.get_attack_hitbox` returns a
rectangle at punch frame index 0 — below the "back half" threshold
(`punchLen / 2 = 2` here) the claim says forces a `None` — immediately
after the punch is triggered. -/
theorem C9_counterexample :
    (sysRun sampleCfg (initFight sampleCfg) [GEvent.kdSlash]).bowser.attackFrameIndex
        = 0 ∧
    0 < sampleCfg.b.punchLen / 2 ∧
    (bowserGetAttackHitbox sampleCfg.b
        (sysRun sampleCfg (initFight sampleCfg) [GEvent.kdSlash]).bowser).isSome
      = true := by
  refine ⟨rfl, by decide, ?_⟩
  decide

/-- C9 (amended): only Mario's `get_attack_mask` applies the
active-start threshold: it returns a value only while attacking with
frames loaded and `attack_frame_index ≥ int(0.5 * len)` (conjuncts
1-2).  Mario's `get_attack_hitbox` and Bowser's `get_attack_hitbox`
return a value whenever the combatant is attacking with frames loaded,
regardless of the frame index (conjuncts 3-4).  A `None` accessor
makes the resolver silently skip that test for the tick, leaving the
state unchanged (conjuncts 5-6). -/
theorem C9_theorem (cfg : Cfg) (s : FightState) (o : Bool) :
    (s.mario.isAttacking = false ∨ cfg.m.attackLen = 0 ∨
        s.mario.attackFrameIndex < cfg.m.attackLen / 2 →
      marioGetAttackMask cfg.m s.mario = none) ∧
    ((marioGetAttackMask cfg.m s.mario).isSome = true →
      s.mario.isAttacking = true ∧ 0 < cfg.m.attackLen ∧
      cfg.m.attackLen / 2 ≤ s.mario.attackFrameIndex) ∧
    ((marioGetAttackHitbox cfg.m s.mario).isSome
      = (s.mario.isAttacking && decide (0 < cfg.m.attackLen))) ∧
    ((bowserGetAttackHitbox cfg.b s.bowser).isSome
      = (s.bowser.isAttacking && decide (0 < cfg.b.punchLen))) ∧
    (marioGetAttackMask cfg.m s.mario = none → resolveHammerC cfg o s = (s, false)) ∧
    ((bowserGetAttackHitbox cfg.b s.bowser).isSome = false →
      resolvePunchC cfg o s = (s, false)) := by
  refine ⟨?_, ?_, ?_, ?_, ?_, ?_⟩
  · intro h
    simp only [marioGetAttackMask]
    rcases h with h | h | h
    · rw [if_neg]
      simp [h]
    · rw [if_neg]
      simp [h]
    · split
      all_goals rfl
  · intro h
    simp only [marioGetAttackMask] at h
    by_cases h1 : s.mario.isAttacking = true ∧ 0 < cfg.m.attackLen
    · rw [if_pos h1] at h
      by_cases h2 : s.mario.attackFrameIndex < cfg.m.attackLen / 2
      · rw [if_pos h2] at h
        simp at h
      · exact ⟨h1.1, h1.2, by omega⟩
    · rw [if_neg h1] at h
      simp at h
  · simp only [marioGetAttackHitbox]
    split
    all_goals simp_all
  · simp only [bowserGetAttackHitbox]
    split
    all_goals simp_all
  · intro h
    simp only [resolveHammerC, h]
    repeat' split
    all_goals simp_all
  · intro h
    simp only [resolvePunchC, h]
    repeat' split
    all_goals simp_all

/-- C9 witness: the threshold gating and silent skip evaluated at a
concrete state — Mario attacking at frame 1 of 6 (below the threshold
of 3): the mask is `None` and the hammer test is skipped. -/
theorem C9_theorem_witness :
    marioGetAttackMask sampleCfg.m
        { initMario sampleCfg.m with isAttacking := true, attackFrameIndex := 1 } = none ∧
    resolveHammerC sampleCfg true
        { mario := { initMario sampleCfg.m with isAttacking := true, attackFrameIndex := 1 },
          bowser := initBowser sampleCfg.b, fireballs := [] }
      = ({ mario := { initMario sampleCfg.m with isAttacking := true, attackFrameIndex := 1 },
           bowser := initBowser sampleCfg.b, fireballs := [] }, false) := by
  have h := C9_theorem sampleCfg
    { mario := { initMario sampleCfg.m with isAttacking := true, attackFrameIndex := 1 },
      bowser := initBowser sampleCfg.b, fireballs := [] } true
  have hnone := h.1 (Or.inr (Or.inr (by decide)))
  exact ⟨hnone, h.2.2.2.2.1 hnone⟩

/-! ## Mario's automatic charge cap (Claim C4, Mario half) -/

/-- Fields of the combat state machine untouched by the physics
section. -/
theorem marioPhysics_combat (cfg : MarioCfg) (bx : ℚ) (s : MarioState) :
    (marioPhysics cfg bx s).isSpecial = s.isSpecial ∧
    (marioPhysics cfg bx s).specialPhase = s.specialPhase ∧
    (marioPhysics cfg bx s).specialChargeTimer = s.specialChargeTimer ∧
    (marioPhysics cfg bx s).specialIndex = s.specialIndex ∧
    (marioPhysics cfg bx s).specialTimer = s.specialTimer ∧
    (marioPhysics cfg bx s).specialHasFired = s.specialHasFired ∧
    (marioPhysics cfg bx s).isBlocking = s.isBlocking ∧
    (marioPhysics cfg bx s).isAttacking = s.isAttacking ∧
    (marioPhysics cfg bx s).isPlayingHit = s.isPlayingHit ∧
    (marioPhysics cfg bx s).health = s.health := by
  simp only [marioPhysics]
  repeat' split
  all_goals exact ⟨rfl, rfl, rfl, rfl, rfl, rfl, rfl, rfl, rfl, rfl⟩

/-- The special's frame-advance step leaves the phase, the auto-charge
timer and the mode flags alone while the phase is `charge`. -/
theorem marioSpecialAnimStep_charge (cfg : MarioCfg) (s : MarioState)
    (hph : s.specialPhase = .charge) :
    (marioSpecialAnimStep cfg s).isSpecial = s.isSpecial ∧
    (marioSpecialAnimStep cfg s).specialPhase = .charge ∧
    (marioSpecialAnimStep cfg s).specialChargeTimer = s.specialChargeTimer ∧
    (marioSpecialAnimStep cfg s).specialHasFired = s.specialHasFired ∧
    (marioSpecialAnimStep cfg s).isBlocking = s.isBlocking ∧
    (marioSpecialAnimStep cfg s).isAttacking = s.isAttacking ∧
    (marioSpecialAnimStep cfg s).isInHitstun = s.isInHitstun ∧
    (marioSpecialAnimStep cfg s).isPlayingHit = s.isPlayingHit := by
  simp only [marioSpecialAnimStep, hph]
  repeat' split
  all_goals exact ⟨rfl, rfl, rfl, rfl, rfl, rfl, rfl, rfl⟩

/-- The auto-charge timer below the cap: stays in `charge` and counts
up. -/
theorem marioSpecialChargeTick_keep (s : MarioState)
    (hph : s.specialPhase = .charge)
    (hlt : s.specialChargeTimer + 1 < mSpecialChargeDuration) :
    marioSpecialChargeTick s = { s with specialChargeTimer := s.specialChargeTimer + 1 } := by
  simp only [marioSpecialChargeTick, hph, if_true]
  rw [if_neg (by omega)]

/-- The auto-charge timer at the cap: forces the transition to
`release`. -/
theorem marioSpecialChargeTick_fire (s : MarioState)
    (hph : s.specialPhase = .charge)
    (hge : s.specialChargeTimer + 1 ≥ mSpecialChargeDuration) :
    marioSpecialChargeTick s
      = { s with specialPhase := .release, specialIndex := 0, specialChargeTimer := 0 } := by
  simp only [marioSpecialChargeTick, hph, if_true]
  rw [if_pos hge]

/-- The FX section touches only the overlay counters and cache. -/
theorem marioSpecialFx_combat (cfg : MarioCfg) (s : MarioState) :
    (marioSpecialFx cfg s).isSpecial = s.isSpecial ∧
    (marioSpecialFx cfg s).specialPhase = s.specialPhase ∧
    (marioSpecialFx cfg s).specialChargeTimer = s.specialChargeTimer ∧
    (marioSpecialFx cfg s).specialIndex = s.specialIndex ∧
    (marioSpecialFx cfg s).specialTimer = s.specialTimer ∧
    (marioSpecialFx cfg s).specialHasFired = s.specialHasFired ∧
    (marioSpecialFx cfg s).isBlocking = s.isBlocking ∧
    (marioSpecialFx cfg s).isAttacking = s.isAttacking ∧
    (marioSpecialFx cfg s).isInHitstun = s.isInHitstun ∧
    (marioSpecialFx cfg s).isPlayingHit = s.isPlayingHit := by
  simp only [marioSpecialFx]
  repeat' split
  all_goals exact ⟨rfl, rfl, rfl, rfl, rfl, rfl, rfl, rfl, rfl, rfl⟩

/-- The hitstun/linger section touches only `is_playing_hit` and the
timers. -/
theorem marioHitstunTick_combat (s : MarioState) :
    (marioHitstunTick s).isSpecial = s.isSpecial ∧
    (marioHitstunTick s).specialPhase = s.specialPhase ∧
    (marioHitstunTick s).specialChargeTimer = s.specialChargeTimer ∧
    (marioHitstunTick s).specialIndex = s.specialIndex ∧
    (marioHitstunTick s).specialTimer = s.specialTimer ∧
    (marioHitstunTick s).specialHasFired = s.specialHasFired ∧
    (marioHitstunTick s).isBlocking = s.isBlocking ∧
    (marioHitstunTick s).isAttacking = s.isAttacking ∧
    (marioHitstunTick s).health = s.health := by
  simp only [marioHitstunTick]
  repeat' split
  all_goals exact ⟨rfl, rfl, rfl, rfl, rfl, rfl, rfl, rfl, rfl⟩

/-- While blocking/attacking are off and the special is active, the
animation section routes through the special sub-machine. -/
theorem marioAnim_special (cfg : MarioCfg) (s : MarioState)
    (hbl : s.isBlocking = false) (hat : s.isAttacking = false)
    (hsp : s.isSpecial = true) (hfr : 0 < cfg.chargeLen ∨ 0 < cfg.releaseLen) :
    marioAnim cfg s
      = (marioSpecialFx cfg (marioSpecialChargeTick (marioSpecialAnimStep cfg s)),
         marioSpecialFired s) := by
  simp only [marioAnim, hbl, hat, hsp]
  rw [if_neg (by simp), if_neg (by simp), if_pos (by exact ⟨trivial, hfr⟩)]

/-- One uninterrupted charge tick of `Mario.update`, below the cap. -/
theorem marioUpdate_charge_step (cfg : MarioCfg) (bx : ℚ) (s : MarioState) (k : ℕ)
    (hsp : s.isSpecial = true) (hph : s.specialPhase = .charge)
    (hct : s.specialChargeTimer = k)
    (hbl : s.isBlocking = false) (hat : s.isAttacking = false)
    (hhs : s.isInHitstun = false)
    (hfr : 0 < cfg.chargeLen ∨ 0 < cfg.releaseLen)
    (hk : k + 1 < mSpecialChargeDuration) :
    ((marioUpdate cfg bx s).1).isSpecial = true ∧
    ((marioUpdate cfg bx s).1).specialPhase = .charge ∧
    ((marioUpdate cfg bx s).1).specialChargeTimer = k + 1 ∧
    ((marioUpdate cfg bx s).1).isBlocking = false ∧
    ((marioUpdate cfg bx s).1).isAttacking = false ∧
    ((marioUpdate cfg bx s).1).isInHitstun = false := by
  unfold marioUpdate
  rw [hhs]
  simp only [Bool.false_eq_true, if_false]
  set p := marioPhysics cfg bx s with hp
  have hpc := marioPhysics_combat cfg bx s
  have hpi := marioPhysics_isInHitstun cfg bx s
  rw [marioAnim_special cfg p (by rw [hpc.2.2.2.2.2.2.1, hbl])
    (by rw [hpc.2.2.2.2.2.2.2.1, hat]) (by rw [hpc.1, hsp]) hfr]
  simp only
  have hstep := marioSpecialAnimStep_charge cfg p (by rw [hpc.2.1, hph])
  set a := marioSpecialAnimStep cfg p with ha
  have hkeep := marioSpecialChargeTick_keep a hstep.2.1
    (by rw [hstep.2.2.1, hpc.2.2.1, hct]; exact hk)
  rw [hkeep]
  have hfx := marioSpecialFx_combat cfg
    { a with specialChargeTimer := a.specialChargeTimer + 1 }
  have hht := marioHitstunTick_combat
    (marioSpecialFx cfg { a with specialChargeTimer := a.specialChargeTimer + 1 })
  refine ⟨?_, ?_, ?_, ?_, ?_, ?_⟩
  · rw [hht.1, hfx.1]
    show a.isSpecial = true
    rw [hstep.1, hpc.1, hsp]
  · rw [hht.2.1, hfx.2.1]
    show a.specialPhase = .charge
    exact hstep.2.1
  · rw [hht.2.2.1, hfx.2.2.1]
    show a.specialChargeTimer + 1 = k + 1
    rw [hstep.2.2.1, hpc.2.2.1, hct]
  · rw [hht.2.2.2.2.2.2.1, hfx.2.2.2.2.2.2.1]
    show a.isBlocking = false
    rw [hstep.2.2.2.2.1, hpc.2.2.2.2.2.2.1, hbl]
  · rw [hht.2.2.2.2.2.2.2.1, hfx.2.2.2.2.2.2.2.1]
    show a.isAttacking = false
    rw [hstep.2.2.2.2.2.1, hpc.2.2.2.2.2.2.2.1, hat]
  · apply marioHitstunTick_isInHitstun_false
    rw [hfx.2.2.2.2.2.2.2.2.1]
    show a.isInHitstun = false
    rw [hstep.2.2.2.2.2.2.1, hpi, hhs]

/-- The charge-capping tick of `Mario.update`: with the auto-charge
timer at 149, the update forces `special_phase = "release"`. -/
theorem marioUpdate_charge_fire (cfg : MarioCfg) (bx : ℚ) (s : MarioState)
    (hsp : s.isSpecial = true) (hph : s.specialPhase = .charge)
    (hct : s.specialChargeTimer = mSpecialChargeDuration - 1)
    (hbl : s.isBlocking = false) (hat : s.isAttacking = false)
    (hhs : s.isInHitstun = false)
    (hfr : 0 < cfg.chargeLen ∨ 0 < cfg.releaseLen) :
    ((marioUpdate cfg bx s).1).isSpecial = true ∧
    ((marioUpdate cfg bx s).1).specialPhase = .release ∧
    ((marioUpdate cfg bx s).1).specialChargeTimer = 0 ∧
    ((marioUpdate cfg bx s).1).specialIndex = 0 ∧
    ((marioUpdate cfg bx s).1).specialHasFired = s.specialHasFired := by
  unfold marioUpdate
  rw [hhs]
  simp only [Bool.false_eq_true, if_false]
  set p := marioPhysics cfg bx s with hp
  have hpc := marioPhysics_combat cfg bx s
  rw [marioAnim_special cfg p (by rw [hpc.2.2.2.2.2.2.1, hbl])
    (by rw [hpc.2.2.2.2.2.2.2.1, hat]) (by rw [hpc.1, hsp]) hfr]
  simp only
  have hstep := marioSpecialAnimStep_charge cfg p (by rw [hpc.2.1, hph])
  set a := marioSpecialAnimStep cfg p with ha
  have hfire := marioSpecialChargeTick_fire a hstep.2.1
    (by rw [hstep.2.2.1, hpc.2.2.1, hct]; unfold mSpecialChargeDuration; omega)
  rw [hfire]
  set b : MarioState :=
    { a with specialPhase := .release, specialIndex := 0, specialChargeTimer := 0 } with hb
  have hfx := marioSpecialFx_combat cfg b
  have hht := marioHitstunTick_combat (marioSpecialFx cfg b)
  refine ⟨?_, ?_, ?_, ?_, ?_⟩
  · rw [hht.1, hfx.1]
    show a.isSpecial = true
    rw [hstep.1, hpc.1, hsp]
  · rw [hht.2.1, hfx.2.1]
  · rw [hht.2.2.1, hfx.2.2.1]
  · rw [hht.2.2.2.1, hfx.2.2.2.1]
  · rw [hht.2.2.2.2.2.1, hfx.2.2.2.2.2.1]
    show a.specialHasFired = s.specialHasFired
    rw [hstep.2.2.2.1, hpc.2.2.2.2.2.1]

/-- Closed-form invariant of an uninterrupted Mario charge: after `k`
ticks (`k ≤ 149`) the special is still in its charge phase with the
auto-charge timer at exactly `k`. -/
theorem mario_charge_run (cfg : MarioCfg) (bx : ℚ) (s : MarioState)
    (hsp : s.isSpecial = true) (hph : s.specialPhase = .charge)
    (hct : s.specialChargeTimer = 0)
    (hbl : s.isBlocking = false) (hat : s.isAttacking = false)
    (hhs : s.isInHitstun = false)
    (hfr : 0 < cfg.chargeLen ∨ 0 < cfg.releaseLen) :
    ∀ k, k ≤ mSpecialChargeDuration - 1 →
      ((fun z => (marioUpdate cfg bx z).1)^[k] s).isSpecial = true ∧
      ((fun z => (marioUpdate cfg bx z).1)^[k] s).specialPhase = .charge ∧
      ((fun z => (marioUpdate cfg bx z).1)^[k] s).specialChargeTimer = k ∧
      ((fun z => (marioUpdate cfg bx z).1)^[k] s).isBlocking = false ∧
      ((fun z => (marioUpdate cfg bx z).1)^[k] s).isAttacking = false ∧
      ((fun z => (marioUpdate cfg bx z).1)^[k] s).isInHitstun = false := by
  intro k
  induction k with
  | zero => exact fun _ => ⟨hsp, hph, hct, hbl, hat, hhs⟩
  | succ n ih =>
      intro hn
      have h := ih (by omega)
      rw [Function.iterate_succ_apply']
      exact marioUpdate_charge_step cfg bx _ n h.1 h.2.1 h.2.2.1 h.2.2.2.1
        h.2.2.2.2.1 h.2.2.2.2.2 hfr
        (by unfold mSpecialChargeDuration at *; omega)

/-! ## Bowser's automatic charge cap (Claim C4, Bowser half) -/

theorem bowserPhysics_combat (cfg : BowserCfg) (mx : ℚ) (s : BowserState) :
    (bowserPhysics cfg mx s).isCharging = s.isCharging ∧
    (bowserPhysics cfg mx s).isFlameblasting = s.isFlameblasting ∧
    (bowserPhysics cfg mx s).flameblastPhase = s.flameblastPhase ∧
    (bowserPhysics cfg mx s).flameblastChargeTimer = s.flameblastChargeTimer ∧
    (bowserPhysics cfg mx s).flameblastTimer = s.flameblastTimer ∧
    (bowserPhysics cfg mx s).flameblastIndex = s.flameblastIndex ∧
    (bowserPhysics cfg mx s).flameblastStreamTimer = s.flameblastStreamTimer ∧
    (bowserPhysics cfg mx s).isBlocking = s.isBlocking ∧
    (bowserPhysics cfg mx s).isAttacking = s.isAttacking ∧
    (bowserPhysics cfg mx s).isPlayingHit = s.isPlayingHit ∧
    (bowserPhysics cfg mx s).health = s.health := by
  simp only [bowserPhysics]
  repeat' split
  all_goals exact ⟨rfl, rfl, rfl, rfl, rfl, rfl, rfl, rfl, rfl, rfl, rfl⟩

/-- The charging animation (tail loop included) leaves the mode flags,
phase and the auto-charge timer alone. -/
theorem bowserChargingAnim_combat (cfg : BowserCfg) (s : BowserState) :
    (bowserChargingAnim cfg s).isCharging = s.isCharging ∧
    (bowserChargingAnim cfg s).isFlameblasting = s.isFlameblasting ∧
    (bowserChargingAnim cfg s).flameblastPhase = s.flameblastPhase ∧
    (bowserChargingAnim cfg s).flameblastChargeTimer = s.flameblastChargeTimer ∧
    (bowserChargingAnim cfg s).isBlocking = s.isBlocking ∧
    (bowserChargingAnim cfg s).isAttacking = s.isAttacking ∧
    (bowserChargingAnim cfg s).isPlayingHit = s.isPlayingHit ∧
    (bowserChargingAnim cfg s).isInHitstun = s.isInHitstun := by
  simp only [bowserChargingAnim]
  repeat' split
  all_goals exact ⟨rfl, rfl, rfl, rfl, rfl, rfl, rfl, rfl⟩

theorem bowserChargingTimer_keep (s : BowserState)
    (hlt : s.flameblastChargeTimer + 1 < bFlameblastChargeDuration) :
    bowserChargingTimer s
      = { s with flameblastChargeTimer := s.flameblastChargeTimer + 1 } := by
  simp only [bowserChargingTimer]
  rw [if_neg (by omega)]

theorem bowserChargingTimer_fire (s : BowserState)
    (hge : s.flameblastChargeTimer + 1 ≥ bFlameblastChargeDuration) :
    bowserChargingTimer s
      = { s with isCharging := false, isFlameblasting := true, flameblastPhase := .charge,
                 flameblastIndex := 0, flameblastTimer := 0, flameblastChargeTimer := 0 } := by
  simp only [bowserChargingTimer]
  rw [if_pos hge]

/-- While blocking/hit-anim are off and charging is on, the animation
section routes through the charging sub-machine. -/
theorem bowserAnim_charging (cfg : BowserCfg) (sk : Bool) (s : BowserState)
    (hbl : s.isBlocking = false) (hph : s.isPlayingHit = false)
    (hch : s.isCharging = true) (hfr : 0 < cfg.chargeLen) :
    bowserAnim cfg sk s = bowserChargingTimer (bowserChargingAnim cfg s) := by
  simp only [bowserAnim, hbl, hph, hch]
  rw [if_neg (by simp), if_neg (by simp), if_pos (by exact ⟨trivial, hfr⟩)]

theorem bowserWalkAnim_id (s : BowserState)
    (h : s.isCharging = true ∨ s.isFlameblasting = true) :
    bowserWalkAnim s = s := by
  simp only [bowserWalkAnim]
  rw [if_neg]
  rcases h with h | h <;> simp [h]

theorem bowserSafetyReset_id (cfg : BowserCfg) (s : BowserState)
    (h : (s.isCharging = true ∧ 0 < cfg.chargeLen) ∨ s.isFlameblasting = false ∨
         (s.flameblastPhase ≠ .idle ∧
          (0 < cfg.chargeLen ∨ 0 < cfg.releaseLen ∨ 0 < cfg.streamLen))) :
    bowserSafetyReset cfg s = s := by
  simp only [bowserSafetyReset]
  rw [if_neg]
  intro hc
  rcases h with h | h | h
  · exact hc.2.2.1 ⟨h.1, h.2⟩
  · simp [h] at hc
  · exact h.1 hc.2.2.2.2.2

theorem bowserHitstunTick_id (s : BowserState)
    (hhs : s.isInHitstun = false) (hpl : s.isPlayingHit = false) :
    bowserHitstunTick s = s := by
  simp only [bowserHitstunTick, hhs, hpl]
  simp

/-- One uninterrupted charging tick of `Bowser.update`, below the cap. -/
theorem bowserUpdate_charging_step (cfg : BowserCfg) (mx : ℚ) (s : BowserState) (k : ℕ)
    (hch : s.isCharging = true) (hct : s.flameblastChargeTimer = k)
    (hbl : s.isBlocking = false) (hpl : s.isPlayingHit = false)
    (hhs : s.isInHitstun = false)
    (hfb : s.isFlameblasting = false)
    (hfr : 0 < cfg.chargeLen)
    (hk : k + 1 < bFlameblastChargeDuration) :
    (bowserUpdate cfg mx s).isCharging = true ∧
    (bowserUpdate cfg mx s).flameblastChargeTimer = k + 1 ∧
    (bowserUpdate cfg mx s).isBlocking = false ∧
    (bowserUpdate cfg mx s).isPlayingHit = false ∧
    (bowserUpdate cfg mx s).isInHitstun = false ∧
    (bowserUpdate cfg mx s).isFlameblasting = false := by
  simp only [bowserUpdate]
  set p := bowserPhysics cfg mx s with hp
  have hpc := bowserPhysics_combat cfg mx s
  have hpi := bowserPhysics_isInHitstun cfg mx s
  rw [bowserAnim_charging cfg s.isInHitstun p
    (by rw [hpc.2.2.2.2.2.2.2.1, hbl])
    (by rw [hpc.2.2.2.2.2.2.2.2.2.1, hpl])
    (by rw [hpc.1, hch]) hfr]
  have hca := bowserChargingAnim_combat cfg p
  set a := bowserChargingAnim cfg p with ha
  have hkeep := bowserChargingTimer_keep a
    (by rw [hca.2.2.2.1, hpc.2.2.2.1, hct]; exact hk)
  rw [hkeep]
  set b : BowserState := { a with flameblastChargeTimer := a.flameblastChargeTimer + 1 } with hb
  have hbc : b.isCharging = true := by
    show a.isCharging = true
    rw [hca.1, hpc.1, hch]
  have hbh : b.isInHitstun = false := by
    show a.isInHitstun = false
    rw [hca.2.2.2.2.2.2.2, hpi, hhs]
  have hbp : b.isPlayingHit = false := by
    show a.isPlayingHit = false
    rw [hca.2.2.2.2.2.2.1, hpc.2.2.2.2.2.2.2.2.2.1, hpl]
  rw [bowserWalkAnim_id b (Or.inl hbc), bowserSafetyReset_id cfg b (Or.inl ⟨hbc, hfr⟩),
      bowserHitstunTick_id b hbh hbp]
  refine ⟨hbc, ?_, ?_, hbp, hbh, ?_⟩
  · show a.flameblastChargeTimer + 1 = k + 1
    rw [hca.2.2.2.1, hpc.2.2.2.1, hct]
  · show a.isBlocking = false
    rw [hca.2.2.2.2.1, hpc.2.2.2.2.2.2.2.1, hbl]
  · show a.isFlameblasting = false
    rw [hca.2.1, hpc.2.1, hfb]

/-- The charge-capping tick of `Bowser.update`: with the auto-charge
timer at 89, the update ends the wind-up and starts the flameblast in
its `charge` sub-phase. -/
theorem bowserUpdate_charging_fire (cfg : BowserCfg) (mx : ℚ) (s : BowserState)
    (hch : s.isCharging = true)
    (hct : s.flameblastChargeTimer = bFlameblastChargeDuration - 1)
    (hbl : s.isBlocking = false) (hpl : s.isPlayingHit = false)
    (hhs : s.isInHitstun = false)
    (hfr : 0 < cfg.chargeLen) :
    (bowserUpdate cfg mx s).isCharging = false ∧
    (bowserUpdate cfg mx s).isFlameblasting = true ∧
    (bowserUpdate cfg mx s).flameblastPhase = .charge ∧
    (bowserUpdate cfg mx s).flameblastIndex = 0 ∧
    (bowserUpdate cfg mx s).flameblastTimer = 0 ∧
    (bowserUpdate cfg mx s).flameblastChargeTimer = 0 ∧
    (bowserUpdate cfg mx s).isBlocking = false ∧
    (bowserUpdate cfg mx s).isPlayingHit = false ∧
    (bowserUpdate cfg mx s).isInHitstun = false := by
  simp only [bowserUpdate]
  set p := bowserPhysics cfg mx s with hp
  have hpc := bowserPhysics_combat cfg mx s
  have hpi := bowserPhysics_isInHitstun cfg mx s
  rw [bowserAnim_charging cfg s.isInHitstun p
    (by rw [hpc.2.2.2.2.2.2.2.1, hbl])
    (by rw [hpc.2.2.2.2.2.2.2.2.2.1, hpl])
    (by rw [hpc.1, hch]) hfr]
  have hca := bowserChargingAnim_combat cfg p
  set a := bowserChargingAnim cfg p with ha
  have hfire := bowserChargingTimer_fire a
    (by rw [hca.2.2.2.1, hpc.2.2.2.1, hct]; unfold bFlameblastChargeDuration; omega)
  rw [hfire]
  set b : BowserState :=
    { a with isCharging := false, isFlameblasting := true, flameblastPhase := .charge,
             flameblastIndex := 0, flameblastTimer := 0, flameblastChargeTimer := 0 } with hb
  have hbh : b.isInHitstun = false := by
    show a.isInHitstun = false
    rw [hca.2.2.2.2.2.2.2, hpi, hhs]
  have hbp : b.isPlayingHit = false := by
    show a.isPlayingHit = false
    rw [hca.2.2.2.2.2.2.1, hpc.2.2.2.2.2.2.2.2.2.1, hpl]
  rw [bowserWalkAnim_id b (Or.inr rfl),
      bowserSafetyReset_id cfg b
        (Or.inr (Or.inr ⟨by show BPhase.charge ≠ BPhase.idle; decide, Or.inl hfr⟩)),
      bowserHitstunTick_id b hbh hbp]
  refine ⟨rfl, rfl, rfl, rfl, rfl, rfl, ?_, hbp, hbh⟩
  show a.isBlocking = false
  rw [hca.2.2.2.2.1, hpc.2.2.2.2.2.2.2.1, hbl]

/-- Closed-form invariant of an uninterrupted Bowser wind-up: after `k`
ticks (`k ≤ 89`) he is still in the wind-up with the auto-charge timer
at exactly `k`, and the flameblast proper has not started. -/
theorem bowser_charging_run (cfg : BowserCfg) (mx : ℚ) (s : BowserState)
    (hch : s.isCharging = true) (hct : s.flameblastChargeTimer = 0)
    (hbl : s.isBlocking = false) (hpl : s.isPlayingHit = false)
    (hhs : s.isInHitstun = false)
    (hfb : s.isFlameblasting = false)
    (hfr : 0 < cfg.chargeLen) :
    ∀ k, k ≤ bFlameblastChargeDuration - 1 →
      ((bowserUpdate cfg mx)^[k] s).isCharging = true ∧
      ((bowserUpdate cfg mx)^[k] s).flameblastChargeTimer = k ∧
      ((bowserUpdate cfg mx)^[k] s).isBlocking = false ∧
      ((bowserUpdate cfg mx)^[k] s).isPlayingHit = false ∧
      ((bowserUpdate cfg mx)^[k] s).isInHitstun = false ∧
      ((bowserUpdate cfg mx)^[k] s).isFlameblasting = false := by
  intro k
  induction k with
  | zero => exact fun _ => ⟨hch, hct, hbl, hpl, hhs, hfb⟩
  | succ n ih =>
      intro hn
      have h := ih (by omega)
      rw [Function.iterate_succ_apply']
      exact bowserUpdate_charging_step cfg mx _ n h.1 h.2.1 h.2.2.1 h.2.2.2.1
        h.2.2.2.2.1 h.2.2.2.2.2 hfr
        (by unfold bFlameblastChargeDuration at *; omega)

/-- C4 (corrected).  An uninterrupted, never-released charge is capped
at exactly the configured duration, not before and not after: Mario's
special stays in its charge phase for ticks 0-149 and is in the release
phase at tick 150, with the auto-charge timer cleared; Bowser's wind-up
(`is_charging`) persists for ticks 0-89 and at tick 90 the update ends
it and starts the flameblast — but in the flameblast's `charge`
sub-phase, not in a release phase: his release comes only after the
flameblast charge animation completes. -/
theorem C4_theorem
    (cfg : MarioCfg) (bcfg : BowserCfg) (bx mx : ℚ) (sm : MarioState) (sb : BowserState)
    (hm1 : sm.isSpecial = true) (hm2 : sm.specialPhase = .charge)
    (hm3 : sm.specialChargeTimer = 0) (hm4 : sm.isBlocking = false)
    (hm5 : sm.isAttacking = false) (hm6 : sm.isInHitstun = false)
    (hmf : 0 < cfg.chargeLen ∨ 0 < cfg.releaseLen)
    (hb1 : sb.isCharging = true) (hb2 : sb.flameblastChargeTimer = 0)
    (hb3 : sb.isBlocking = false) (hb4 : sb.isPlayingHit = false)
    (hb5 : sb.isInHitstun = false) (hb6 : sb.isFlameblasting = false)
    (hbf : 0 < bcfg.chargeLen) :
    (∀ k, k ≤ mSpecialChargeDuration - 1 →
        ((fun z => (marioUpdate cfg bx z).1)^[k] sm).specialPhase = .charge) ∧
    ((fun z => (marioUpdate cfg bx z).1)^[mSpecialChargeDuration] sm).specialPhase
      = .release ∧
    ((fun z => (marioUpdate cfg bx z).1)^[mSpecialChargeDuration] sm).specialChargeTimer
      = 0 ∧
    (∀ k, k ≤ bFlameblastChargeDuration - 1 →
        ((bowserUpdate bcfg mx)^[k] sb).isCharging = true ∧
        ((bowserUpdate bcfg mx)^[k] sb).isFlameblasting = false) ∧
    ((bowserUpdate bcfg mx)^[bFlameblastChargeDuration] sb).isCharging = false ∧
    ((bowserUpdate bcfg mx)^[bFlameblastChargeDuration] sb).isFlameblasting = true ∧
    ((bowserUpdate bcfg mx)^[bFlameblastChargeDuration] sb).flameblastPhase = .charge := by
  have hrun := mario_charge_run cfg bx sm hm1 hm2 hm3 hm4 hm5 hm6 hmf
  have hbrun := bowser_charging_run bcfg mx sb hb1 hb2 hb3 hb4 hb5 hb6 hbf
  have h149 := hrun 149 (by decide)
  have hfire := marioUpdate_charge_fire cfg bx _ h149.1 h149.2.1 h149.2.2.1
    h149.2.2.2.1 h149.2.2.2.2.1 h149.2.2.2.2.2 hmf
  have h89 := hbrun 89 (by decide)
  have hbfire := bowserUpdate_charging_fire bcfg mx _ h89.1 h89.2.1 h89.2.2.1
    h89.2.2.2.1 h89.2.2.2.2.1 hbf
  refine ⟨fun k hk => (hrun k hk).2.1, ?_, ?_,
    fun k hk => ⟨(hbrun k hk).1, (hbrun k hk).2.2.2.2.2⟩, ?_, ?_, ?_⟩
  · show ((fun z => (marioUpdate cfg bx z).1)^[149 + 1] sm).specialPhase = SpecialPhase.release
    rw [Function.iterate_succ_apply']
    exact hfire.2.1
  · show ((fun z => (marioUpdate cfg bx z).1)^[149 + 1] sm).specialChargeTimer = 0
    rw [Function.iterate_succ_apply']
    exact hfire.2.2.1
  · show ((bowserUpdate bcfg mx)^[89 + 1] sb).isCharging = false
    rw [Function.iterate_succ_apply']
    exact hbfire.1
  · show ((bowserUpdate bcfg mx)^[89 + 1] sb).isFlameblasting = true
    rw [Function.iterate_succ_apply']
    exact hbfire.2.1
  · show ((bowserUpdate bcfg mx)^[89 + 1] sb).flameblastPhase = BPhase.charge
    rw [Function.iterate_succ_apply']
    exact hbfire.2.2.1

/-- At tick 90 of an uninterrupted Bowser wind-up started from the
initial match state, the flameblast is in its `charge` sub-phase — not
in a release phase as the claim's literal reading asserts. -/
theorem C4_counterexample :
    ((bowserUpdate sampleCfg.b 450)^[90]
        ((sysStep sampleCfg (initFight sampleCfg) .kdPeriod).bowser)).flameblastPhase
      = BPhase.charge ∧ BPhase.charge ≠ BPhase.release := by
  refine ⟨?_, by decide⟩
  have hrun := bowser_charging_run sampleCfg.b 450
    ((sysStep sampleCfg (initFight sampleCfg) .kdPeriod).bowser)
    (by decide) (by decide) (by decide) (by decide) (by decide) (by decide) (by decide)
  have h89 := hrun 89 (by decide)
  show ((bowserUpdate sampleCfg.b 450)^[89 + 1]
      ((sysStep sampleCfg (initFight sampleCfg) .kdPeriod).bowser)).flameblastPhase
    = BPhase.charge
  rw [Function.iterate_succ_apply']
  exact (bowserUpdate_charging_fire sampleCfg.b 450 _ h89.1 h89.2.1 h89.2.2.1
    h89.2.2.2.1 h89.2.2.2.2.1 (by decide)).2.2.1

/-- Concrete instantiation of the charge-cap theorem. -/
theorem C4_theorem_witness :
    ((fun z => (marioUpdate sampleCfg.m 850 z).1)^[mSpecialChargeDuration]
        { initMario sampleCfg.m with isSpecial := true, specialPhase := SpecialPhase.charge
        }).specialPhase = SpecialPhase.release ∧
    ((bowserUpdate sampleCfg.b 450)^[bFlameblastChargeDuration]
        ((sysStep sampleCfg (initFight sampleCfg) .kdPeriod).bowser)).flameblastPhase
      = BPhase.charge := by
  have h := C4_theorem sampleCfg.m sampleCfg.b 850 450
    { initMario sampleCfg.m with isSpecial := true, specialPhase := SpecialPhase.charge }
    ((sysStep sampleCfg (initFight sampleCfg) .kdPeriod).bowser)
    (by decide) (by decide) (by decide) (by decide) (by decide) (by decide) (by decide)
    (by decide) (by decide) (by decide) (by decide) (by decide) (by decide) (by decide)
  exact ⟨h.2.1, h.2.2.2.2.2.2⟩

/-! ## Flameblast stream duration (Claim C5) -/

/-- A sub-`flameblast_speed` tick only advances `flameblast_timer`. -/
theorem bowserFlameblastAnim_tick (cfg : BowserCfg) (s : BowserState)
    (ht : s.flameblastTimer + 1 < bFlameblastSpeed) :
    bowserFlameblastAnim cfg s = { s with flameblastTimer := s.flameblastTimer + 1 } := by
  simp only [bowserFlameblastAnim]
  rw [if_neg (by omega)]

/-- A stream-phase animation step below the stream cap: the stream
timer advances by 1 and all mode flags survive. -/
theorem bowserFlameblastAnim_stream_adv (cfg : BowserCfg) (s : BowserState)
    (hph : s.flameblastPhase = .stream)
    (ht : s.flameblastTimer + 1 ≥ bFlameblastSpeed)
    (hst : s.flameblastStreamTimer + 1 < bFlameblastStreamDuration) :
    (bowserFlameblastAnim cfg s).isFlameblasting = s.isFlameblasting ∧
    (bowserFlameblastAnim cfg s).flameblastPhase = .stream ∧
    (bowserFlameblastAnim cfg s).flameblastTimer = 0 ∧
    (bowserFlameblastAnim cfg s).flameblastStreamTimer = s.flameblastStreamTimer + 1 ∧
    (bowserFlameblastAnim cfg s).isBlocking = s.isBlocking ∧
    (bowserFlameblastAnim cfg s).isPlayingHit = s.isPlayingHit ∧
    (bowserFlameblastAnim cfg s).isCharging = s.isCharging ∧
    (bowserFlameblastAnim cfg s).isInHitstun = s.isInHitstun := by
  simp only [bowserFlameblastAnim]
  rw [if_pos ht]
  repeat' split
  all_goals simp_all
  all_goals omega

/-- The stream-capping animation step: the stream timer reaches the
configured duration and `_end_flameblast` tears everything down. -/
theorem bowserFlameblastAnim_stream_end (cfg : BowserCfg) (s : BowserState)
    (hph : s.flameblastPhase = .stream)
    (ht : s.flameblastTimer + 1 ≥ bFlameblastSpeed)
    (hst : s.flameblastStreamTimer + 1 ≥ bFlameblastStreamDuration) :
    (bowserFlameblastAnim cfg s).isFlameblasting = false ∧
    (bowserFlameblastAnim cfg s).isCharging = false ∧
    (bowserFlameblastAnim cfg s).flameblastPhase = .idle ∧
    (bowserFlameblastAnim cfg s).flameblastIndex = 0 ∧
    (bowserFlameblastAnim cfg s).flameblastTimer = 0 ∧
    (bowserFlameblastAnim cfg s).flameblastStreamTimer = 0 ∧
    (bowserFlameblastAnim cfg s).flameFxTimer = 0 ∧
    (bowserFlameblastAnim cfg s).flameFxIndex = 0 ∧
    (bowserFlameblastAnim cfg s).flameblastHasHit = false ∧
    (bowserFlameblastAnim cfg s).flameLockMovement = false ∧
    (bowserFlameblastAnim cfg s).flameblastChargeTimer = 0 ∧
    (bowserFlameblastAnim cfg s).isAttacking = false ∧
    (bowserFlameblastAnim cfg s).attackHasHit = false ∧
    (bowserFlameblastAnim cfg s).isBlocking = false ∧
    (bowserFlameblastAnim cfg s).isPlayingHit = false ∧
    (bowserFlameblastAnim cfg s).isInHitstun = s.isInHitstun := by
  simp only [bowserFlameblastAnim, bowserEndFlameblast]
  rw [if_pos ht]
  repeat' split
  all_goals simp_all

/-- While blocking/hit-anim/charging are off and the flameblast is on
(and the hitstun snapshot is off), the animation section routes through
the flameblast sub-machine. -/
theorem bowserAnim_flameblast (cfg : BowserCfg) (s : BowserState)
    (hbl : s.isBlocking = false) (hpl : s.isPlayingHit = false)
    (hch : s.isCharging = false) (hfb : s.isFlameblasting = true)
    (hfr : 0 < cfg.chargeLen ∨ 0 < cfg.releaseLen ∨ 0 < cfg.streamLen) :
    bowserAnim cfg false s = bowserFlameblastAnim cfg s := by
  simp only [bowserAnim, hbl, hpl, hch, hfb]
  rw [if_neg (by simp), if_neg (by simp), if_neg (by simp),
      if_pos (by exact ⟨by simp, trivial, hfr, by simp⟩)]

/-- The walking animation touches only `animation_timer/frame`. -/
theorem bowserWalkAnim_combat (s : BowserState) :
    (bowserWalkAnim s).isFlameblasting = s.isFlameblasting ∧
    (bowserWalkAnim s).isCharging = s.isCharging ∧
    (bowserWalkAnim s).flameblastPhase = s.flameblastPhase ∧
    (bowserWalkAnim s).flameblastTimer = s.flameblastTimer ∧
    (bowserWalkAnim s).flameblastIndex = s.flameblastIndex ∧
    (bowserWalkAnim s).flameblastStreamTimer = s.flameblastStreamTimer ∧
    (bowserWalkAnim s).flameFxTimer = s.flameFxTimer ∧
    (bowserWalkAnim s).flameFxIndex = s.flameFxIndex ∧
    (bowserWalkAnim s).flameblastHasHit = s.flameblastHasHit ∧
    (bowserWalkAnim s).flameLockMovement = s.flameLockMovement ∧
    (bowserWalkAnim s).flameblastChargeTimer = s.flameblastChargeTimer ∧
    (bowserWalkAnim s).isAttacking = s.isAttacking ∧
    (bowserWalkAnim s).attackHasHit = s.attackHasHit ∧
    (bowserWalkAnim s).isBlocking = s.isBlocking ∧
    (bowserWalkAnim s).isPlayingHit = s.isPlayingHit ∧
    (bowserWalkAnim s).isInHitstun = s.isInHitstun := by
  simp only [bowserWalkAnim]
  repeat' split
  all_goals exact ⟨rfl, rfl, rfl, rfl, rfl, rfl, rfl, rfl, rfl, rfl, rfl, rfl, rfl, rfl, rfl, rfl⟩

/-- One full `Bowser.update` tick inside the stream phase, below the
cap: the stream timer's closed form is `k / flameblast_speed`. -/
theorem bowserUpdate_stream_step (cfg : BowserCfg) (mx : ℚ) (s : BowserState) (k : ℕ)
    (hfb : s.isFlameblasting = true) (hph : s.flameblastPhase = .stream)
    (hbt : s.flameblastTimer = k % 4) (hst : s.flameblastStreamTimer = k / 4)
    (hbl : s.isBlocking = false) (hpl : s.isPlayingHit = false)
    (hch : s.isCharging = false) (hhs : s.isInHitstun = false)
    (hfr : 0 < cfg.chargeLen ∨ 0 < cfg.releaseLen ∨ 0 < cfg.streamLen)
    (hk : k + 1 < 4 * bFlameblastStreamDuration) :
    (bowserUpdate cfg mx s).isFlameblasting = true ∧
    (bowserUpdate cfg mx s).flameblastPhase = .stream ∧
    (bowserUpdate cfg mx s).flameblastTimer = (k + 1) % 4 ∧
    (bowserUpdate cfg mx s).flameblastStreamTimer = (k + 1) / 4 ∧
    (bowserUpdate cfg mx s).isBlocking = false ∧
    (bowserUpdate cfg mx s).isPlayingHit = false ∧
    (bowserUpdate cfg mx s).isCharging = false ∧
    (bowserUpdate cfg mx s).isInHitstun = false := by
  simp only [bowserUpdate]
  rw [hhs]
  set p := bowserPhysics cfg mx s with hp
  have hpc := bowserPhysics_combat cfg mx s
  have hpi := bowserPhysics_isInHitstun cfg mx s
  rw [bowserAnim_flameblast cfg p
    (by rw [hpc.2.2.2.2.2.2.2.1, hbl])
    (by rw [hpc.2.2.2.2.2.2.2.2.2.1, hpl])
    (by rw [hpc.1, hch])
    (by rw [hpc.2.1, hfb]) hfr]
  rcases Nat.lt_or_ge (p.flameblastTimer + 1) bFlameblastSpeed with hc | hc
  · rw [bowserFlameblastAnim_tick cfg p hc]
    set b : BowserState := { p with flameblastTimer := p.flameblastTimer + 1 } with hb
    have hcc : k % 4 + 1 < bFlameblastSpeed := by
      rw [← hbt, ← hpc.2.2.2.2.1]
      exact hc
    unfold bFlameblastSpeed at hcc
    have hbfb : b.isFlameblasting = true := by
      show p.isFlameblasting = true
      rw [hpc.2.1, hfb]
    have hbph : b.flameblastPhase = BPhase.stream := by
      show p.flameblastPhase = BPhase.stream
      rw [hpc.2.2.1, hph]
    have hbh : b.isInHitstun = false := by
      show p.isInHitstun = false
      rw [hpi, hhs]
    have hbp : b.isPlayingHit = false := by
      show p.isPlayingHit = false
      rw [hpc.2.2.2.2.2.2.2.2.2.1, hpl]
    rw [bowserWalkAnim_id b (Or.inr hbfb),
        bowserSafetyReset_id cfg b (Or.inr (Or.inr ⟨by rw [hbph]; decide, hfr⟩)),
        bowserHitstunTick_id b hbh hbp]
    refine ⟨hbfb, hbph, ?_, ?_, ?_, hbp, ?_, hbh⟩
    · show p.flameblastTimer + 1 = (k + 1) % 4
      rw [hpc.2.2.2.2.1, hbt]
      omega
    · show p.flameblastStreamTimer = (k + 1) / 4
      rw [hpc.2.2.2.2.2.2.1, hst]
      omega
    · show p.isBlocking = false
      rw [hpc.2.2.2.2.2.2.2.1, hbl]
    · show p.isCharging = false
      rw [hpc.1, hch]
  · have hc4 : k % 4 + 1 ≥ bFlameblastSpeed := by
      rw [← hbt, ← hpc.2.2.2.2.1]
      exact hc
    unfold bFlameblastSpeed at hc4
    unfold bFlameblastStreamDuration at hk
    have hs60 : p.flameblastStreamTimer + 1 < bFlameblastStreamDuration := by
      rw [hpc.2.2.2.2.2.2.1, hst]
      unfold bFlameblastStreamDuration
      omega
    have hadv := bowserFlameblastAnim_stream_adv cfg p (by rw [hpc.2.2.1, hph]) hc hs60
    set a := bowserFlameblastAnim cfg p with ha
    have hafb : a.isFlameblasting = true := by rw [hadv.1, hpc.2.1, hfb]
    have hah : a.isInHitstun = false := by rw [hadv.2.2.2.2.2.2.2, hpi, hhs]
    have hap : a.isPlayingHit = false := by
      rw [hadv.2.2.2.2.2.1, hpc.2.2.2.2.2.2.2.2.2.1, hpl]
    rw [bowserWalkAnim_id a (Or.inr hafb),
        bowserSafetyReset_id cfg a (Or.inr (Or.inr ⟨by rw [hadv.2.1]; decide, hfr⟩)),
        bowserHitstunTick_id a hah hap]
    refine ⟨hafb, hadv.2.1, ?_, ?_, ?_, hap, ?_, hah⟩
    · rw [hadv.2.2.1]
      omega
    · rw [hadv.2.2.2.1, hpc.2.2.2.2.2.2.1, hst]
      omega
    · rw [hadv.2.2.2.2.1, hpc.2.2.2.2.2.2.2.1, hbl]
    · rw [hadv.2.2.2.2.2.2.1, hpc.1, hch]

/-- The stream-capping `Bowser.update` tick: with the animation counter
about to step and the stream timer one short of the cap, the flameblast
is torn down completely. -/
theorem bowserUpdate_stream_end (cfg : BowserCfg) (mx : ℚ) (s : BowserState)
    (hfb : s.isFlameblasting = true) (hph : s.flameblastPhase = .stream)
    (hbt : s.flameblastTimer = 3)
    (hst : s.flameblastStreamTimer = bFlameblastStreamDuration - 1)
    (hbl : s.isBlocking = false) (hpl : s.isPlayingHit = false)
    (hch : s.isCharging = false) (hhs : s.isInHitstun = false)
    (hfr : 0 < cfg.chargeLen ∨ 0 < cfg.releaseLen ∨ 0 < cfg.streamLen) :
    (bowserUpdate cfg mx s).isFlameblasting = false ∧
    (bowserUpdate cfg mx s).flameblastPhase = .idle ∧
    (bowserUpdate cfg mx s).isCharging = false ∧
    (bowserUpdate cfg mx s).isAttacking = false ∧
    (bowserUpdate cfg mx s).isBlocking = false ∧
    (bowserUpdate cfg mx s).isPlayingHit = false ∧
    (bowserUpdate cfg mx s).flameblastTimer = 0 ∧
    (bowserUpdate cfg mx s).flameblastIndex = 0 ∧
    (bowserUpdate cfg mx s).flameblastStreamTimer = 0 ∧
    (bowserUpdate cfg mx s).flameblastChargeTimer = 0 ∧
    (bowserUpdate cfg mx s).flameblastHasHit = false ∧
    (bowserUpdate cfg mx s).flameLockMovement = false ∧
    (bowserUpdate cfg mx s).isInHitstun = false := by
  simp only [bowserUpdate]
  rw [hhs]
  set p := bowserPhysics cfg mx s with hp
  have hpc := bowserPhysics_combat cfg mx s
  have hpi := bowserPhysics_isInHitstun cfg mx s
  rw [bowserAnim_flameblast cfg p
    (by rw [hpc.2.2.2.2.2.2.2.1, hbl])
    (by rw [hpc.2.2.2.2.2.2.2.2.2.1, hpl])
    (by rw [hpc.1, hch])
    (by rw [hpc.2.1, hfb]) hfr]
  have hend := bowserFlameblastAnim_stream_end cfg p (by rw [hpc.2.2.1, hph])
    (by rw [hpc.2.2.2.2.1, hbt]; unfold bFlameblastSpeed; omega)
    (by rw [hpc.2.2.2.2.2.2.1, hst]; unfold bFlameblastStreamDuration; omega)
  set a := bowserFlameblastAnim cfg p with ha
  have hw := bowserWalkAnim_combat a
  set w := bowserWalkAnim a with hwdef
  have hwh : w.isInHitstun = false := by rw [hw.2.2.2.2.2.2.2.2.2.2.2.2.2.2.2, hend.2.2.2.2.2.2.2.2.2.2.2.2.2.2.2, hpi, hhs]
  have hwp : w.isPlayingHit = false := by
    rw [hw.2.2.2.2.2.2.2.2.2.2.2.2.2.2.1, hend.2.2.2.2.2.2.2.2.2.2.2.2.2.2.1]
  have hwf : w.isFlameblasting = false := by rw [hw.1, hend.1]
  rw [bowserSafetyReset_id cfg w (Or.inr (Or.inl hwf)), bowserHitstunTick_id w hwh hwp]
  refine ⟨hwf, ?_, ?_, ?_, ?_, hwp, ?_, ?_, ?_, ?_, ?_, ?_, hwh⟩
  · rw [hw.2.2.1, hend.2.2.1]
  · rw [hw.2.1, hend.2.1]
  · rw [hw.2.2.2.2.2.2.2.2.2.2.2.1, hend.2.2.2.2.2.2.2.2.2.2.2.1]
  · rw [hw.2.2.2.2.2.2.2.2.2.2.2.2.2.1, hend.2.2.2.2.2.2.2.2.2.2.2.2.2.1]
  · rw [hw.2.2.2.1, hend.2.2.2.2.1]
  · rw [hw.2.2.2.2.1, hend.2.2.2.1]
  · rw [hw.2.2.2.2.2.1, hend.2.2.2.2.2.1]
  · rw [hw.2.2.2.2.2.2.2.2.2.2.1, hend.2.2.2.2.2.2.2.2.2.2.1]
  · rw [hw.2.2.2.2.2.2.2.2.1, hend.2.2.2.2.2.2.2.2.1]
  · rw [hw.2.2.2.2.2.2.2.2.2.1, hend.2.2.2.2.2.2.2.2.2.1]

/-- Closed-form invariant of an undisturbed stream: after `k` ticks
(`k ≤ 239`) the stream is still running, with the animation counter at
`k % 4` and the stream timer at only `k / 4`. -/
theorem bowser_stream_run (cfg : BowserCfg) (mx : ℚ) (s : BowserState)
    (hfb : s.isFlameblasting = true) (hph : s.flameblastPhase = .stream)
    (hbt : s.flameblastTimer = 0) (hst : s.flameblastStreamTimer = 0)
    (hbl : s.isBlocking = false) (hpl : s.isPlayingHit = false)
    (hch : s.isCharging = false) (hhs : s.isInHitstun = false)
    (hfr : 0 < cfg.chargeLen ∨ 0 < cfg.releaseLen ∨ 0 < cfg.streamLen) :
    ∀ k, k ≤ 4 * bFlameblastStreamDuration - 1 →
      ((bowserUpdate cfg mx)^[k] s).isFlameblasting = true ∧
      ((bowserUpdate cfg mx)^[k] s).flameblastPhase = .stream ∧
      ((bowserUpdate cfg mx)^[k] s).flameblastTimer = k % 4 ∧
      ((bowserUpdate cfg mx)^[k] s).flameblastStreamTimer = k / 4 ∧
      ((bowserUpdate cfg mx)^[k] s).isBlocking = false ∧
      ((bowserUpdate cfg mx)^[k] s).isPlayingHit = false ∧
      ((bowserUpdate cfg mx)^[k] s).isCharging = false ∧
      ((bowserUpdate cfg mx)^[k] s).isInHitstun = false := by
  intro k
  induction k with
  | zero => exact fun _ => ⟨hfb, hph, hbt, hst, hbl, hpl, hch, hhs⟩
  | succ n ih =>
      intro hn
      have h := ih (by omega)
      rw [Function.iterate_succ_apply']
      exact bowserUpdate_stream_step cfg mx _ n h.1 h.2.1 h.2.2.1 h.2.2.2.1
        h.2.2.2.2.1 h.2.2.2.2.2.1 h.2.2.2.2.2.2.1 h.2.2.2.2.2.2.2 hfr
        (by unfold bFlameblastStreamDuration at *; omega)

/-- C5.  The numbers in the source say the stream should last
`flameblast_stream_duration = 60` ticks ("1 second at 60 FPS"), but the
stream timer only advances on every `flameblast_speed`-th (4th) tick,
so an undisturbed stream in fact runs for 240 ticks: it is still
streaming at tick 60, and only the 240th update tears it down.  The
teardown itself (by timeout, and by the repeat-trigger cancel) does
reset all flameblast/attacking/blocking/hit sub-state unconditionally,
as claimed. -/
theorem C5_theorem (cfg : BowserCfg) (mx : ℚ) (s : BowserState)
    (hfb : s.isFlameblasting = true) (hph : s.flameblastPhase = .stream)
    (hbt : s.flameblastTimer = 0) (hst : s.flameblastStreamTimer = 0)
    (hbl : s.isBlocking = false) (hpl : s.isPlayingHit = false)
    (hch : s.isCharging = false) (hhs : s.isInHitstun = false)
    (hfr : 0 < cfg.chargeLen ∨ 0 < cfg.releaseLen ∨ 0 < cfg.streamLen) :
    (∀ k, k ≤ 4 * bFlameblastStreamDuration - 1 →
        ((bowserUpdate cfg mx)^[k] s).isFlameblasting = true ∧
        ((bowserUpdate cfg mx)^[k] s).flameblastPhase = .stream) ∧
    ((bowserUpdate cfg mx)^[bFlameblastStreamDuration] s).isFlameblasting = true ∧
    (((bowserUpdate cfg mx)^[4 * bFlameblastStreamDuration] s).isFlameblasting = false ∧
     ((bowserUpdate cfg mx)^[4 * bFlameblastStreamDuration] s).flameblastPhase = .idle ∧
     ((bowserUpdate cfg mx)^[4 * bFlameblastStreamDuration] s).isCharging = false ∧
     ((bowserUpdate cfg mx)^[4 * bFlameblastStreamDuration] s).isAttacking = false ∧
     ((bowserUpdate cfg mx)^[4 * bFlameblastStreamDuration] s).isBlocking = false ∧
     ((bowserUpdate cfg mx)^[4 * bFlameblastStreamDuration] s).isPlayingHit = false ∧
     ((bowserUpdate cfg mx)^[4 * bFlameblastStreamDuration] s).flameblastTimer = 0 ∧
     ((bowserUpdate cfg mx)^[4 * bFlameblastStreamDuration] s).flameblastIndex = 0 ∧
     ((bowserUpdate cfg mx)^[4 * bFlameblastStreamDuration] s).flameblastStreamTimer = 0 ∧
     ((bowserUpdate cfg mx)^[4 * bFlameblastStreamDuration] s).flameblastChargeTimer = 0 ∧
     ((bowserUpdate cfg mx)^[4 * bFlameblastStreamDuration] s).flameblastHasHit = false ∧
     ((bowserUpdate cfg mx)^[4 * bFlameblastStreamDuration] s).flameLockMovement = false) ∧
    (∀ fs : FightState, fs.mario.isInHitstun = false → fs.bowser.isInHitstun = false →
        fs.bowser.isFlameblasting = true → fs.bowser.flameblastPhase = .stream →
        (onKeyDown fs .kdPeriod).bowser = bowserEndFlameblast fs.bowser) := by
  have hrun := bowser_stream_run cfg mx s hfb hph hbt hst hbl hpl hch hhs hfr
  have h239 := hrun 239 (by decide)
  have hend := bowserUpdate_stream_end cfg mx _ h239.1 h239.2.1 h239.2.2.1 h239.2.2.2.1
    h239.2.2.2.2.1 h239.2.2.2.2.2.1 h239.2.2.2.2.2.2.1 h239.2.2.2.2.2.2.2 hfr
  have hiter : (bowserUpdate cfg mx)^[4 * bFlameblastStreamDuration] s
      = bowserUpdate cfg mx ((bowserUpdate cfg mx)^[239] s) := by
    show (bowserUpdate cfg mx)^[239 + 1] s = _
    rw [Function.iterate_succ_apply']
  refine ⟨fun k hk => ⟨(hrun k hk).1, (hrun k hk).2.1⟩,
    (hrun bFlameblastStreamDuration (by decide)).1, ?_, ?_⟩
  · rw [hiter]
    exact ⟨hend.1, hend.2.1, hend.2.2.1, hend.2.2.2.1, hend.2.2.2.2.1, hend.2.2.2.2.2.1,
      hend.2.2.2.2.2.2.1, hend.2.2.2.2.2.2.2.1, hend.2.2.2.2.2.2.2.2.1,
      hend.2.2.2.2.2.2.2.2.2.1, hend.2.2.2.2.2.2.2.2.2.2.1, hend.2.2.2.2.2.2.2.2.2.2.2.1⟩
  · intro fs hm hb2 hfb2 hph2
    simp [onKeyDown, hm, hb2, hfb2, hph2]

/-- Concrete instantiation of the stream-duration theorem. -/
theorem C5_theorem_witness :
    ((bowserUpdate sampleCfg.b 450)^[bFlameblastStreamDuration]
        ({ initBowser sampleCfg.b with isFlameblasting := true, flameblastPhase := BPhase.stream
        })).isFlameblasting = true ∧
    ((bowserUpdate sampleCfg.b 450)^[4 * bFlameblastStreamDuration]
        ({ initBowser sampleCfg.b with isFlameblasting := true, flameblastPhase := BPhase.stream
        })).isFlameblasting = false := by
  have h := C5_theorem sampleCfg.b 450
    { initBowser sampleCfg.b with isFlameblasting := true, flameblastPhase := BPhase.stream }
    (by decide) (by decide) (by decide) (by decide) (by decide) (by decide) (by decide)
    (by decide) (by decide)
  exact ⟨h.2.1, h.2.2.1.1⟩

/-! ## Fireball spawn timing and the has-fired guard (Claim C6) -/

/-- A sub-`special_speed` tick only advances `special_timer`. -/
theorem marioSpecialAnimStep_tick (cfg : MarioCfg) (s : MarioState)
    (ht : s.specialTimer + 1 < mSpecialSpeed) :
    marioSpecialAnimStep cfg s = { s with specialTimer := s.specialTimer + 1 } := by
  simp only [marioSpecialAnimStep]
  rw [if_neg (by omega)]

/-- A release-phase animation step that does not yet exhaust the
release frames: index advances and the has-fired flag is set. -/
theorem marioSpecialAnimStep_release_keep (cfg : MarioCfg) (s : MarioState)
    (hph : s.specialPhase = .release)
    (ht : s.specialTimer + 1 ≥ mSpecialSpeed)
    (hi : s.specialIndex + 1 < cfg.releaseLen) :
    marioSpecialAnimStep cfg s
      = { s with specialTimer := 0, specialIndex := s.specialIndex + 1,
                 specialHasFired := true } := by
  simp only [marioSpecialAnimStep]
  rw [if_pos ht]
  repeat' split
  all_goals simp_all
  all_goals omega

/-- A release-phase animation step at or past the last release frame:
`_end_special` runs, and its full reset makes the result independent of
the counters touched earlier in the step. -/
theorem marioSpecialAnimStep_release_end (cfg : MarioCfg) (s : MarioState)
    (hph : s.specialPhase = .release)
    (ht : s.specialTimer + 1 ≥ mSpecialSpeed)
    (hi : s.specialIndex + 1 ≥ cfg.releaseLen) :
    marioSpecialAnimStep cfg s = marioEndSpecial s := by
  simp only [marioSpecialAnimStep, marioEndSpecial]
  rw [if_pos ht]
  repeat' split
  all_goals simp_all

theorem marioSpecialChargeTick_id (s : MarioState)
    (hph : s.specialPhase ≠ .charge) : marioSpecialChargeTick s = s := by
  simp only [marioSpecialChargeTick]
  rw [if_neg hph]

theorem marioSpecialFx_id (cfg : MarioCfg) (s : MarioState)
    (hph : s.specialPhase ≠ .charge) : marioSpecialFx cfg s = s := by
  simp only [marioSpecialFx]
  rw [if_neg (fun hc => hph hc.1)]

/-- The hitstun/linger section also leaves the charge tail-loop state
alone. -/
theorem marioHitstunTick_tail (s : MarioState) :
    (marioHitstunTick s).specialChargeTailLoop = s.specialChargeTailLoop ∧
    (marioHitstunTick s).specialChargeTailStart = s.specialChargeTailStart := by
  simp only [marioHitstunTick]
  repeat' split
  all_goals exact ⟨rfl, rfl⟩

/-- No fireball can spawn on a tick whose timer does not reach
`special_speed`. -/
theorem marioSpecialFired_low (s : MarioState)
    (ht : s.specialTimer + 1 < mSpecialSpeed) : marioSpecialFired s = false := by
  simp only [marioSpecialFired, decide_eq_false_iff_not]
  intro h
  exact absurd h.1 (by omega)

/-- The has-fired guard: once set, no further fireball spawns. -/
theorem marioSpecialFired_hasFired (s : MarioState)
    (hf : s.specialHasFired = true) : marioSpecialFired s = false := by
  simp only [marioSpecialFired, decide_eq_false_iff_not]
  intro h
  rw [hf] at h
  exact h.2.2 rfl

/-- On a release-phase animation-step tick the spawn decision is
exactly the negation of the has-fired flag. -/
theorem marioSpecialFired_eq (s : MarioState)
    (ht : s.specialTimer + 1 ≥ mSpecialSpeed) (hph : s.specialPhase = .release) :
    marioSpecialFired s = !s.specialHasFired := by
  cases hsf : s.specialHasFired
  · simp [marioSpecialFired, ht, hph, hsf]
  · simp [marioSpecialFired, hsf]

theorem marioAnim_fired_low (cfg : MarioCfg) (s : MarioState)
    (ht : s.specialTimer + 1 < mSpecialSpeed) : (marioAnim cfg s).2 = false := by
  simp only [marioAnim]
  repeat' split
  all_goals first | rfl | exact marioSpecialFired_low s ht

theorem marioAnim_fired_guard (cfg : MarioCfg) (s : MarioState)
    (hf : s.specialHasFired = true) : (marioAnim cfg s).2 = false := by
  simp only [marioAnim]
  repeat' split
  all_goals first | rfl | exact marioSpecialFired_hasFired s hf

theorem marioUpdate_fired_low (cfg : MarioCfg) (bx : ℚ) (s : MarioState)
    (ht : s.specialTimer + 1 < mSpecialSpeed) : (marioUpdate cfg bx s).2 = false := by
  unfold marioUpdate
  split
  · rfl
  · exact marioAnim_fired_low cfg _
      (by rw [(marioPhysics_combat cfg bx s).2.2.2.2.1]; exact ht)

theorem marioUpdate_fired_guard (cfg : MarioCfg) (bx : ℚ) (s : MarioState)
    (hf : s.specialHasFired = true) : (marioUpdate cfg bx s).2 = false := by
  unfold marioUpdate
  split
  · rfl
  · exact marioAnim_fired_guard cfg _
      (by rw [(marioPhysics_combat cfg bx s).2.2.2.2.2.1]; exact hf)

/-- One uninterrupted release tick of `Mario.update` below the
animation step: the timer counts up and nothing spawns. -/
theorem marioUpdate_release_tick (cfg : MarioCfg) (bx : ℚ) (s : MarioState) (k : ℕ)
    (hsp : s.isSpecial = true) (hph : s.specialPhase = .release)
    (ht : s.specialTimer = k)
    (hbl : s.isBlocking = false) (hat : s.isAttacking = false)
    (hhs : s.isInHitstun = false)
    (hfr : 0 < cfg.chargeLen ∨ 0 < cfg.releaseLen)
    (hk : k + 1 < mSpecialSpeed) :
    ((marioUpdate cfg bx s).1).isSpecial = true ∧
    ((marioUpdate cfg bx s).1).specialPhase = .release ∧
    ((marioUpdate cfg bx s).1).specialTimer = k + 1 ∧
    ((marioUpdate cfg bx s).1).specialIndex = s.specialIndex ∧
    ((marioUpdate cfg bx s).1).specialHasFired = s.specialHasFired ∧
    ((marioUpdate cfg bx s).1).isBlocking = false ∧
    ((marioUpdate cfg bx s).1).isAttacking = false ∧
    ((marioUpdate cfg bx s).1).isInHitstun = false := by
  unfold marioUpdate
  rw [hhs]
  simp only [Bool.false_eq_true, if_false]
  set p := marioPhysics cfg bx s with hp
  have hpc := marioPhysics_combat cfg bx s
  have hpi := marioPhysics_isInHitstun cfg bx s
  rw [marioAnim_special cfg p (by rw [hpc.2.2.2.2.2.2.1, hbl])
    (by rw [hpc.2.2.2.2.2.2.2.1, hat]) (by rw [hpc.1, hsp]) hfr]
  simp only
  rw [marioSpecialAnimStep_tick cfg p (by rw [hpc.2.2.2.2.1, ht]; exact hk)]
  set b : MarioState := { p with specialTimer := p.specialTimer + 1 } with hb
  have hbph : b.specialPhase = SpecialPhase.release := by
    show p.specialPhase = _
    rw [hpc.2.1, hph]
  rw [marioSpecialChargeTick_id b (by rw [hbph]; decide),
      marioSpecialFx_id cfg b (by rw [hbph]; decide)]
  have hht := marioHitstunTick_combat b
  refine ⟨?_, ?_, ?_, ?_, ?_, ?_, ?_, ?_⟩
  · rw [hht.1]
    show p.isSpecial = true
    rw [hpc.1, hsp]
  · rw [hht.2.1]
    exact hbph
  · rw [hht.2.2.2.2.1]
    show p.specialTimer + 1 = k + 1
    rw [hpc.2.2.2.2.1, ht]
  · rw [hht.2.2.2.1]
    show p.specialIndex = s.specialIndex
    rw [hpc.2.2.2.1]
  · rw [hht.2.2.2.2.2.1]
    show p.specialHasFired = s.specialHasFired
    rw [hpc.2.2.2.2.2.1]
  · rw [hht.2.2.2.2.2.2.1]
    show p.isBlocking = false
    rw [hpc.2.2.2.2.2.2.1, hbl]
  · rw [hht.2.2.2.2.2.2.2.1]
    show p.isAttacking = false
    rw [hpc.2.2.2.2.2.2.2.1, hat]
  · apply marioHitstunTick_isInHitstun_false
    show p.isInHitstun = false
    rw [hpi, hhs]

/-- The release-ending tick of `Mario.update`: `_end_special` clears
every special-related counter. -/
theorem marioUpdate_release_end (cfg : MarioCfg) (bx : ℚ) (s : MarioState)
    (hsp : s.isSpecial = true) (hph : s.specialPhase = .release)
    (ht : s.specialTimer + 1 ≥ mSpecialSpeed)
    (hi : s.specialIndex + 1 ≥ cfg.releaseLen)
    (hbl : s.isBlocking = false) (hat : s.isAttacking = false)
    (hhs : s.isInHitstun = false)
    (hfr : 0 < cfg.chargeLen ∨ 0 < cfg.releaseLen) :
    ((marioUpdate cfg bx s).1).isSpecial = false ∧
    ((marioUpdate cfg bx s).1).specialPhase = .idle ∧
    ((marioUpdate cfg bx s).1).specialIndex = 0 ∧
    ((marioUpdate cfg bx s).1).specialTimer = 0 ∧
    ((marioUpdate cfg bx s).1).specialHasFired = false ∧
    ((marioUpdate cfg bx s).1).specialChargeTimer = 0 ∧
    ((marioUpdate cfg bx s).1).specialChargeTailLoop = false ∧
    ((marioUpdate cfg bx s).1).specialChargeTailStart = 0 := by
  unfold marioUpdate
  rw [hhs]
  simp only [Bool.false_eq_true, if_false]
  set p := marioPhysics cfg bx s with hp
  have hpc := marioPhysics_combat cfg bx s
  rw [marioAnim_special cfg p (by rw [hpc.2.2.2.2.2.2.1, hbl])
    (by rw [hpc.2.2.2.2.2.2.2.1, hat]) (by rw [hpc.1, hsp]) hfr]
  simp only
  rw [marioSpecialAnimStep_release_end cfg p (by rw [hpc.2.1, hph])
    (by rw [hpc.2.2.2.2.1]; exact ht) (by rw [hpc.2.2.2.1]; exact hi)]
  set b : MarioState := marioEndSpecial p with hb
  have hbph : b.specialPhase = SpecialPhase.idle := rfl
  rw [marioSpecialChargeTick_id b (by rw [hbph]; decide),
      marioSpecialFx_id cfg b (by rw [hbph]; decide)]
  have hht := marioHitstunTick_combat b
  have htail := marioHitstunTick_tail b
  exact ⟨hht.1, hht.2.1, hht.2.2.2.1, hht.2.2.2.2.1, hht.2.2.2.2.2.1, hht.2.2.1,
    htail.1, htail.2⟩

/-- On an animation-step release tick, `Mario.update` reports a spawn
exactly when the has-fired flag was still clear. -/
theorem marioUpdate_fired_eq (cfg : MarioCfg) (bx : ℚ) (s : MarioState)
    (hsp : s.isSpecial = true) (hph : s.specialPhase = .release)
    (ht : s.specialTimer + 1 ≥ mSpecialSpeed)
    (hbl : s.isBlocking = false) (hat : s.isAttacking = false)
    (hhs : s.isInHitstun = false)
    (hfr : 0 < cfg.chargeLen ∨ 0 < cfg.releaseLen) :
    (marioUpdate cfg bx s).2 = !s.specialHasFired := by
  unfold marioUpdate
  rw [hhs]
  simp only [Bool.false_eq_true, if_false]
  set p := marioPhysics cfg bx s with hp
  have hpc := marioPhysics_combat cfg bx s
  rw [marioAnim_special cfg p (by rw [hpc.2.2.2.2.2.2.1, hbl])
    (by rw [hpc.2.2.2.2.2.2.2.1, hat]) (by rw [hpc.1, hsp]) hfr]
  show marioSpecialFired p = !s.specialHasFired
  rw [marioSpecialFired_eq p (by rw [hpc.2.2.2.2.1]; exact ht) (by rw [hpc.2.1, hph]),
      hpc.2.2.2.2.2.1]

/-- Closed-form invariant of the first ticks of the release phase: the
timer counts up and neither the frame index nor the has-fired flag
moves before the first animation-step tick. -/
theorem mario_release_run (cfg : MarioCfg) (bx : ℚ) (s : MarioState)
    (hsp : s.isSpecial = true) (hph : s.specialPhase = .release)
    (ht : s.specialTimer = 0)
    (hbl : s.isBlocking = false) (hat : s.isAttacking = false)
    (hhs : s.isInHitstun = false)
    (hfr : 0 < cfg.chargeLen ∨ 0 < cfg.releaseLen) :
    ∀ k, k ≤ mSpecialSpeed - 1 →
      ((fun z => (marioUpdate cfg bx z).1)^[k] s).isSpecial = true ∧
      ((fun z => (marioUpdate cfg bx z).1)^[k] s).specialPhase = .release ∧
      ((fun z => (marioUpdate cfg bx z).1)^[k] s).specialTimer = k ∧
      ((fun z => (marioUpdate cfg bx z).1)^[k] s).specialIndex = s.specialIndex ∧
      ((fun z => (marioUpdate cfg bx z).1)^[k] s).specialHasFired = s.specialHasFired ∧
      ((fun z => (marioUpdate cfg bx z).1)^[k] s).isBlocking = false ∧
      ((fun z => (marioUpdate cfg bx z).1)^[k] s).isAttacking = false ∧
      ((fun z => (marioUpdate cfg bx z).1)^[k] s).isInHitstun = false := by
  intro k
  induction k with
  | zero => exact fun _ => ⟨hsp, hph, ht, rfl, rfl, hbl, hat, hhs⟩
  | succ n ih =>
      intro hn
      have h := ih (by omega)
      rw [Function.iterate_succ_apply']
      have t := marioUpdate_release_tick cfg bx _ n h.1 h.2.1 h.2.2.1 h.2.2.2.2.2.1
        h.2.2.2.2.2.2.1 h.2.2.2.2.2.2.2 hfr
        (by unfold mSpecialSpeed at *; omega)
      exact ⟨t.1, t.2.1, t.2.2.1, t.2.2.2.1.trans h.2.2.2.1,
        t.2.2.2.2.1.trans h.2.2.2.2.1, t.2.2.2.2.2.1, t.2.2.2.2.2.2.1, t.2.2.2.2.2.2.2⟩

/-- C6 (corrected).  A special that enters its release phase spawns no
fireball on the phase's first tick (or any tick before the timer first
reaches `special_speed`); the single fireball spawns on the phase's
first animation-step tick (tick `special_speed` of the phase), the
has-fired guard then suppresses every further spawn for the rest of the
use, and the step that exhausts the release frames runs `_end_special`,
clearing every special-related counter and flag. -/
theorem C6_theorem (cfg : MarioCfg) (bx : ℚ) (s : MarioState)
    (hsp : s.isSpecial = true) (hph : s.specialPhase = .release)
    (ht : s.specialTimer = 0) (hfd : s.specialHasFired = false)
    (hbl : s.isBlocking = false) (hat : s.isAttacking = false)
    (hhs : s.isInHitstun = false)
    (hfr : 0 < cfg.chargeLen ∨ 0 < cfg.releaseLen) :
    (∀ k, k + 1 < mSpecialSpeed →
        (marioUpdate cfg bx ((fun z => (marioUpdate cfg bx z).1)^[k] s)).2 = false) ∧
    (marioUpdate cfg bx
        ((fun z => (marioUpdate cfg bx z).1)^[mSpecialSpeed - 1] s)).2 = true ∧
    (∀ u : MarioState, u.specialHasFired = true → (marioUpdate cfg bx u).2 = false) ∧
    (∀ u : MarioState, u.isSpecial = true → u.specialPhase = .release →
        u.specialTimer + 1 ≥ mSpecialSpeed → u.specialIndex + 1 ≥ cfg.releaseLen →
        u.isBlocking = false → u.isAttacking = false → u.isInHitstun = false →
        ((marioUpdate cfg bx u).1).isSpecial = false ∧
        ((marioUpdate cfg bx u).1).specialPhase = .idle ∧
        ((marioUpdate cfg bx u).1).specialIndex = 0 ∧
        ((marioUpdate cfg bx u).1).specialTimer = 0 ∧
        ((marioUpdate cfg bx u).1).specialHasFired = false ∧
        ((marioUpdate cfg bx u).1).specialChargeTimer = 0 ∧
        ((marioUpdate cfg bx u).1).specialChargeTailLoop = false ∧
        ((marioUpdate cfg bx u).1).specialChargeTailStart = 0) := by
  have hrun := mario_release_run cfg bx s hsp hph ht hbl hat hhs hfr
  refine ⟨?_, ?_, fun u hf => marioUpdate_fired_guard cfg bx u hf, ?_⟩
  · intro k hk
    exact marioUpdate_fired_low cfg bx _ (by rw [(hrun k (by omega)).2.2.1]; exact hk)
  · have h4 := hrun (mSpecialSpeed - 1) (le_refl _)
    rw [marioUpdate_fired_eq cfg bx _ h4.1 h4.2.1
      (by rw [h4.2.2.1]; unfold mSpecialSpeed; omega)
      h4.2.2.2.2.2.1 h4.2.2.2.2.2.2.1 h4.2.2.2.2.2.2.2 hfr]
    rw [h4.2.2.2.2.1, hfd]
    decide
  · intro u h1 h2 h3 h4 h5 h6 h7
    exact marioUpdate_release_end cfg bx u h1 h2 h3 h4 h5 h6 h7 hfr

/-- The first tick of the release phase spawns nothing, though the
special is active and stays in the release phase — refuting "exactly
one fireball is spawned at the first tick of that phase". -/
theorem C6_counterexample :
    (marioUpdate sampleCfg.m 850
        ({ initMario sampleCfg.m with isSpecial := true, specialPhase := SpecialPhase.release
        })).2 = false ∧
    ((marioUpdate sampleCfg.m 850
        ({ initMario sampleCfg.m with isSpecial := true, specialPhase := SpecialPhase.release
        })).1).isSpecial = true ∧
    ((marioUpdate sampleCfg.m 850
        ({ initMario sampleCfg.m with isSpecial := true, specialPhase := SpecialPhase.release
        })).1).specialPhase = SpecialPhase.release := by
  decide

/-- Concrete instantiation of the spawn-timing theorem: the single
fireball of a release started from rest spawns on the phase's 5th
tick. -/
theorem C6_theorem_witness :
    (marioUpdate sampleCfg.m 850
        ((fun z => (marioUpdate sampleCfg.m 850 z).1)^[mSpecialSpeed - 1]
          ({ initMario sampleCfg.m with isSpecial := true, specialPhase := SpecialPhase.release
          }))).2 = true := by
  have h := C6_theorem sampleCfg.m 850
    { initMario sampleCfg.m with isSpecial := true, specialPhase := SpecialPhase.release }
    (by decide) (by decide) (by decide) (by decide) (by decide) (by decide) (by decide)
    (by decide)
  exact h.2.1

/-! ## Hit-once-per-attack (Claim C8) -/

theorem marioSwingLive_le (m' m : MarioState)
    (h : m'.isAttacking = true ∧ m'.attackHasHit = false →
         m.isAttacking = true ∧ m.attackHasHit = false) :
    marioSwingLive m' ≤ marioSwingLive m := by
  by_cases hc : m'.isAttacking = true ∧ m'.attackHasHit = false
  · simp [marioSwingLive, hc, h hc]
  · simp [marioSwingLive, hc]

theorem bowserSwingLive_le (b' b : BowserState)
    (h : b'.isAttacking = true ∧ b'.attackHasHit = false →
         b.isAttacking = true ∧ b.attackHasHit = false) :
    bowserSwingLive b' ≤ bowserSwingLive b := by
  by_cases hc : b'.isAttacking = true ∧ b'.attackHasHit = false
  · simp [bowserSwingLive, hc, h hc]
  · simp [bowserSwingLive, hc]

theorem marioSwingLive_congr (m m' : MarioState)
    (h1 : m.isAttacking = m'.isAttacking) (h2 : m.attackHasHit = m'.attackHasHit) :
    marioSwingLive m = marioSwingLive m' := by
  unfold marioSwingLive
  rw [h1, h2]

theorem bowserSwingLive_congr (b b' : BowserState)
    (h1 : b.isAttacking = b'.isAttacking) (h2 : b.attackHasHit = b'.attackHasHit) :
    bowserSwingLive b = bowserSwingLive b' := by
  unfold bowserSwingLive
  rw [h1, h2]

theorem marioSwingLive_le_one (m : MarioState) : marioSwingLive m ≤ 1 := by
  unfold marioSwingLive
  split <;> omega

theorem bowserSwingLive_le_one (b : BowserState) : bowserSwingLive b ≤ 1 := by
  unfold bowserSwingLive
  split <;> omega

theorem marioPhysics_hasHit (cfg : MarioCfg) (bx : ℚ) (s : MarioState) :
    (marioPhysics cfg bx s).attackHasHit = s.attackHasHit := by
  simp only [marioPhysics]
  repeat' split
  all_goals rfl

theorem marioHitstunTick_hasHit (s : MarioState) :
    (marioHitstunTick s).attackHasHit = s.attackHasHit := by
  simp only [marioHitstunTick]
  repeat' split
  all_goals rfl

theorem marioBlockAnim_attack (cfg : MarioCfg) (s : MarioState) :
    (marioBlockAnim cfg s).isAttacking = s.isAttacking ∧
    (marioBlockAnim cfg s).attackHasHit = s.attackHasHit := by
  simp only [marioBlockAnim]
  repeat' split
  all_goals exact ⟨rfl, rfl⟩

/-- The attack animation either keeps the swing's flags or ends the
attack; it never revives a consumed guard. -/
theorem marioAttackAnim_guard (cfg : MarioCfg) (s : MarioState)
    (h : (marioAttackAnim cfg s).isAttacking = true ∧
         (marioAttackAnim cfg s).attackHasHit = false) :
    s.isAttacking = true ∧ s.attackHasHit = false := by
  simp only [marioAttackAnim] at h
  repeat' split at h
  all_goals simp_all

theorem marioSpecialAnimStep_attack (cfg : MarioCfg) (s : MarioState) :
    (marioSpecialAnimStep cfg s).isAttacking = s.isAttacking ∧
    (marioSpecialAnimStep cfg s).attackHasHit = s.attackHasHit := by
  simp only [marioSpecialAnimStep, marioEndSpecial]
  repeat' split
  all_goals exact ⟨rfl, rfl⟩

theorem marioSpecialChargeTick_attack (s : MarioState) :
    (marioSpecialChargeTick s).isAttacking = s.isAttacking ∧
    (marioSpecialChargeTick s).attackHasHit = s.attackHasHit := by
  simp only [marioSpecialChargeTick]
  repeat' split
  all_goals exact ⟨rfl, rfl⟩

theorem marioSpecialFx_attack (cfg : MarioCfg) (s : MarioState) :
    (marioSpecialFx cfg s).isAttacking = s.isAttacking ∧
    (marioSpecialFx cfg s).attackHasHit = s.attackHasHit := by
  simp only [marioSpecialFx]
  repeat' split
  all_goals exact ⟨rfl, rfl⟩

theorem marioStandAnim_attack (s : MarioState) :
    (marioStandAnim s).isAttacking = s.isAttacking ∧
    (marioStandAnim s).attackHasHit = s.attackHasHit := by
  simp only [marioStandAnim]
  repeat' split
  all_goals exact ⟨rfl, rfl⟩

/-- Inside one `Mario.update` animation pass, a live (not-yet-landed)
swing after the pass implies a live swing before: nothing but the Z key
can clear the has-hit guard while keeping the attack active. -/
theorem marioAnim_guard (cfg : MarioCfg) (s : MarioState)
    (h : ((marioAnim cfg s).1).isAttacking = true ∧
         ((marioAnim cfg s).1).attackHasHit = false) :
    s.isAttacking = true ∧ s.attackHasHit = false := by
  simp only [marioAnim] at h
  repeat' split at h
  · have e := marioBlockAnim_attack cfg s
    exact ⟨e.1.symm.trans h.1, e.2.symm.trans h.2⟩
  · exact marioAttackAnim_guard cfg s ⟨h.1, h.2⟩
  · have e1 := marioSpecialFx_attack cfg (marioSpecialChargeTick (marioSpecialAnimStep cfg s))
    have e2 := marioSpecialChargeTick_attack (marioSpecialAnimStep cfg s)
    have e3 := marioSpecialAnimStep_attack cfg s
    constructor
    · rw [← e3.1, ← e2.1, ← e1.1]
      exact h.1
    · rw [← e3.2, ← e2.2, ← e1.2]
      exact h.2
  · have e := marioStandAnim_attack s
    exact ⟨e.1.symm.trans h.1, e.2.symm.trans h.2⟩

theorem marioUpdate_guard (cfg : MarioCfg) (bx : ℚ) (s : MarioState)
    (h : ((marioUpdate cfg bx s).1).isAttacking = true ∧
         ((marioUpdate cfg bx s).1).attackHasHit = false) :
    s.isAttacking = true ∧ s.attackHasHit = false := by
  simp only [marioUpdate] at h
  split at h
  · exact h
  · have h1 : ((marioAnim cfg (marioPhysics cfg bx s)).1).isAttacking = true ∧
        ((marioAnim cfg (marioPhysics cfg bx s)).1).attackHasHit = false := by
      constructor
      · rw [← (marioHitstunTick_combat (marioAnim cfg (marioPhysics cfg bx s)).1).2.2.2.2.2.2.2.1]
        exact h.1
      · rw [← marioHitstunTick_hasHit]
        exact h.2
    have h2 := marioAnim_guard cfg _ h1
    exact ⟨((marioPhysics_combat cfg bx s).2.2.2.2.2.2.2.1).symm.trans h2.1,
      (marioPhysics_hasHit cfg bx s).symm.trans h2.2⟩

theorem bowserPhysics_hasHit (cfg : BowserCfg) (mx : ℚ) (s : BowserState) :
    (bowserPhysics cfg mx s).attackHasHit = s.attackHasHit := by
  simp only [bowserPhysics]
  repeat' split
  all_goals rfl

theorem bowserHitstunTick_attack (s : BowserState) :
    (bowserHitstunTick s).isAttacking = s.isAttacking ∧
    (bowserHitstunTick s).attackHasHit = s.attackHasHit := by
  simp only [bowserHitstunTick]
  repeat' split
  all_goals exact ⟨rfl, rfl⟩

theorem bowserSafetyReset_attack (cfg : BowserCfg) (s : BowserState) :
    (bowserSafetyReset cfg s).isAttacking = s.isAttacking ∧
    (bowserSafetyReset cfg s).attackHasHit = s.attackHasHit := by
  simp only [bowserSafetyReset]
  repeat' split
  all_goals exact ⟨rfl, rfl⟩

theorem bowserBlockAnim_attack (cfg : BowserCfg) (s : BowserState) :
    (bowserBlockAnim cfg s).isAttacking = s.isAttacking ∧
    (bowserBlockAnim cfg s).attackHasHit = s.attackHasHit := by
  simp only [bowserBlockAnim]
  repeat' split
  all_goals exact ⟨rfl, rfl⟩

theorem bowserHitAnim_attack (cfg : BowserCfg) (s : BowserState) :
    (bowserHitAnim cfg s).isAttacking = s.isAttacking ∧
    (bowserHitAnim cfg s).attackHasHit = s.attackHasHit := by
  simp only [bowserHitAnim]
  repeat' split
  all_goals exact ⟨rfl, rfl⟩

theorem bowserChargingAnim_attack (cfg : BowserCfg) (s : BowserState) :
    (bowserChargingAnim cfg s).isAttacking = s.isAttacking ∧
    (bowserChargingAnim cfg s).attackHasHit = s.attackHasHit := by
  simp only [bowserChargingAnim]
  repeat' split
  all_goals exact ⟨rfl, rfl⟩

theorem bowserChargingTimer_attack (s : BowserState) :
    (bowserChargingTimer s).isAttacking = s.isAttacking ∧
    (bowserChargingTimer s).attackHasHit = s.attackHasHit := by
  simp only [bowserChargingTimer]
  repeat' split
  all_goals exact ⟨rfl, rfl⟩

/-- The flameblast machine never revives a consumed swing
(`_end_flameblast` kills it). -/
theorem bowserFlameblastAnim_guard (cfg : BowserCfg) (s : BowserState)
    (h : (bowserFlameblastAnim cfg s).isAttacking = true ∧
         (bowserFlameblastAnim cfg s).attackHasHit = false) :
    s.isAttacking = true ∧ s.attackHasHit = false := by
  simp only [bowserFlameblastAnim, bowserEndFlameblast] at h
  repeat' split at h
  all_goals simp_all

theorem bowserPunchAnim_guard (cfg : BowserCfg) (s : BowserState)
    (h : (bowserPunchAnim cfg s).isAttacking = true ∧
         (bowserPunchAnim cfg s).attackHasHit = false) :
    s.isAttacking = true ∧ s.attackHasHit = false := by
  simp only [bowserPunchAnim] at h
  repeat' split at h
  all_goals simp_all

theorem bowserStandAnim_attack (s : BowserState) :
    (bowserStandAnim s).isAttacking = s.isAttacking ∧
    (bowserStandAnim s).attackHasHit = s.attackHasHit := by
  simp only [bowserStandAnim]
  repeat' split
  all_goals exact ⟨rfl, rfl⟩

/-- Inside one `Bowser.update` animation pass, a live swing after the
pass implies a live swing before (`_end_flameblast` can only kill the
swing, never revive the guard). -/
theorem bowserAnim_guard (cfg : BowserCfg) (sk : Bool) (s : BowserState)
    (h : (bowserAnim cfg sk s).isAttacking = true ∧
         (bowserAnim cfg sk s).attackHasHit = false) :
    s.isAttacking = true ∧ s.attackHasHit = false := by
  simp only [bowserAnim] at h
  repeat' split at h
  · have e := bowserBlockAnim_attack cfg s
    exact ⟨e.1.symm.trans h.1, e.2.symm.trans h.2⟩
  · have e := bowserHitAnim_attack cfg s
    exact ⟨e.1.symm.trans h.1, e.2.symm.trans h.2⟩
  · have e1 := bowserChargingTimer_attack (bowserChargingAnim cfg s)
    have e2 := bowserChargingAnim_attack cfg s
    constructor
    · rw [← e2.1, ← e1.1]
      exact h.1
    · rw [← e2.2, ← e1.2]
      exact h.2
  · exact bowserFlameblastAnim_guard cfg s ⟨h.1, h.2⟩
  · exact bowserPunchAnim_guard cfg s ⟨h.1, h.2⟩
  · have e := bowserStandAnim_attack s
    exact ⟨e.1.symm.trans h.1, e.2.symm.trans h.2⟩

theorem bowserUpdate_guard (cfg : BowserCfg) (mx : ℚ) (s : BowserState)
    (h : (bowserUpdate cfg mx s).isAttacking = true ∧
         (bowserUpdate cfg mx s).attackHasHit = false) :
    s.isAttacking = true ∧ s.attackHasHit = false := by
  simp only [bowserUpdate] at h
  have hht := bowserHitstunTick_attack
    (bowserSafetyReset cfg (bowserWalkAnim (bowserAnim cfg s.isInHitstun (bowserPhysics cfg mx s))))
  have hsr := bowserSafetyReset_attack cfg
    (bowserWalkAnim (bowserAnim cfg s.isInHitstun (bowserPhysics cfg mx s)))
  have hwk := bowserWalkAnim_combat (bowserAnim cfg s.isInHitstun (bowserPhysics cfg mx s))
  have h2 : (bowserAnim cfg s.isInHitstun (bowserPhysics cfg mx s)).isAttacking = true ∧
      (bowserAnim cfg s.isInHitstun (bowserPhysics cfg mx s)).attackHasHit = false := by
    constructor
    · rw [← hwk.2.2.2.2.2.2.2.2.2.2.2.1, ← hsr.1, ← hht.1]
      exact h.1
    · rw [← hwk.2.2.2.2.2.2.2.2.2.2.2.2.1, ← hsr.2, ← hht.2]
      exact h.2
  have h3 := bowserAnim_guard cfg _ _ h2
  exact ⟨((bowserPhysics_combat cfg mx s).2.2.2.2.2.2.2.2.1).symm.trans h3.1,
    (bowserPhysics_hasHit cfg mx s).symm.trans h3.2⟩

/-- The hammer resolution: a landed hit consumes the live swing (the
guard is set), and a non-hit leaves the state untouched. -/
theorem resolveHammerC_measure (cfg : Cfg) (ov : Bool) (s : FightState) :
    (if (resolveHammerC cfg ov s).2 = true then 1 else 0)
      + marioSwingLive ((resolveHammerC cfg ov s).1).mario ≤ marioSwingLive s.mario := by
  simp only [resolveHammerC, marioSwingLive]
  repeat' split
  all_goals simp_all

theorem resolvePunchC_measure (cfg : Cfg) (ov : Bool) (s : FightState) :
    (if (resolvePunchC cfg ov s).2 = true then 1 else 0)
      + bowserSwingLive ((resolvePunchC cfg ov s).1).bowser ≤ bowserSwingLive s.bowser := by
  simp only [resolvePunchC, bowserSwingLive]
  repeat' split
  all_goals simp_all

theorem resolvePunchC_marioAttack (cfg : Cfg) (ov : Bool) (s : FightState) :
    (((resolvePunchC cfg ov s).1).mario).isAttacking = s.mario.isAttacking ∧
    (((resolvePunchC cfg ov s).1).mario).attackHasHit = s.mario.attackHasHit := by
  simp only [resolvePunchC, marioStartHitstunAnim, marioEndSpecial]
  repeat' split
  all_goals exact ⟨rfl, rfl⟩

theorem resolveHammerC_bowserGuard (cfg : Cfg) (ov : Bool) (s : FightState)
    (h : (((resolveHammerC cfg ov s).1).bowser).isAttacking = true ∧
         (((resolveHammerC cfg ov s).1).bowser).attackHasHit = false) :
    s.bowser.isAttacking = true ∧ s.bowser.attackHasHit = false := by
  simp only [resolveHammerC, bowserStartHitstunAnim, bowserEndFlameblast] at h
  repeat' split at h
  all_goals simp_all

theorem resolveFlame_marioAttack (cfg : Cfg) (ov : Bool) (s : FightState) :
    ((resolveFlame cfg ov s).mario).isAttacking = s.mario.isAttacking ∧
    ((resolveFlame cfg ov s).mario).attackHasHit = s.mario.attackHasHit := by
  simp only [resolveFlame, marioStartHitstunAnim]
  repeat' split
  all_goals exact ⟨rfl, rfl⟩

theorem resolveFlame_bowserEq (cfg : Cfg) (ov : Bool) (s : FightState) :
    (resolveFlame cfg ov s).bowser = s.bowser := by
  simp only [resolveFlame]
  repeat' split
  all_goals rfl

theorem resolveFireballsBowser_mario (cfg : Cfg) (hit : ℕ → Bool) (s : FightState) :
    (resolveFireballsBowser cfg hit s).mario = s.mario := by
  simp only [resolveFireballsBowser]
  repeat' split
  all_goals rfl

theorem resolveFireballsBowser_attack (cfg : Cfg) (hit : ℕ → Bool) (s : FightState) :
    ((resolveFireballsBowser cfg hit s).bowser).isAttacking = s.bowser.isAttacking ∧
    ((resolveFireballsBowser cfg hit s).bowser).attackHasHit = s.bowser.attackHasHit := by
  simp only [resolveFireballsBowser, bowserStartHitstunAnim]
  repeat' split
  all_goals exact ⟨rfl, rfl⟩

theorem resolveFireballsFlame_mario (cfg : Cfg) (hit : ℕ → Bool) (s : FightState) :
    (resolveFireballsFlame cfg hit s).mario = s.mario := by
  simp only [resolveFireballsFlame]
  repeat' split
  all_goals rfl

theorem resolveFireballsFlame_bowserGuard (cfg : Cfg) (hit : ℕ → Bool) (s : FightState)
    (h : ((resolveFireballsFlame cfg hit s).bowser).isAttacking = true ∧
         ((resolveFireballsFlame cfg hit s).bowser).attackHasHit = false) :
    s.bowser.isAttacking = true ∧ s.bowser.attackHasHit = false := by
  simp only [resolveFireballsFlame, bowserEndFlameblast] at h
  repeat' split at h
  all_goals simp_all

/-- Hammer measure across the tick's full resolver chain. -/
theorem resolveChain_hammer_measure (cfg : Cfg) (o : TickOracle) (s1 : FightState) :
    (if (resolveHammerC cfg o.hammer s1).2 = true then 1 else 0)
      + marioSwingLive ((resolveFireballsFlame cfg o.fbFlame
          (resolveFireballsBowser cfg o.fbBowser
            (resolveFlame cfg o.flame
              (resolvePunchC cfg o.punch (resolveHammerC cfg o.hammer s1).1).1))).mario)
      ≤ marioSwingLive s1.mario := by
  rw [resolveFireballsFlame_mario, resolveFireballsBowser_mario]
  have hfl := resolveFlame_marioAttack cfg o.flame
    (resolvePunchC cfg o.punch (resolveHammerC cfg o.hammer s1).1).1
  rw [marioSwingLive_congr _ _ hfl.1 hfl.2]
  have hpu := resolvePunchC_marioAttack cfg o.punch (resolveHammerC cfg o.hammer s1).1
  rw [marioSwingLive_congr _ _ hpu.1 hpu.2]
  exact resolveHammerC_measure cfg o.hammer s1

/-- Punch measure across the tick's full resolver chain. -/
theorem resolveChain_punch_measure (cfg : Cfg) (o : TickOracle) (s1 : FightState) :
    (if (resolvePunchC cfg o.punch (resolveHammerC cfg o.hammer s1).1).2 = true
       then 1 else 0)
      + bowserSwingLive ((resolveFireballsFlame cfg o.fbFlame
          (resolveFireballsBowser cfg o.fbBowser
            (resolveFlame cfg o.flame
              (resolvePunchC cfg o.punch (resolveHammerC cfg o.hammer s1).1).1))).bowser)
      ≤ bowserSwingLive s1.bowser := by
  refine le_trans (Nat.add_le_add_left
    (bowserSwingLive_le _ _ (resolveFireballsFlame_bowserGuard cfg o.fbFlame _)) _) ?_
  have hfbB := resolveFireballsBowser_attack cfg o.fbBowser
    (resolveFlame cfg o.flame (resolvePunchC cfg o.punch (resolveHammerC cfg o.hammer s1).1).1)
  rw [bowserSwingLive_congr _ _ hfbB.1 hfbB.2, resolveFlame_bowserEq]
  refine le_trans (resolvePunchC_measure cfg o.punch _) ?_
  exact bowserSwingLive_le _ _ (resolveHammerC_bowserGuard cfg o.hammer s1)

theorem gameTick_hammer_measure (cfg : Cfg) (o : TickOracle) (s : FightState) :
    (if (gameTickC cfg o s).2.1 = true then 1 else 0)
      + marioSwingLive ((gameTickC cfg o s).1).mario ≤ marioSwingLive s.mario := by
  refine le_trans ?_ (marioSwingLive_le _ _ (marioUpdate_guard cfg.m s.bowser.x s.mario))
  exact resolveChain_hammer_measure cfg o _

theorem gameTick_punch_measure (cfg : Cfg) (o : TickOracle) (s : FightState) :
    (if (gameTickC cfg o s).2.2 = true then 1 else 0)
      + bowserSwingLive ((gameTickC cfg o s).1).bowser ≤ bowserSwingLive s.bowser := by
  refine le_trans ?_ (bowserSwingLive_le _ _
    (bowserUpdate_guard cfg.b (marioUpdate cfg.m s.bowser.x s.mario).1.x s.bowser))
  exact resolveChain_punch_measure cfg o _

/-- No key handler except Z touches Mario's attack flag or guard. -/
theorem onKeyDown_marioAttack (s : FightState) (e : GEvent) (he : e ≠ .kdZ) :
    ((onKeyDown s e).mario).isAttacking = s.mario.isAttacking ∧
    ((onKeyDown s e).mario).attackHasHit = s.mario.attackHasHit := by
  cases e
  case kdZ => exact absurd rfl he
  all_goals simp only [onKeyDown]
  all_goals repeat' split
  all_goals exact ⟨rfl, rfl⟩

/-- No key handler except Slash can revive Bowser's swing (the
flameblast cancel may only kill it). -/
theorem onKeyDown_bowserGuard (s : FightState) (e : GEvent) (he : e ≠ .kdSlash)
    (h : ((onKeyDown s e).bowser).isAttacking = true ∧
         ((onKeyDown s e).bowser).attackHasHit = false) :
    s.bowser.isAttacking = true ∧ s.bowser.attackHasHit = false := by
  cases e
  case kdSlash => exact absurd rfl he
  all_goals simp only [onKeyDown, bowserEndFlameblast] at h
  all_goals repeat' split at h
  all_goals simp_all

theorem onKeyUp_marioAttack (s : FightState) (e : GEvent) :
    ((onKeyUp s e).mario).isAttacking = s.mario.isAttacking ∧
    ((onKeyUp s e).mario).attackHasHit = s.mario.attackHasHit := by
  cases e
  all_goals simp only [onKeyUp, bowserEndFlameblast]
  all_goals repeat' split
  all_goals exact ⟨rfl, rfl⟩

/-- Key releases never revive Bowser's swing (the Period release's
stream cancel may only kill it). -/
theorem onKeyUp_bowserGuard (s : FightState) (e : GEvent)
    (h : ((onKeyUp s e).bowser).isAttacking = true ∧
         ((onKeyUp s e).bowser).attackHasHit = false) :
    s.bowser.isAttacking = true ∧ s.bowser.attackHasHit = false := by
  cases e
  all_goals simp only [onKeyUp, bowserEndFlameblast] at h
  all_goals repeat' split at h
  all_goals simp_all

theorem sysStep_hammer_measure (cfg : Cfg) (s : FightState) (e : GEvent)
    (he : e ≠ GEvent.kdZ) :
    hammerHits cfg s e + marioSwingLive ((sysStep cfg s e).mario)
      ≤ marioSwingLive s.mario := by
  cases e
  case tick o => exact gameTick_hammer_measure cfg o s
  case kdZ => exact absurd rfl he
  all_goals simp only [hammerHits, sysStep, Nat.zero_add]
  case kuA => exact le_of_eq (marioSwingLive_congr _ _ (onKeyUp_marioAttack s _).1 (onKeyUp_marioAttack s _).2)
  case kuD => exact le_of_eq (marioSwingLive_congr _ _ (onKeyUp_marioAttack s _).1 (onKeyUp_marioAttack s _).2)
  case kuC => exact le_of_eq (marioSwingLive_congr _ _ (onKeyUp_marioAttack s _).1 (onKeyUp_marioAttack s _).2)
  case kuLeft => exact le_of_eq (marioSwingLive_congr _ _ (onKeyUp_marioAttack s _).1 (onKeyUp_marioAttack s _).2)
  case kuRight => exact le_of_eq (marioSwingLive_congr _ _ (onKeyUp_marioAttack s _).1 (onKeyUp_marioAttack s _).2)
  case kuComma => exact le_of_eq (marioSwingLive_congr _ _ (onKeyUp_marioAttack s _).1 (onKeyUp_marioAttack s _).2)
  case kuPeriod => exact le_of_eq (marioSwingLive_congr _ _ (onKeyUp_marioAttack s _).1 (onKeyUp_marioAttack s _).2)
  all_goals exact le_of_eq (marioSwingLive_congr _ _
    (onKeyDown_marioAttack s _ he).1 (onKeyDown_marioAttack s _ he).2)

theorem sysStep_punch_measure (cfg : Cfg) (s : FightState) (e : GEvent)
    (he : e ≠ GEvent.kdSlash) :
    punchHits cfg s e + bowserSwingLive ((sysStep cfg s e).bowser)
      ≤ bowserSwingLive s.bowser := by
  cases e
  case tick o => exact gameTick_punch_measure cfg o s
  case kdSlash => exact absurd rfl he
  all_goals simp only [punchHits, sysStep, Nat.zero_add]
  case kuA => exact bowserSwingLive_le _ _ (onKeyUp_bowserGuard s _)
  case kuD => exact bowserSwingLive_le _ _ (onKeyUp_bowserGuard s _)
  case kuC => exact bowserSwingLive_le _ _ (onKeyUp_bowserGuard s _)
  case kuLeft => exact bowserSwingLive_le _ _ (onKeyUp_bowserGuard s _)
  case kuRight => exact bowserSwingLive_le _ _ (onKeyUp_bowserGuard s _)
  case kuComma => exact bowserSwingLive_le _ _ (onKeyUp_bowserGuard s _)
  case kuPeriod => exact bowserSwingLive_le _ _ (onKeyUp_bowserGuard s _)
  all_goals exact bowserSwingLive_le _ _ (onKeyDown_bowserGuard s _ he)

theorem totalHammer_measure (cfg : Cfg) (s : FightState) (evs : List GEvent)
    (hz : ∀ e ∈ evs, e ≠ GEvent.kdZ) :
    totalHammerHits cfg s evs + marioSwingLive ((sysRun cfg s evs).mario)
      ≤ marioSwingLive s.mario := by
  induction evs generalizing s with
  | nil =>
      simp only [totalHammerHits, sysRun, List.foldl, Nat.zero_add]
      exact le_refl _
  | cons e es ih =>
      have h1 := sysStep_hammer_measure cfg s e (hz e (by simp))
      have h2 := ih (sysStep cfg s e) (fun x hx => hz x (by simp [hx]))
      simp only [totalHammerHits, sysRun, List.foldl] at *
      omega

theorem totalPunch_measure (cfg : Cfg) (s : FightState) (evs : List GEvent)
    (hz : ∀ e ∈ evs, e ≠ GEvent.kdSlash) :
    totalPunchHits cfg s evs + bowserSwingLive ((sysRun cfg s evs).bowser)
      ≤ bowserSwingLive s.bowser := by
  induction evs generalizing s with
  | nil =>
      simp only [totalPunchHits, sysRun, List.foldl, Nat.zero_add]
      exact le_refl _
  | cons e es ih =>
      have h1 := sysStep_punch_measure cfg s e (hz e (by simp))
      have h2 := ih (sysStep cfg s e) (fun x hx => hz x (by simp [hx]))
      simp only [totalPunchHits, sysRun, List.foldl] at *
      omega

/-- C8.  Hit-once-per-attack: along any event trace with no Z press
(no hammer restart), the total number of hammer damage applications
plus the surviving live-swing budget is bounded by the initial budget,
which is at most 1 — so at most one hammer hit lands per activation;
symmetrically for Bowser's punch with no Slash press.  A Z (resp.
Slash) press restarts the attack phase with the has-hit guard cleared. -/
theorem C8_theorem (cfg : Cfg) (s : FightState) (evs : List GEvent) :
    ((∀ e ∈ evs, e ≠ GEvent.kdZ) →
        totalHammerHits cfg s evs + marioSwingLive ((sysRun cfg s evs).mario)
          ≤ marioSwingLive s.mario ∧ totalHammerHits cfg s evs ≤ 1) ∧
    ((∀ e ∈ evs, e ≠ GEvent.kdSlash) →
        totalPunchHits cfg s evs + bowserSwingLive ((sysRun cfg s evs).bowser)
          ≤ bowserSwingLive s.bowser ∧ totalPunchHits cfg s evs ≤ 1) ∧
    (s.mario.isInHitstun = false → s.mario.isBlocking = false →
        ((onKeyDown s .kdZ).mario.isAttacking = true ∧
         (onKeyDown s .kdZ).mario.attackHasHit = false)) ∧
    (s.mario.isInHitstun = false → s.bowser.isInHitstun = false →
     s.bowser.isBlocking = false →
        ((onKeyDown s .kdSlash).bowser.isAttacking = true ∧
         (onKeyDown s .kdSlash).bowser.attackHasHit = false)) := by
  refine ⟨?_, ?_, ?_, ?_⟩
  · intro hz
    have h := totalHammer_measure cfg s evs hz
    exact ⟨h, le_trans (le_trans (Nat.le_add_right _ _) h) (marioSwingLive_le_one _)⟩
  · intro hs
    have h := totalPunch_measure cfg s evs hs
    exact ⟨h, le_trans (le_trans (Nat.le_add_right _ _) h) (bowserSwingLive_le_one _)⟩
  · intro hm hbl
    simp only [onKeyDown, hm, hbl, Bool.false_eq_true, not_false_eq_true, if_false, if_true]
    split
    · exact ⟨rfl, rfl⟩
    · exact ⟨rfl, rfl⟩
  · intro hm hb hbl
    simp only [onKeyDown, hm, hb, hbl, Bool.false_eq_true, not_false_eq_true, if_false,
      if_true, true_and, and_true, and_self]

/-- Concrete instantiation of the hit-once theorem. -/
theorem C8_theorem_witness :
    totalHammerHits sampleCfg (initFight sampleCfg) [GEvent.tick oHammer] ≤ 1 ∧
    totalPunchHits sampleCfg (initFight sampleCfg) [GEvent.tick oHammer] ≤ 1 ∧
    (onKeyDown (initFight sampleCfg) .kdZ).mario.isAttacking = true ∧
    (onKeyDown (initFight sampleCfg) .kdSlash).bowser.isAttacking = true := by
  have h := C8_theorem sampleCfg (initFight sampleCfg) [GEvent.tick oHammer]
  have hz : ∀ e ∈ [GEvent.tick oHammer], e ≠ GEvent.kdZ := by
    intro e hmem
    rw [List.mem_singleton] at hmem
    subst hmem
    intro hc
    cases hc
  have hs : ∀ e ∈ [GEvent.tick oHammer], e ≠ GEvent.kdSlash := by
    intro e hmem
    rw [List.mem_singleton] at hmem
    subst hmem
    intro hc
    cases hc
  exact ⟨(h.1 hz).2, (h.2.1 hs).2, (h.2.2.1 (by decide) (by decide)).1,
    (h.2.2.2 (by decide) (by decide) (by decide)).1⟩

/-! ## Health clamping (Claim C1) -/

theorem marioStandAnim_flags (s : MarioState) :
    (marioStandAnim s).isSpecial = s.isSpecial ∧
    (marioStandAnim s).isBlocking = s.isBlocking ∧
    (marioStandAnim s).isAttacking = s.isAttacking ∧
    (marioStandAnim s).isInHitstun = s.isInHitstun ∧
    (marioStandAnim s).health = s.health := by
  simp only [marioStandAnim]
  repeat' split
  all_goals exact ⟨rfl, rfl, rfl, rfl, rfl⟩

/-- With every action flag off, the animation section is the stand
loop and spawns nothing. -/
theorem marioAnim_stand (cfg : MarioCfg) (s : MarioState)
    (hbl : s.isBlocking = false) (hat : s.isAttacking = false)
    (hsp : s.isSpecial = false) :
    marioAnim cfg s = (marioStandAnim s, false) := by
  simp only [marioAnim, hbl, hat, hsp]
  rw [if_neg (by simp), if_neg (by simp), if_neg (by simp)]

/-- An idle (stand-path) `Mario.update` tick: flags and health are
untouched and no fireball spawns. -/
theorem marioUpdate_stand (cfg : MarioCfg) (bx : ℚ) (s : MarioState)
    (hhs : s.isInHitstun = false) (hbl : s.isBlocking = false)
    (hat : s.isAttacking = false) (hsp : s.isSpecial = false) :
    ((marioUpdate cfg bx s).1).isInHitstun = false ∧
    ((marioUpdate cfg bx s).1).isSpecial = false ∧
    ((marioUpdate cfg bx s).1).isBlocking = false ∧
    ((marioUpdate cfg bx s).1).isAttacking = false ∧
    ((marioUpdate cfg bx s).1).health = s.health ∧
    (marioUpdate cfg bx s).2 = false := by
  unfold marioUpdate
  rw [hhs]
  simp only [Bool.false_eq_true, if_false]
  set p := marioPhysics cfg bx s with hp
  have hpc := marioPhysics_combat cfg bx s
  have hpi := marioPhysics_isInHitstun cfg bx s
  rw [marioAnim_stand cfg p (by rw [hpc.2.2.2.2.2.2.1, hbl])
    (by rw [hpc.2.2.2.2.2.2.2.1, hat]) (by rw [hpc.1, hsp])]
  simp only
  have hst := marioStandAnim_flags p
  have hht := marioHitstunTick_combat (marioStandAnim p)
  refine ⟨?_, ?_, ?_, ?_, ?_, trivial⟩
  · apply marioHitstunTick_isInHitstun_false
    rw [hst.2.2.2.1, hpi, hhs]
  · rw [hht.1, hst.1, hpc.1, hsp]
  · rw [hht.2.2.2.2.2.2.1, hst.2.1, hpc.2.2.2.2.2.2.1, hbl]
  · rw [hht.2.2.2.2.2.2.2.1, hst.2.2.1, hpc.2.2.2.2.2.2.2.1, hat]
  · rw [hht.2.2.2.2.2.2.2.2, hst.2.2.2.2, hpc.2.2.2.2.2.2.2.2.2]

theorem bowserPhysics_extra (cfg : BowserCfg) (mx : ℚ) (s : BowserState) :
    (bowserPhysics cfg mx s).attackFrameIndex = s.attackFrameIndex ∧
    (bowserPhysics cfg mx s).attackTimer = s.attackTimer := by
  simp only [bowserPhysics]
  repeat' split
  all_goals exact ⟨rfl, rfl⟩

theorem bowserWalkAnim_extra (s : BowserState) :
    (bowserWalkAnim s).attackFrameIndex = s.attackFrameIndex ∧
    (bowserWalkAnim s).health = s.health := by
  simp only [bowserWalkAnim]
  repeat' split
  all_goals exact ⟨rfl, rfl⟩

/-- With block/hit/charging/flameblast off and the punch active, the
animation section routes through the punch sub-machine. -/
theorem bowserAnim_punch (cfg : BowserCfg) (sk : Bool) (s : BowserState)
    (hbl : s.isBlocking = false) (hpl : s.isPlayingHit = false)
    (hch : s.isCharging = false) (hfb : s.isFlameblasting = false)
    (hat : s.isAttacking = true) (hfr : 0 < cfg.punchLen) :
    bowserAnim cfg sk s = bowserPunchAnim cfg s := by
  simp only [bowserAnim, hbl, hpl, hch, hfb, hat]
  rw [if_neg (by simp), if_neg (by simp), if_neg (by simp), if_neg (by simp),
      if_pos (by exact ⟨trivial, hfr⟩)]

/-- A sub-`attack_speed` punch tick only advances `attack_timer`. -/
theorem bowserPunchAnim_tick (cfg : BowserCfg) (s : BowserState)
    (ht : s.attackTimer + 1 < bAttackSpeed) :
    bowserPunchAnim cfg s = { s with attackTimer := s.attackTimer + 1 } := by
  simp only [bowserPunchAnim]
  rw [if_neg (by omega)]

/-- A `Bowser.update` tick on the first frame of a fresh punch: the
swing stays live on frame index 0 and every mode flag and health is
untouched. -/
theorem bowserUpdate_punch (cfg : BowserCfg) (mx : ℚ) (s : BowserState)
    (hhs : s.isInHitstun = false) (hbl : s.isBlocking = false)
    (hpl : s.isPlayingHit = false) (hch : s.isCharging = false)
    (hfb : s.isFlameblasting = false) (hat : s.isAttacking = true)
    (hti : s.attackTimer = 0) (hidx : s.attackFrameIndex = 0)
    (hhh : s.attackHasHit = false) (hfr : 0 < cfg.punchLen) :
    (bowserUpdate cfg mx s).isInHitstun = false ∧
    (bowserUpdate cfg mx s).isBlocking = false ∧
    (bowserUpdate cfg mx s).isPlayingHit = false ∧
    (bowserUpdate cfg mx s).isCharging = false ∧
    (bowserUpdate cfg mx s).isFlameblasting = false ∧
    (bowserUpdate cfg mx s).isAttacking = true ∧
    (bowserUpdate cfg mx s).attackFrameIndex = 0 ∧
    (bowserUpdate cfg mx s).attackHasHit = false ∧
    (bowserUpdate cfg mx s).health = s.health := by
  simp only [bowserUpdate]
  set p := bowserPhysics cfg mx s with hp
  have hpc := bowserPhysics_combat cfg mx s
  have hpi := bowserPhysics_isInHitstun cfg mx s
  have hpe := bowserPhysics_extra cfg mx s
  have hph := bowserPhysics_hasHit cfg mx s
  rw [bowserAnim_punch cfg s.isInHitstun p
    (by rw [hpc.2.2.2.2.2.2.2.1, hbl])
    (by rw [hpc.2.2.2.2.2.2.2.2.2.1, hpl])
    (by rw [hpc.1, hch])
    (by rw [hpc.2.1, hfb])
    (by rw [hpc.2.2.2.2.2.2.2.2.1, hat]) hfr]
  rw [bowserPunchAnim_tick cfg p
    (by rw [hpe.2, hti]; unfold bAttackSpeed; omega)]
  set b : BowserState := { p with attackTimer := p.attackTimer + 1 } with hb
  have hbfb : b.isFlameblasting = false := by
    show p.isFlameblasting = false
    rw [hpc.2.1, hfb]
  have hbh : b.isInHitstun = false := by
    show p.isInHitstun = false
    rw [hpi, hhs]
  have hbp : b.isPlayingHit = false := by
    show p.isPlayingHit = false
    rw [hpc.2.2.2.2.2.2.2.2.2.1, hpl]
  have hw := bowserWalkAnim_combat b
  have hwe := bowserWalkAnim_extra b
  set w := bowserWalkAnim b with hwdef
  have hwf : w.isFlameblasting = false := by rw [hw.1]; exact hbfb
  have hwh : w.isInHitstun = false := by
    rw [hw.2.2.2.2.2.2.2.2.2.2.2.2.2.2.2]
    exact hbh
  have hwp : w.isPlayingHit = false := by
    rw [hw.2.2.2.2.2.2.2.2.2.2.2.2.2.2.1]
    exact hbp
  rw [bowserSafetyReset_id cfg w (Or.inr (Or.inl hwf)), bowserHitstunTick_id w hwh hwp]
  refine ⟨hwh, ?_, hwp, ?_, hwf, ?_, ?_, ?_, ?_⟩
  · rw [hw.2.2.2.2.2.2.2.2.2.2.2.2.2.1]
    show p.isBlocking = false
    rw [hpc.2.2.2.2.2.2.2.1, hbl]
  · rw [hw.2.1]
    show p.isCharging = false
    rw [hpc.1, hch]
  · rw [hw.2.2.2.2.2.2.2.2.2.2.2.1]
    show p.isAttacking = true
    rw [hpc.2.2.2.2.2.2.2.2.1, hat]
  · rw [hwe.1]
    show p.attackFrameIndex = 0
    rw [hpe.1, hidx]
  · rw [hw.2.2.2.2.2.2.2.2.2.2.2.2.1]
    show p.attackHasHit = false
    rw [hph, hhh]
  · rw [hwe.2]
    show p.health = s.health
    rw [hpc.2.2.2.2.2.2.2.2.2.2]

theorem marioStartHitstunAnim_flags (cfg : MarioCfg) (d : ℤ) (s : MarioState) :
    (marioStartHitstunAnim cfg d s).isSpecial = s.isSpecial ∧
    (marioStartHitstunAnim cfg d s).isBlocking = s.isBlocking ∧
    (marioStartHitstunAnim cfg d s).isAttacking = s.isAttacking ∧
    (marioStartHitstunAnim cfg d s).isInHitstun = s.isInHitstun ∧
    (marioStartHitstunAnim cfg d s).health = s.health := by
  simp only [marioStartHitstunAnim]
  repeat' split
  all_goals exact ⟨rfl, rfl, rfl, rfl, rfl⟩

theorem resolveHammerC_idle (cfg : Cfg) (ov : Bool) (s : FightState)
    (h : s.mario.isAttacking = false) :
    resolveHammerC cfg ov s = (s, false) := by
  simp only [resolveHammerC]
  rw [if_neg (by simp [h])]

/-- A punch resolution on frame 0 of a live swing with an overlapping
hitbox against a non-charging Mario: base 15 damage, 30-tick hit
animation, guard set. -/
theorem resolvePunchC_hit (cfg : Cfg) (s : FightState)
    (hat : s.bowser.isAttacking = true) (hidx : s.bowser.attackFrameIndex < cfg.b.punchLen)
    (hhh : s.bowser.attackHasHit = false) (hfr : 0 < cfg.b.punchLen)
    (hsp : s.mario.isSpecial = false) :
    resolvePunchC cfg true s
      = ({ s with
             mario := marioStartHitstunAnim cfg.m 30
               { s.mario with health := s.mario.health - 15 },
             bowser := { s.bowser with attackHasHit := true } }, true) := by
  simp only [resolvePunchC]
  rw [if_pos ⟨by simp [hat], hidx, by simp [hhh]⟩,
      if_pos (by simp [bowserGetAttackHitbox, hat, hfr]),
      if_pos (by trivial), if_neg (by simp [hsp])]

theorem resolveFlame_idle (cfg : Cfg) (ov : Bool) (s : FightState)
    (h : s.bowser.isFlameblasting = false) :
    resolveFlame cfg ov s = s := by
  simp only [resolveFlame]
  rw [if_neg (by simp [h])]

theorem resolveFireballsBowser_nil (cfg : Cfg) (hit : ℕ → Bool) (s : FightState)
    (h : s.fireballs = []) : resolveFireballsBowser cfg hit s = s := by
  simp [resolveFireballsBowser, h]

theorem resolveFireballsFlame_nil (cfg : Cfg) (hit : ℕ → Bool) (s : FightState)
    (h : s.fireballs = []) : resolveFireballsFlame cfg hit s = s := by
  simp [resolveFireballsFlame, h]

/-- The Slash handler on an unstunned, non-blocking Bowser: the punch
restarts with a cleared guard. -/
theorem onKeyDown_kdSlash (s : FightState) (hm : s.mario.isInHitstun = false)
    (hb : s.bowser.isInHitstun = false) (hbl : s.bowser.isBlocking = false) :
    onKeyDown s .kdSlash
      = { s with bowser := { s.bowser with isAttacking := true, attackFrameIndex := 0,
                                           attackTimer := 0, attackHasHit := false } } := by
  simp only [onKeyDown, hm, hb, hbl, Bool.false_eq_true, not_false_eq_true, if_false,
    if_true, true_and, and_true, and_self]

/-- One `update()` tick with the punch collision test succeeding,
taken from the state right after a fresh Slash press: Mario loses
exactly 15 health (no clamp of any kind is applied to the stored
value) and the cycle invariant is restored. -/
theorem gameTick_punchCycle (cfg : Cfg) (s : FightState)
    (hm1 : s.mario.isInHitstun = false) (hm2 : s.mario.isSpecial = false)
    (hm3 : s.mario.isBlocking = false) (hm4 : s.mario.isAttacking = false)
    (hb1 : s.bowser.isInHitstun = false) (hb2 : s.bowser.isBlocking = false)
    (hb3 : s.bowser.isPlayingHit = false) (hb4 : s.bowser.isCharging = false)
    (hb5 : s.bowser.isFlameblasting = false) (hb6 : s.bowser.isAttacking = true)
    (hb7 : s.bowser.attackTimer = 0) (hb8 : s.bowser.attackFrameIndex = 0)
    (hb9 : s.bowser.attackHasHit = false) (hfb : s.fireballs = [])
    (hfr : 0 < cfg.b.punchLen) :
    (gameTick cfg oPunch s).mario.isInHitstun = false ∧
    (gameTick cfg oPunch s).mario.isSpecial = false ∧
    (gameTick cfg oPunch s).mario.isBlocking = false ∧
    (gameTick cfg oPunch s).mario.isAttacking = false ∧
    (gameTick cfg oPunch s).mario.health = s.mario.health - 15 ∧
    (gameTick cfg oPunch s).bowser.isInHitstun = false ∧
    (gameTick cfg oPunch s).bowser.isBlocking = false ∧
    (gameTick cfg oPunch s).bowser.isPlayingHit = false ∧
    (gameTick cfg oPunch s).bowser.isCharging = false ∧
    (gameTick cfg oPunch s).bowser.isFlameblasting = false ∧
    (gameTick cfg oPunch s).fireballs = [] := by
  simp only [gameTick, gameTickC, oPunch, oNone]
  have hms := marioUpdate_stand cfg.m s.bowser.x s.mario hm1 hm3 hm4 hm2
  set m1 := (marioUpdate cfg.m s.bowser.x s.mario).1 with hm1def
  have hbs := bowserUpdate_punch cfg.b m1.x s.bowser hb1 hb2 hb3 hb4 hb5 hb6 hb7 hb8 hb9 hfr
  set b1 := bowserUpdate cfg.b m1.x s.bowser with hb1def
  rw [hms.2.2.2.2.2]
  simp only [Bool.false_eq_true, if_false, hfb, List.append_nil]
  rw [resolveHammerC_idle cfg false _ hms.2.2.2.1]
  rw [resolvePunchC_hit cfg _ hbs.2.2.2.2.2.1
    (by rw [hbs.2.2.2.2.2.2.1]; exact hfr) hbs.2.2.2.2.2.2.2.1 hfr hms.2.1]
  rw [resolveFlame_idle cfg false _ hbs.2.2.2.2.1]
  rw [resolveFireballsBowser_nil cfg _ _ rfl, resolveFireballsFlame_nil cfg _ _ rfl]
  have hmf := marioStartHitstunAnim_flags cfg.m 30 { m1 with health := m1.health - 15 }
  refine ⟨?_, ?_, ?_, ?_, ?_, hbs.1, hbs.2.1, hbs.2.2.1, hbs.2.2.2.1, hbs.2.2.2.2.1, rfl⟩
  · rw [hmf.2.2.2.1]
    show m1.isInHitstun = false
    exact hms.1
  · rw [hmf.1]
    show m1.isSpecial = false
    exact hms.2.1
  · rw [hmf.2.1]
    show m1.isBlocking = false
    exact hms.2.2.1
  · rw [hmf.2.2.1]
    show m1.isAttacking = false
    exact hms.2.2.2.1
  · rw [hmf.2.2.2.2]
    show m1.health - 15 = s.mario.health - 15
    rw [hms.2.2.2.2.1]

/-- Cycle invariant: after `n` Slash-plus-landing-tick cycles from the
initial state, Mario's stored health is exactly `500 - 15n` — there is
no lower clamp. -/
theorem punchCycle_run (cfg : Cfg) (hfr : 0 < cfg.b.punchLen) :
    ∀ n : ℕ,
      ((punchCycle cfg)^[n] (initFight cfg)).mario.isInHitstun = false ∧
      ((punchCycle cfg)^[n] (initFight cfg)).mario.isSpecial = false ∧
      ((punchCycle cfg)^[n] (initFight cfg)).mario.isBlocking = false ∧
      ((punchCycle cfg)^[n] (initFight cfg)).mario.isAttacking = false ∧
      ((punchCycle cfg)^[n] (initFight cfg)).mario.health = 500 - 15 * (n : ℚ) ∧
      ((punchCycle cfg)^[n] (initFight cfg)).bowser.isInHitstun = false ∧
      ((punchCycle cfg)^[n] (initFight cfg)).bowser.isBlocking = false ∧
      ((punchCycle cfg)^[n] (initFight cfg)).bowser.isPlayingHit = false ∧
      ((punchCycle cfg)^[n] (initFight cfg)).bowser.isCharging = false ∧
      ((punchCycle cfg)^[n] (initFight cfg)).bowser.isFlameblasting = false ∧
      ((punchCycle cfg)^[n] (initFight cfg)).fireballs = [] := by
  intro n
  induction n with
  | zero =>
      refine ⟨rfl, rfl, rfl, rfl, ?_, rfl, rfl, rfl, rfl, rfl, rfl⟩
      show (500 : ℚ) = 500 - 15 * ((0 : ℕ) : ℚ)
      norm_num
  | succ n ih =>
      rw [Function.iterate_succ_apply']
      set t := (punchCycle cfg)^[n] (initFight cfg) with ht
      unfold punchCycle
      simp only [sysStep]
      have hks := onKeyDown_kdSlash t ih.1 ih.2.2.2.2.2.1 ih.2.2.2.2.2.2.1
      rw [hks]
      have hg := gameTick_punchCycle cfg
        { t with bowser := { t.bowser with isAttacking := true, attackFrameIndex := 0, attackTimer := 0, attackHasHit := false } }
        ih.1 ih.2.1 ih.2.2.1 ih.2.2.2.1
        ih.2.2.2.2.2.1 ih.2.2.2.2.2.2.1 ih.2.2.2.2.2.2.2.1 ih.2.2.2.2.2.2.2.2.1
        ih.2.2.2.2.2.2.2.2.2.1 rfl rfl rfl rfl ih.2.2.2.2.2.2.2.2.2.2 hfr
      refine ⟨hg.1, hg.2.1, hg.2.2.1, hg.2.2.2.1, ?_, hg.2.2.2.2.2.1, hg.2.2.2.2.2.2.1,
        hg.2.2.2.2.2.2.2.1, hg.2.2.2.2.2.2.2.2.1, hg.2.2.2.2.2.2.2.2.2.1,
        hg.2.2.2.2.2.2.2.2.2.2⟩
      rw [hg.2.2.2.2.1]
      show t.mario.health - 15 = 500 - 15 * ((n + 1 : ℕ) : ℚ)
      rw [ih.2.2.2.2.1]
      push_cast
      ring

/-- Thirty-four punch cycles drive Mario's stored health to −10: the
damage application at line 2281 subtracts without any clamp, and only
the HUD's `max(0, int(health))` hides the negative value. -/
theorem C1_counterexample :
    ((punchCycle sampleCfg)^[34] (initFight sampleCfg)).mario.health = -10 ∧
    ((punchCycle sampleCfg)^[34] (initFight sampleCfg)).mario.health < 0 ∧
    displayedHP (((punchCycle sampleCfg)^[34] (initFight sampleCfg)).mario.health) = 0 := by
  have h := (punchCycle_run sampleCfg (by decide) 34).2.2.2.2.1
  have hv : ((punchCycle sampleCfg)^[34] (initFight sampleCfg)).mario.health = -10 := by
    rw [h]
    norm_num
  refine ⟨hv, ?_, ?_⟩
  · rw [hv]
    norm_num
  · rw [hv]
    decide

/-- C1 (corrected).  The stored health values are never clamped: along
the reachable punch-cycle trace the damage application leaves Mario's
health at exactly `500 − 15n`, which goes negative (−10 at n = 34).
Only the HUD display applies `max(0, int(health))`, which is
nonnegative and shows 0 for any negative stored health. -/
theorem C1_theorem :
    (∀ q : ℚ, 0 ≤ displayedHP q) ∧
    (∀ cfg : Cfg, 0 < cfg.b.punchLen → ∀ n : ℕ,
        ((punchCycle cfg)^[n] (initFight cfg)).mario.health = 500 - 15 * (n : ℚ)) ∧
    (∀ q : ℚ, q < 0 → displayedHP q = 0) := by
  refine ⟨fun q => le_max_left 0 (pyInt q),
    fun cfg hfr n => (punchCycle_run cfg hfr n).2.2.2.2.1, ?_⟩
  intro q hq
  unfold displayedHP pyInt
  rw [if_neg (not_le.mpr hq)]
  exact max_eq_left (Int.ceil_le.mpr (by push_cast; exact le_of_lt hq))

/-- Concrete instantiation of the clamp theorem. -/
theorem C1_theorem_witness :
    0 ≤ displayedHP 500 ∧
    ((punchCycle sampleCfg)^[1] (initFight sampleCfg)).mario.health = 500 - 15 * (1 : ℚ) ∧
    displayedHP (-10) = 0 := by
  have h := C1_theorem
  have h2 := h.2.1 sampleCfg (by decide) 1
  refine ⟨h.1 500, ?_, h.2.2 (-10) (by norm_num)⟩
  rw [h2]
  norm_num

end MarioFighter
